import Mathlib

/-! # Mantle transaction variants, signer dispatch and header metadata codec

A shallow embedding of `core/types/mt_types.go`, `core/types/mantle_signer.go`
and `core/types/mantle_legacy_tx.go`.

Conventions of the embedding:

* a Go `byte` is a `Nat` below 256, a `uint64` a `Nat` below `2 ^ 64`; the
  conversions that truncate are written with an explicit `%`;
* `[]byte`, `common.Hash` (`[32]byte`) and `common.Address` (`[20]byte`) are
  `List Nat`; the fixed lengths are part of the well-formedness predicates;
* `*big.Int` and `*common.Address` are `Option Int` and `Option (List Nat)`,
  `none` being the nil pointer;
* a Go function returning `(T, error)` returns `T × Option String`, `none`
  being the nil error; a function that can panic returns an `Option`.
-/

namespace Mantle

set_option maxRecDepth 100000

/-! ## Bytes and integers -/

/-- Go conversion `byte(x)` of an unsigned integer: its low eight bits. -/
def byte (x : Nat) : Nat := x % 256

/-- Every element of the list is a byte value. -/
def isBytes (bs : List Nat) : Prop := ∀ b ∈ bs, b < 256

instance (bs : List Nat) : Decidable (isBytes bs) :=
  inferInstanceAs (Decidable (∀ b ∈ bs, b < 256))

/-- The number denoted by a byte string read as a big-endian unsigned integer. -/
def bigEndianValue (bs : List Nat) : Nat := bs.foldl (fun acc b => acc * 256 + b) 0

/-- The byte string `bs` is the `n`-byte big-endian encoding of `v`. -/
def IsBigEndian (n v : Nat) (bs : List Nat) : Prop :=
  bs.length = n ∧ isBytes bs ∧ bigEndianValue bs = v

instance (n v : Nat) (bs : List Nat) : Decidable (IsBigEndian n v bs) :=
  inferInstanceAs (Decidable (bs.length = n ∧ isBytes bs ∧ bigEndianValue bs = v))

/-- Go builtin `copy(dst, src)`: the contents of `dst` afterwards. It copies
`min(len(dst), len(src))` elements. -/
def copy (dst src : List Nat) : List Nat :=
  src.take dst.length ++ dst.drop src.length

/-- The array `a` after the sub-slice `a[lo:hi]` was overwritten in place by `f`. -/
def updateSlice (a : List Nat) (lo hi : Nat) (f : List Nat → List Nat) : List Nat :=
  a.take lo ++ f ((a.drop lo).take (hi - lo)) ++ a.drop hi

namespace BigEndian

/-- Go `binary.BigEndian.PutUint64(b, v)`: the contents of the slice `b`
afterwards (`b` holds at least eight bytes at every call site). -/
def PutUint64 (b : List Nat) (v : Nat) : List Nat :=
  [byte (v >>> 56), byte (v >>> 48), byte (v >>> 40), byte (v >>> 32),
   byte (v >>> 24), byte (v >>> 16), byte (v >>> 8), byte v] ++ b.drop 8

/-- Go `binary.BigEndian.Uint64(b)` on a slice of eight bytes. -/
def Uint64 (b : List Nat) : Nat :=
  b.getD 7 0 ||| b.getD 6 0 <<< 8 ||| b.getD 5 0 <<< 16 ||| b.getD 4 0 <<< 24 |||
    b.getD 3 0 <<< 32 ||| b.getD 2 0 <<< 40 ||| b.getD 1 0 <<< 48 ||| b.getD 0 0 <<< 56

end BigEndian

/-! ## Block header metadata -/

/-- Modelled from the spec: the block header `types.Header`, declared outside these
sources, reduced to the fields the metadata codec reads or writes: the two
repurposed fields and the base fee. -/
structure Header where
  /-- Field `MixDigest common.Hash`. -/
  MixDigest : List Nat
  /-- Field `Extra []byte`. -/
  Extra : List Nat
  /-- Field `BaseFee *big.Int`. -/
  BaseFee : Option Int
deriving DecidableEq, Repr

/-- Go type invariant of a header: `MixDigest` is a 32-byte array. -/
def Header.WF (h : Header) : Prop :=
  h.MixDigest.length = 32 ∧ isBytes h.MixDigest ∧ isBytes h.Extra

instance (h : Header) : Decidable h.WF :=
  inferInstanceAs (Decidable (h.MixDigest.length = 32 ∧ isBytes h.MixDigest ∧ isBytes h.Extra))

/-- Go `type HeaderInfo struct` -/
structure HeaderInfo where
  SendRoot : List Nat
  SendCount : Nat
  L1BlockNumber : Nat
  MtOSFormatVersion : Nat
deriving DecidableEq, Repr

/-- Go type invariant of a `HeaderInfo`: a 32-byte hash and three `uint64`. -/
def HeaderInfo.WF (info : HeaderInfo) : Prop :=
  info.SendRoot.length = 32 ∧ isBytes info.SendRoot ∧ info.SendCount < 2 ^ 64 ∧
    info.L1BlockNumber < 2 ^ 64 ∧ info.MtOSFormatVersion < 2 ^ 64

instance (info : HeaderInfo) : Decidable info.WF :=
  inferInstanceAs (Decidable (info.SendRoot.length = 32 ∧ isBytes info.SendRoot ∧
    info.SendCount < 2 ^ 64 ∧ info.L1BlockNumber < 2 ^ 64 ∧ info.MtOSFormatVersion < 2 ^ 64))

/-- The zero value `common.Hash{}`. -/
def zeroHash : List Nat := List.replicate 32 0

/-- The zero value `HeaderInfo{}`. -/
def HeaderInfo.zero : HeaderInfo :=
  { SendRoot := zeroHash, SendCount := 0, L1BlockNumber := 0, MtOSFormatVersion := 0 }

/-- Go `func (info HeaderInfo) extra() []byte` -/
def HeaderInfo.extra (info : HeaderInfo) : List Nat := info.SendRoot

/-- Go `func (info HeaderInfo) mixDigest() [32]byte` -/
def HeaderInfo.mixDigest (info : HeaderInfo) : List Nat :=
  let mixDigest := zeroHash
  let mixDigest := updateSlice mixDigest 0 8 (fun b => BigEndian.PutUint64 b info.SendCount)
  let mixDigest := updateSlice mixDigest 8 16 (fun b => BigEndian.PutUint64 b info.L1BlockNumber)
  let mixDigest := updateSlice mixDigest 16 24 (fun b => BigEndian.PutUint64 b info.MtOSFormatVersion)
  mixDigest

/-- Go `func (info HeaderInfo) UpdateHeaderWithInfo(header *Header)`: the header afterwards. -/
def HeaderInfo.UpdateHeaderWithInfo (info : HeaderInfo) (header : Header) : Header :=
  let header := { header with MixDigest := info.mixDigest }
  let header := { header with Extra := info.extra }
  header

/-- Go `func DeserializeHeaderExtraInformation(header *Header) (HeaderInfo, error)` -/
def DeserializeHeaderExtraInformation (header : Header) : HeaderInfo × Option String :=
  if header.BaseFee = none ∨ header.BaseFee = some 0 ∨ header.Extra.length = 0 then
    (HeaderInfo.zero, none)
  else if header.Extra.length ≠ 32 then
    (HeaderInfo.zero,
      some ("unexpected header extra field length " ++ toString header.Extra.length))
  else
    let extra := HeaderInfo.zero
    let extra := { extra with SendRoot := copy extra.SendRoot header.Extra }
    let extra := { extra with SendCount := BigEndian.Uint64 (header.MixDigest.take 8) }
    let extra := { extra with
      L1BlockNumber := BigEndian.Uint64 ((header.MixDigest.drop 8).take 8) }
    let extra := { extra with
      MtOSFormatVersion := BigEndian.Uint64 ((header.MixDigest.drop 16).take 8) }
    (extra, none)

/-! ## Hexadecimal literals and well-known addresses -/

/-- Value of one hexadecimal digit, as `encoding/hex` reads it. -/
def fromHexChar (c : Char) : Option Nat :=
  if '0' ≤ c ∧ c ≤ '9' then some (c.toNat - '0'.toNat)
  else if 'a' ≤ c ∧ c ≤ 'f' then some (c.toNat - 'a'.toNat + 10)
  else if 'A' ≤ c ∧ c ≤ 'F' then some (c.toNat - 'A'.toNat + 10)
  else none

/-- Go `hex.DecodeString`: the bytes decoded before the first error, and whether
the whole input was decoded. -/
def hexDecodeString : List Char → List Nat × Bool
  | [] => ([], true)
  | [_] => ([], false)
  | a :: b :: rest =>
    match fromHexChar a, fromHexChar b with
    | some x, some y =>
      let r := hexDecodeString rest
      ((x * 16 + y) :: r.1, r.2)
    | _, _ => ([], false)

/-- Modelled from the spec: `hexutil.MustDecode` of `common/hexutil`, which these
sources call but do not contain; it yields the "fixed 4-byte function selector"
written as a `0x` literal. The result is the decoded bytes; `none` is the panic on
an input that is empty, lacks the `0x` prefix or is not an even number of
hexadecimal digits. -/
def hexutil.MustDecode (input : String) : Option (List Nat) :=
  match input.toList with
  | '0' :: x :: rest =>
    if x = 'x' ∨ x = 'X' then
      match hexDecodeString rest with
      | (bs, true) => some bs
      | (_, false) => none
    else none
  | _ => none

/-- Modelled from the spec: `common.BytesToAddress` of package `common`, outside
these sources: `b` cropped from the left to 20 bytes and copied to the right end of
a zero address. -/
def BytesToAddress (b : List Nat) : List Nat :=
  let b := if b.length > 20 then b.drop (b.length - 20) else b
  let a := List.replicate 20 0
  a.take (20 - b.length) ++ copy (a.drop (20 - b.length)) b

/-- Modelled from the spec: `common.HexToAddress` of package `common`, outside these
sources, which gives the "fixed well-known addresses" from their hexadecimal
literals: `BytesToAddress(FromHex(s))`, where `FromHex` drops an optional `0x`
prefix and pads an odd number of digits with a leading `0`. -/
def HexToAddress (s : String) : List Nat :=
  let cs := match s.toList with
    | '0' :: 'x' :: rest => rest
    | '0' :: 'X' :: rest => rest
    | cs => cs
  let cs := if cs.length % 2 = 1 then '0' :: cs else cs
  BytesToAddress (hexDecodeString cs).1

/-- Go `var MtosAddress = common.HexToAddress("0xa4b05")` -/
def MtosAddress : List Nat := HexToAddress "0xa4b05"

/-- Go `var MtSysAddress = common.HexToAddress("0x64")` -/
def MtSysAddress : List Nat := HexToAddress "0x64"

/-- Go `var MtGasInfoAddress = common.HexToAddress("0x6c")` -/
def MtGasInfoAddress : List Nat := HexToAddress "0x6c"

/-- Go `var MtRetryableTxAddress = common.HexToAddress("0x6e")` -/
def MtRetryableTxAddress : List Nat := HexToAddress "0x6e"

/-- The zero value `common.Address{}`. -/
def zeroAddress : List Nat := List.replicate 20 0

/-! ## Big integers -/

/-- Go `var bigZero = big.NewInt(0)` -/
def bigZero : Option Int := some 0

/-- The copy idiom of every `copy()` method: `new(big.Int)`, overwritten by
`Set(x)` when `x != nil`. -/
def copyBigInt (x : Option Int) : Option Int :=
  let cpy : Int := 0
  match x with
  | some v => some v
  | none => some cpy

/-- The `n` low-order bytes of `v`, most significant first. -/
def bigEndianBytes : Nat → Nat → List Nat
  | 0, _ => []
  | n + 1, v => bigEndianBytes n (v / 256) ++ [v % 256]

/-- Modelled from the spec: `math.U256Bytes` of `common/math`, which these sources
call but do not contain. The spec has it produce the "32-byte big-endian unsigned"
encoding of the number; a number outside `[0, 2^256)` is first reduced to its low
256 bits (two's complement), and a nil pointer is dereferenced (`none`). -/
def math.U256Bytes (n : Option Int) : Option (List Nat) :=
  match n with
  | none => none
  | some x => some (bigEndianBytes 32 (x % 2 ^ 256).toNat)

/-! ## Transaction variants -/

/-- Go `type MantleUnsignedTx struct` -/
structure MantleUnsignedTx where
  ChainId : Option Int
  From : List Nat
  Nonce : Nat
  GasFeeCap : Option Int
  Gas : Nat
  To : Option (List Nat)
  Value : Option Int
  Data : List Nat
deriving DecidableEq, Repr

/-- Go `type MantleContractTx struct` -/
structure MantleContractTx where
  ChainId : Option Int
  RequestId : List Nat
  From : List Nat
  GasFeeCap : Option Int
  Gas : Nat
  To : Option (List Nat)
  Value : Option Int
  Data : List Nat
deriving DecidableEq, Repr

/-- Go `type MantleRetryTx struct` -/
structure MantleRetryTx where
  ChainId : Option Int
  Nonce : Nat
  From : List Nat
  GasFeeCap : Option Int
  Gas : Nat
  To : Option (List Nat)
  Value : Option Int
  Data : List Nat
  TicketId : List Nat
  RefundTo : List Nat
  MaxRefund : Option Int
  SubmissionFeeRefund : Option Int
deriving DecidableEq, Repr

/-- Go `type MantleSubmitRetryableTx struct` -/
structure MantleSubmitRetryableTx where
  ChainId : Option Int
  RequestId : List Nat
  From : List Nat
  L1BaseFee : Option Int
  DepositValue : Option Int
  GasFeeCap : Option Int
  Gas : Nat
  RetryTo : Option (List Nat)
  RetryValue : Option Int
  Beneficiary : List Nat
  MaxSubmissionFee : Option Int
  FeeRefundAddr : List Nat
  RetryData : List Nat
deriving DecidableEq, Repr

/-- Go `type MantleDepositTx struct` -/
structure MantleDepositTx where
  ChainId : Option Int
  L1RequestId : List Nat
  From : List Nat
  To : List Nat
  Value : Option Int
deriving DecidableEq, Repr

/-- Go `type MantleInternalTx struct` -/
structure MantleInternalTx where
  ChainId : Option Int
  Data : List Nat
deriving DecidableEq, Repr

/-- Modelled from the spec: the base chain's plain legacy transaction `LegacyTx`,
which `MantleLegacyTxData` embeds and whose declaration is outside these sources
(the "ordinary legacy transaction" of the spec). -/
structure LegacyTx where
  Nonce : Nat
  GasPrice : Option Int
  Gas : Nat
  To : Option (List Nat)
  Value : Option Int
  Data : List Nat
  V : Option Int
  R : Option Int
  S : Option Int
deriving DecidableEq, Repr

/-- Modelled from the spec: the base chain's `AccessListTx`, declared outside these
sources; an access list is a list of addresses with their storage keys. -/
structure AccessListTx where
  ChainID : Option Int
  Nonce : Nat
  GasPrice : Option Int
  Gas : Nat
  To : Option (List Nat)
  Value : Option Int
  Data : List Nat
  AccessList : List (List Nat × List (List Nat))
  V : Option Int
  R : Option Int
  S : Option Int
deriving DecidableEq, Repr

/-- Modelled from the spec: the base chain's `DynamicFeeTx`, declared outside these
sources. -/
structure DynamicFeeTx where
  ChainID : Option Int
  Nonce : Nat
  GasTipCap : Option Int
  GasFeeCap : Option Int
  Gas : Nat
  To : Option (List Nat)
  Value : Option Int
  Data : List Nat
  AccessList : List (List Nat × List (List Nat))
  V : Option Int
  R : Option Int
  S : Option Int
deriving DecidableEq, Repr

/-- Go `type MantleLegacyTxData struct`, the embedded `LegacyTx` being the first field. -/
structure MantleLegacyTxData where
  LegacyTx : LegacyTx
  HashOverride : List Nat
  EffectiveGasPrice : Nat
  L1BlockNumber : Nat
  Sender : Option (List Nat)
deriving DecidableEq, Repr

/-- Modelled from the spec: the interface `TxData` of the base chain, as a closed
sum of the three base-chain payloads and the seven variants of these sources: the
dynamic type of `tx.inner` and its value. -/
inductive TxData where
  | LegacyTx (tx : LegacyTx)
  | AccessListTx (tx : AccessListTx)
  | DynamicFeeTx (tx : DynamicFeeTx)
  | MantleUnsignedTx (tx : MantleUnsignedTx)
  | MantleContractTx (tx : MantleContractTx)
  | MantleRetryTx (tx : MantleRetryTx)
  | MantleSubmitRetryableTx (tx : MantleSubmitRetryableTx)
  | MantleDepositTx (tx : MantleDepositTx)
  | MantleInternalTx (tx : MantleInternalTx)
  | MantleLegacyTxData (tx : MantleLegacyTxData)
deriving DecidableEq, Repr

/-- Modelled from the spec: the envelope `types.Transaction`, declared outside these
sources, reduced to the part the signer reads: the inner payload. -/
structure Transaction where
  inner : TxData
deriving DecidableEq, Repr

/-! ### Deep copies -/

/-- Go `func (tx *MantleUnsignedTx) copy() TxData` -/
def MantleUnsignedTx.copy (tx : MantleUnsignedTx) : MantleUnsignedTx :=
  { ChainId := copyBigInt tx.ChainId
    Nonce := tx.Nonce
    GasFeeCap := copyBigInt tx.GasFeeCap
    Gas := tx.Gas
    From := tx.From
    To := match tx.To with
      | some tmp => some tmp
      | none => none
    Value := copyBigInt tx.Value
    Data := tx.Data }

/-- Go `func (tx *MantleContractTx) copy() TxData` -/
def MantleContractTx.copy (tx : MantleContractTx) : MantleContractTx :=
  { ChainId := copyBigInt tx.ChainId
    RequestId := tx.RequestId
    GasFeeCap := copyBigInt tx.GasFeeCap
    Gas := tx.Gas
    From := tx.From
    To := match tx.To with
      | some tmp => some tmp
      | none => none
    Value := copyBigInt tx.Value
    Data := tx.Data }

/-- Go `func (tx *MantleRetryTx) copy() TxData` -/
def MantleRetryTx.copy (tx : MantleRetryTx) : MantleRetryTx :=
  { ChainId := copyBigInt tx.ChainId
    Nonce := tx.Nonce
    GasFeeCap := copyBigInt tx.GasFeeCap
    Gas := tx.Gas
    From := tx.From
    To := match tx.To with
      | some tmp => some tmp
      | none => none
    Value := copyBigInt tx.Value
    Data := tx.Data
    TicketId := tx.TicketId
    RefundTo := tx.RefundTo
    MaxRefund := copyBigInt tx.MaxRefund
    SubmissionFeeRefund := copyBigInt tx.SubmissionFeeRefund }

/-- Go `func (tx *MantleSubmitRetryableTx) copy() TxData` -/
def MantleSubmitRetryableTx.copy (tx : MantleSubmitRetryableTx) : MantleSubmitRetryableTx :=
  { ChainId := copyBigInt tx.ChainId
    RequestId := tx.RequestId
    DepositValue := copyBigInt tx.DepositValue
    L1BaseFee := copyBigInt tx.L1BaseFee
    GasFeeCap := copyBigInt tx.GasFeeCap
    Gas := tx.Gas
    From := tx.From
    RetryTo := match tx.RetryTo with
      | some tmp => some tmp
      | none => tx.RetryTo
    RetryValue := copyBigInt tx.RetryValue
    Beneficiary := tx.Beneficiary
    MaxSubmissionFee := copyBigInt tx.MaxSubmissionFee
    FeeRefundAddr := tx.FeeRefundAddr
    RetryData := tx.RetryData }

/-- Go `func (d *MantleDepositTx) copy() TxData` -/
def MantleDepositTx.copy (d : MantleDepositTx) : MantleDepositTx :=
  { ChainId := copyBigInt d.ChainId
    L1RequestId := d.L1RequestId
    From := d.From
    To := d.To
    Value := copyBigInt d.Value }

/-- Go `func (t *MantleInternalTx) copy() TxData`. `new(big.Int).Set(t.ChainId)`
dereferences `t.ChainId` without a nil check: `none` is that panic. -/
def MantleInternalTx.copy (t : MantleInternalTx) : Option MantleInternalTx :=
  match t.ChainId with
  | none => none
  | some c => some { ChainId := some c, Data := t.Data }

/-- Modelled from the spec: `LegacyTx.copy` of the base chain, outside these
sources: a deep copy in which a nil big integer becomes zero ("normalized to zero
at copy time rather than propagating a null"). -/
def LegacyTx.copy (tx : LegacyTx) : LegacyTx :=
  { Nonce := tx.Nonce
    GasPrice := copyBigInt tx.GasPrice
    Gas := tx.Gas
    To := tx.To
    Value := copyBigInt tx.Value
    Data := tx.Data
    V := copyBigInt tx.V
    R := copyBigInt tx.R
    S := copyBigInt tx.S }

/-- Modelled from the spec: `AccessListTx.copy` of the base chain, outside these
sources: a deep copy in which a nil big integer becomes zero. -/
def AccessListTx.copy (tx : AccessListTx) : AccessListTx :=
  { ChainID := copyBigInt tx.ChainID
    Nonce := tx.Nonce
    GasPrice := copyBigInt tx.GasPrice
    Gas := tx.Gas
    To := tx.To
    Value := copyBigInt tx.Value
    Data := tx.Data
    AccessList := tx.AccessList
    V := copyBigInt tx.V
    R := copyBigInt tx.R
    S := copyBigInt tx.S }

/-- Modelled from the spec: `DynamicFeeTx.copy` of the base chain, outside these
sources: a deep copy in which a nil big integer becomes zero. -/
def DynamicFeeTx.copy (tx : DynamicFeeTx) : DynamicFeeTx :=
  { ChainID := copyBigInt tx.ChainID
    Nonce := tx.Nonce
    GasTipCap := copyBigInt tx.GasTipCap
    GasFeeCap := copyBigInt tx.GasFeeCap
    Gas := tx.Gas
    To := tx.To
    Value := copyBigInt tx.Value
    Data := tx.Data
    AccessList := tx.AccessList
    V := copyBigInt tx.V
    R := copyBigInt tx.R
    S := copyBigInt tx.S }

/-- Go `func (tx *MantleLegacyTxData) copy() TxData` -/
def MantleLegacyTxData.copy (tx : MantleLegacyTxData) : MantleLegacyTxData :=
  let legacyCopy := tx.LegacyTx.copy
  let sender : Option (List Nat) := match tx.Sender with
    | some a => some a
    | none => none
  { LegacyTx := legacyCopy
    HashOverride := tx.HashOverride
    EffectiveGasPrice := tx.EffectiveGasPrice
    L1BlockNumber := tx.L1BlockNumber
    Sender := sender }

/-- Dynamic dispatch of `inner.copy()` on the interface `TxData`; `none` is a panic. -/
def TxData.copy : TxData → Option TxData
  | .LegacyTx tx => some (.LegacyTx tx.copy)
  | .AccessListTx tx => some (.AccessListTx tx.copy)
  | .DynamicFeeTx tx => some (.DynamicFeeTx tx.copy)
  | .MantleUnsignedTx tx => some (.MantleUnsignedTx tx.copy)
  | .MantleContractTx tx => some (.MantleContractTx tx.copy)
  | .MantleRetryTx tx => some (.MantleRetryTx tx.copy)
  | .MantleSubmitRetryableTx tx => some (.MantleSubmitRetryableTx tx.copy)
  | .MantleDepositTx tx => some (.MantleDepositTx tx.copy)
  | .MantleInternalTx tx => tx.copy.map .MantleInternalTx
  | .MantleLegacyTxData tx => some (.MantleLegacyTxData tx.copy)

/-- Modelled from the spec: `NewTx` of the base chain, outside these sources: the
transaction "built from" a payload, which holds a deep copy of it. -/
def NewTx (inner : TxData) : Option Transaction :=
  inner.copy.map fun cpy => { inner := cpy }

/-! ### The derived payload of the ticket-submission variant -/

/-- Go type invariant of a `common.Hash`: 32 bytes. -/
def isHash (h : List Nat) : Prop := h.length = 32 ∧ isBytes h

instance (h : List Nat) : Decidable (isHash h) :=
  inferInstanceAs (Decidable (h.length = 32 ∧ isBytes h))

/-- Go type invariant of a `common.Address`: 20 bytes. -/
def isAddress (a : List Nat) : Prop := a.length = 20 ∧ isBytes a

instance (a : List Nat) : Decidable (isAddress a) :=
  inferInstanceAs (Decidable (a.length = 20 ∧ isBytes a))

/-- Go type invariant of a `MantleSubmitRetryableTx`: a 32-byte hash, 20-byte
addresses, a `uint64` gas limit and a byte slice whose length is an `int`. -/
def MantleSubmitRetryableTx.WF (tx : MantleSubmitRetryableTx) : Prop :=
  isHash tx.RequestId ∧ isAddress tx.From ∧ tx.Gas < 2 ^ 64 ∧
  isAddress (tx.RetryTo.getD zeroAddress) ∧ isAddress tx.Beneficiary ∧
  isAddress tx.FeeRefundAddr ∧ isBytes tx.RetryData ∧ tx.RetryData.length < 2 ^ 63

instance (tx : MantleSubmitRetryableTx) : Decidable tx.WF :=
  inferInstanceAs (Decidable (isHash tx.RequestId ∧ isAddress tx.From ∧ tx.Gas < 2 ^ 64 ∧
    isAddress (tx.RetryTo.getD zeroAddress) ∧ isAddress tx.Beneficiary ∧
    isAddress tx.FeeRefundAddr ∧ isBytes tx.RetryData ∧ tx.RetryData.length < 2 ^ 63))

/-- The big-integer fields that `data()` reads are non-nil (`ChainId` is not read). -/
def MantleSubmitRetryableTx.payloadFieldsNonNil (tx : MantleSubmitRetryableTx) : Prop :=
  tx.L1BaseFee ≠ none ∧ tx.DepositValue ≠ none ∧ tx.RetryValue ≠ none ∧
    tx.GasFeeCap ≠ none ∧ tx.MaxSubmissionFee ≠ none

instance (tx : MantleSubmitRetryableTx) : Decidable tx.payloadFieldsNonNil :=
  inferInstanceAs (Decidable (tx.L1BaseFee ≠ none ∧ tx.DepositValue ≠ none ∧
    tx.RetryValue ≠ none ∧ tx.GasFeeCap ≠ none ∧ tx.MaxSubmissionFee ≠ none))

/-- Go `func (tx *MantleSubmitRetryableTx) data() []byte`; `none` is the panic of
`math.U256Bytes` on a nil big integer. -/
def MantleSubmitRetryableTx.data (tx : MantleSubmitRetryableTx) : Option (List Nat) := do
  let retryTo := match tx.RetryTo with
    | some a => a
    | none => zeroAddress
  let data : List Nat := []
  let data := data ++ tx.RequestId
  let data := data ++ (← math.U256Bytes tx.L1BaseFee)
  let data := data ++ (← math.U256Bytes tx.DepositValue)
  let data := data ++ (← math.U256Bytes tx.RetryValue)
  let data := data ++ (← math.U256Bytes tx.GasFeeCap)
  let data := data ++ (← math.U256Bytes (some (Int.ofNat tx.Gas)))
  let data := data ++ (← math.U256Bytes tx.MaxSubmissionFee)
  let data := data ++ List.replicate 12 0
  let data := data ++ tx.FeeRefundAddr
  let data := data ++ List.replicate 12 0
  let data := data ++ tx.Beneficiary
  let data := data ++ List.replicate 12 0
  let data := data ++ retryTo
  let offset := data.length + 32
  let data := data ++ (← math.U256Bytes (some (Int.ofNat offset)))
  let data := data ++ (← math.U256Bytes (some (Int.ofNat tx.RetryData.length)))
  let data := data ++ tx.RetryData
  let extra := tx.RetryData.length % 32
  let data := if extra > 0 then data ++ List.replicate (32 - extra) 0 else data
  let data := (← hexutil.MustDecode "0xc9f95d32") ++ data
  return data

/-! ## The signer -/

/-- Modelled from the spec: the base chain's interface `types.Signer`, declared
outside these sources, with the three methods the mantle signer delegates to
(sender recovery, signature-value extraction, signing-hash computation). An error
is a message, `none` the nil error. -/
structure Signer where
  /-- Method `Sender(tx *Transaction) (common.Address, error)` -/
  Sender : Transaction → List Nat × Option String
  /-- Method `SignatureValues(tx *Transaction, sig []byte) (r, s, v *big.Int, err error)` -/
  SignatureValues : Transaction → List Nat → (Option Int × Option Int × Option Int) × Option String
  /-- Method `Hash(tx *Transaction) common.Hash` -/
  Hash : Transaction → List Nat

/-- Go `type mantleSigner struct{ Signer }` -/
structure mantleSigner where
  Signer : Signer

/-- Go `func NewMantleSigner(signer Signer) Signer` -/
def NewMantleSigner (signer : Signer) : mantleSigner :=
  { Signer := signer }

/-- Go `func (s mantleSigner) Sender(tx *Transaction) (common.Address, error)`; `none`
is a panic of `NewTx`. -/
def mantleSigner.Sender (s : mantleSigner) (tx : Transaction) :
    Option (List Nat × Option String) :=
  match tx.inner with
  | .MantleUnsignedTx inner => some (inner.From, none)
  | .MantleContractTx inner => some (inner.From, none)
  | .MantleDepositTx inner => some (inner.From, none)
  | .MantleInternalTx _ => some (MtosAddress, none)
  | .MantleRetryTx inner => some (inner.From, none)
  | .MantleSubmitRetryableTx inner => some (inner.From, none)
  | .MantleLegacyTxData legacyData =>
    match legacyData.Sender with
    | some sender => some (sender, none)
    | none => do
      let fakeTx ← NewTx (.LegacyTx legacyData.LegacyTx)
      return s.Signer.Sender fakeTx
  | .LegacyTx _ => some (s.Signer.Sender tx)
  | .AccessListTx _ => some (s.Signer.Sender tx)
  | .DynamicFeeTx _ => some (s.Signer.Sender tx)

/-- Go `func (s mantleSigner) SignatureValues(tx *Transaction, sig []byte)
(R, S, V *big.Int, err error)`; `none` is a panic of `NewTx`. -/
def mantleSigner.SignatureValues (s : mantleSigner) (tx : Transaction) (sig : List Nat) :
    Option ((Option Int × Option Int × Option Int) × Option String) :=
  match tx.inner with
  | .MantleUnsignedTx _ => some ((bigZero, bigZero, bigZero), none)
  | .MantleContractTx _ => some ((bigZero, bigZero, bigZero), none)
  | .MantleDepositTx _ => some ((bigZero, bigZero, bigZero), none)
  | .MantleInternalTx _ => some ((bigZero, bigZero, bigZero), none)
  | .MantleRetryTx _ => some ((bigZero, bigZero, bigZero), none)
  | .MantleSubmitRetryableTx _ => some ((bigZero, bigZero, bigZero), none)
  | .MantleLegacyTxData legacyData => do
    let fakeTx ← NewTx (.LegacyTx legacyData.LegacyTx)
    return s.Signer.SignatureValues fakeTx sig
  | .LegacyTx _ => some (s.Signer.SignatureValues tx sig)
  | .AccessListTx _ => some (s.Signer.SignatureValues tx sig)
  | .DynamicFeeTx _ => some (s.Signer.SignatureValues tx sig)

/-- Go `func (s mantleSigner) Hash(tx *Transaction) common.Hash`; `none` is a panic of
`NewTx`. -/
def mantleSigner.Hash (s : mantleSigner) (tx : Transaction) : Option (List Nat) :=
  match tx.inner with
  | .MantleLegacyTxData legacyData => do
    let fakeTx ← NewTx (.LegacyTx legacyData.LegacyTx)
    return s.Signer.Hash fakeTx
  | _ => some (s.Signer.Hash tx)

/-- A value of the interface `types.Signer` with its dynamic type, as the type
assertion `s2.(mantleSigner)` sees it: a `mantleSigner`, or a signer of another
type (one of the base chain). -/
inductive SignerValue where
  | mantleSigner (s : mantleSigner)
  | base (s : Signer)

/-- Go `func (s mantleSigner) Equal(s2 Signer) bool`; `baseEqual x v` is the call
`x.Equal(v)` on a wrapped signer `x` of the base chain. -/
def mantleSigner.Equal (baseEqual : Mantle.Signer → SignerValue → Bool) (s : mantleSigner)
    (s2 : SignerValue) : Bool :=
  match s2 with
  | .mantleSigner x => true && baseEqual x.Signer (.base s.Signer)
  | .base _ => false

/-! ## Accessors and type tags -/

/-- Modelled from the spec: the one-byte type discriminants of the envelope
(`LegacyTxType`, `MantleLegacyTxType`, ...), declared outside these sources. Their
byte values are not used, only that the tags of different kinds are distinct. -/
inductive TxType where
  | LegacyTxType
  | AccessListTxType
  | DynamicFeeTxType
  | MantleDepositTxType
  | MantleUnsignedTxType
  | MantleContractTxType
  | MantleRetryTxType
  | MantleSubmitRetryableTxType
  | MantleInternalTxType
  | MantleLegacyTxType
deriving DecidableEq, Repr

/-- Go `func (tx *MantleUnsignedTx) txType() byte` -/
def MantleUnsignedTx.txType (_ : MantleUnsignedTx) : TxType := .MantleUnsignedTxType

/-- Go `func (tx *MantleContractTx) txType() byte` -/
def MantleContractTx.txType (_ : MantleContractTx) : TxType := .MantleContractTxType

/-- Go `func (tx *MantleRetryTx) txType() byte` -/
def MantleRetryTx.txType (_ : MantleRetryTx) : TxType := .MantleRetryTxType

/-- Go `func (tx *MantleSubmitRetryableTx) txType() byte` -/
def MantleSubmitRetryableTx.txType (_ : MantleSubmitRetryableTx) : TxType :=
  .MantleSubmitRetryableTxType

/-- Go `func (d *MantleDepositTx) txType() byte` -/
def MantleDepositTx.txType (_ : MantleDepositTx) : TxType := .MantleDepositTxType

/-- Go `func (t *MantleInternalTx) txType() byte` -/
def MantleInternalTx.txType (_ : MantleInternalTx) : TxType := .MantleInternalTxType

/-- Go `func (tx *MantleLegacyTxData) txType() byte { return MantleLegacyTxType }` -/
def MantleLegacyTxData.txType (_ : MantleLegacyTxData) : TxType := .MantleLegacyTxType

/-- Dynamic dispatch of `inner.txType()`; the three payloads of the base chain
report their own tags. -/
def TxData.txType : TxData → TxType
  | .LegacyTx _ => .LegacyTxType
  | .AccessListTx _ => .AccessListTxType
  | .DynamicFeeTx _ => .DynamicFeeTxType
  | .MantleUnsignedTx tx => tx.txType
  | .MantleContractTx tx => tx.txType
  | .MantleRetryTx tx => tx.txType
  | .MantleSubmitRetryableTx tx => tx.txType
  | .MantleDepositTx tx => tx.txType
  | .MantleInternalTx tx => tx.txType
  | .MantleLegacyTxData tx => tx.txType

/-- Modelled from the spec: `Transaction.Type()` of the envelope, outside these
sources: the type discriminant reported by the inner payload. -/
def Transaction.txType (tx : Transaction) : TxType := tx.inner.txType

/-- Modelled from the spec: `Transaction.GetInner()` of the envelope, outside these
sources: the inner payload, handed out as a deep copy; `none` is a panic of the
copy. -/
def Transaction.GetInner (tx : Transaction) : Option TxData := tx.inner.copy

/-- Go `func (t *MantleInternalTx) to() *common.Address { return &MtosAddress }` -/
def MantleInternalTx.to (_ : MantleInternalTx) : Option (List Nat) := some MtosAddress

/-! ## The legacy-override variant -/

/-- Go `func NewMantleLegacyTx(origTx *Transaction, hashOverride common.Hash,
effectiveGas uint64, l1Block uint64, senderOverride *common.Address)
(*Transaction, error)`. The result is the pair returned, a nil transaction being
`none`; the outer `none` is a panic (of the type assertion or of a copy). -/
def NewMantleLegacyTx (origTx : Transaction) (hashOverride : List Nat)
    (effectiveGas l1Block : Nat) (senderOverride : Option (List Nat)) :
    Option (Option Transaction × Option String) :=
  if origTx.txType ≠ TxType.LegacyTxType then
    some (none, some "attempt to mantle-wrap non-legacy transaction")
  else
    match origTx.GetInner with
    | some (.LegacyTx legacyPtr) =>
      let inner : MantleLegacyTxData :=
        { LegacyTx := legacyPtr
          HashOverride := hashOverride
          EffectiveGasPrice := effectiveGas
          L1BlockNumber := l1Block
          Sender := senderOverride }
      match NewTx (.MantleLegacyTxData inner) with
      | some tx => some (some tx, none)
      | none => none
    | _ => none

/-- Go `func (tx *MantleLegacyTxData) EncodeOnlyLegacyInto(w *bytes.Buffer)`: the
contents of the buffer afterwards. The serializer `rlp.Encode` belongs to the base
chain and is a parameter: `rlpEncode l` is the encoding of the value `l`, or `none`
when it fails, in which case nothing is written; its error is discarded. -/
def MantleLegacyTxData.EncodeOnlyLegacyInto (rlpEncode : Mantle.LegacyTx → Option (List Nat))
    (tx : MantleLegacyTxData) (w : List Nat) : List Nat :=
  match rlpEncode tx.LegacyTx with
  | some bs => w ++ bs
  | none => w

/-- The spec's reference for `EncodeOnlyLegacyInto`: serializing a standalone plain
`LegacyTx` into the buffer with the same serializer. -/
def serializeStandaloneLegacy (rlpEncode : LegacyTx → Option (List Nat)) (legacy : LegacyTx)
    (w : List Nat) : List Nat :=
  match rlpEncode legacy with
  | some bs => w ++ bs
  | none => w

/-! ## Well-formed instances -/

/-- The big-integer fields of a plain legacy payload are non-nil. -/
def LegacyTx.bigIntsNonNil (tx : LegacyTx) : Bool :=
  tx.GasPrice.isSome && tx.Value.isSome && tx.V.isSome && tx.R.isSome && tx.S.isSome

/-- The big-integer fields of a payload are non-nil. -/
def TxData.bigIntsNonNil : TxData → Bool
  | .LegacyTx tx => tx.bigIntsNonNil
  | .AccessListTx tx =>
    tx.ChainID.isSome && tx.GasPrice.isSome && tx.Value.isSome && tx.V.isSome &&
      tx.R.isSome && tx.S.isSome
  | .DynamicFeeTx tx =>
    tx.ChainID.isSome && tx.GasTipCap.isSome && tx.GasFeeCap.isSome && tx.Value.isSome &&
      tx.V.isSome && tx.R.isSome && tx.S.isSome
  | .MantleUnsignedTx tx => tx.ChainId.isSome && tx.GasFeeCap.isSome && tx.Value.isSome
  | .MantleContractTx tx => tx.ChainId.isSome && tx.GasFeeCap.isSome && tx.Value.isSome
  | .MantleRetryTx tx =>
    tx.ChainId.isSome && tx.GasFeeCap.isSome && tx.Value.isSome && tx.MaxRefund.isSome &&
      tx.SubmissionFeeRefund.isSome
  | .MantleSubmitRetryableTx tx =>
    tx.ChainId.isSome && tx.L1BaseFee.isSome && tx.DepositValue.isSome &&
      tx.GasFeeCap.isSome && tx.RetryValue.isSome && tx.MaxSubmissionFee.isSome
  | .MantleDepositTx tx => tx.ChainId.isSome && tx.Value.isSome
  | .MantleInternalTx tx => tx.ChainId.isSome
  | .MantleLegacyTxData tx => tx.LegacyTx.bigIntsNonNil

/-- The payload is one of the seven variants of these sources. -/
def TxData.isMantleVariant : TxData → Bool
  | .LegacyTx _ => false
  | .AccessListTx _ => false
  | .DynamicFeeTx _ => false
  | _ => true

/-! ## Fee and signature accessors of the non-legacy variants -/

/-- Go `func (tx *MantleUnsignedTx) gasPrice() *big.Int` -/
def MantleUnsignedTx.gasPrice (tx : MantleUnsignedTx) : Option Int := tx.GasFeeCap

/-- Go `func (tx *MantleUnsignedTx) gasTipCap() *big.Int` -/
def MantleUnsignedTx.gasTipCap (_ : MantleUnsignedTx) : Option Int := bigZero

/-- Go `func (tx *MantleUnsignedTx) gasFeeCap() *big.Int` -/
def MantleUnsignedTx.gasFeeCap (tx : MantleUnsignedTx) : Option Int := tx.GasFeeCap

/-- Go `func (tx *MantleUnsignedTx) rawSignatureValues() (v, r, s *big.Int)` -/
def MantleUnsignedTx.rawSignatureValues (_ : MantleUnsignedTx) : Option Int × Option Int × Option Int :=
  (bigZero, bigZero, bigZero)

/-- Go `func (tx *MantleUnsignedTx) setSignatureValues(chainID, v, r, s *big.Int)`, whose body is
empty: the transaction afterwards. -/
def MantleUnsignedTx.setSignatureValues (tx : MantleUnsignedTx) (_chainID _v _r _s : Option Int) : MantleUnsignedTx := tx

/-- Go `func (tx *MantleContractTx) gasPrice() *big.Int` -/
def MantleContractTx.gasPrice (tx : MantleContractTx) : Option Int := tx.GasFeeCap

/-- Go `func (tx *MantleContractTx) gasTipCap() *big.Int` -/
def MantleContractTx.gasTipCap (_ : MantleContractTx) : Option Int := bigZero

/-- Go `func (tx *MantleContractTx) gasFeeCap() *big.Int` -/
def MantleContractTx.gasFeeCap (tx : MantleContractTx) : Option Int := tx.GasFeeCap

/-- Go `func (tx *MantleContractTx) rawSignatureValues() (v, r, s *big.Int)` -/
def MantleContractTx.rawSignatureValues (_ : MantleContractTx) : Option Int × Option Int × Option Int :=
  (bigZero, bigZero, bigZero)

/-- Go `func (tx *MantleContractTx) setSignatureValues(chainID, v, r, s *big.Int)`, whose body is
empty: the transaction afterwards. -/
def MantleContractTx.setSignatureValues (tx : MantleContractTx) (_chainID _v _r _s : Option Int) : MantleContractTx := tx

/-- Go `func (tx *MantleRetryTx) gasPrice() *big.Int` -/
def MantleRetryTx.gasPrice (tx : MantleRetryTx) : Option Int := tx.GasFeeCap

/-- Go `func (tx *MantleRetryTx) gasTipCap() *big.Int` -/
def MantleRetryTx.gasTipCap (_ : MantleRetryTx) : Option Int := bigZero

/-- Go `func (tx *MantleRetryTx) gasFeeCap() *big.Int` -/
def MantleRetryTx.gasFeeCap (tx : MantleRetryTx) : Option Int := tx.GasFeeCap

/-- Go `func (tx *MantleRetryTx) rawSignatureValues() (v, r, s *big.Int)` -/
def MantleRetryTx.rawSignatureValues (_ : MantleRetryTx) : Option Int × Option Int × Option Int :=
  (bigZero, bigZero, bigZero)

/-- Go `func (tx *MantleRetryTx) setSignatureValues(chainID, v, r, s *big.Int)`, whose body is
empty: the transaction afterwards. -/
def MantleRetryTx.setSignatureValues (tx : MantleRetryTx) (_chainID _v _r _s : Option Int) : MantleRetryTx := tx

/-- Go `func (tx *MantleSubmitRetryableTx) gasPrice() *big.Int` -/
def MantleSubmitRetryableTx.gasPrice (tx : MantleSubmitRetryableTx) : Option Int := tx.GasFeeCap

/-- Go `func (tx *MantleSubmitRetryableTx) gasTipCap() *big.Int { return big.NewInt(0) }` -/
def MantleSubmitRetryableTx.gasTipCap (_ : MantleSubmitRetryableTx) : Option Int := some 0

/-- Go `func (tx *MantleSubmitRetryableTx) gasFeeCap() *big.Int` -/
def MantleSubmitRetryableTx.gasFeeCap (tx : MantleSubmitRetryableTx) : Option Int := tx.GasFeeCap

/-- Go `func (tx *MantleSubmitRetryableTx) rawSignatureValues() (v, r, s *big.Int)` -/
def MantleSubmitRetryableTx.rawSignatureValues (_ : MantleSubmitRetryableTx) : Option Int × Option Int × Option Int :=
  (bigZero, bigZero, bigZero)

/-- Go `func (tx *MantleSubmitRetryableTx) setSignatureValues(chainID, v, r, s *big.Int)`, whose body is
empty: the transaction afterwards. -/
def MantleSubmitRetryableTx.setSignatureValues (tx : MantleSubmitRetryableTx) (_chainID _v _r _s : Option Int) : MantleSubmitRetryableTx := tx

/-- Go `func (d *MantleDepositTx) gasPrice() *big.Int` -/
def MantleDepositTx.gasPrice (_ : MantleDepositTx) : Option Int := bigZero

/-- Go `func (d *MantleDepositTx) gasTipCap() *big.Int` -/
def MantleDepositTx.gasTipCap (_ : MantleDepositTx) : Option Int := bigZero

/-- Go `func (d *MantleDepositTx) gasFeeCap() *big.Int` -/
def MantleDepositTx.gasFeeCap (_ : MantleDepositTx) : Option Int := bigZero

/-- Go `func (d *MantleDepositTx) rawSignatureValues() (v, r, s *big.Int)` -/
def MantleDepositTx.rawSignatureValues (_ : MantleDepositTx) : Option Int × Option Int × Option Int :=
  (bigZero, bigZero, bigZero)

/-- Go `func (d *MantleDepositTx) setSignatureValues(chainID, v, r, s *big.Int)`, whose body is
empty: the transaction afterwards. -/
def MantleDepositTx.setSignatureValues (d : MantleDepositTx) (_chainID _v _r _s : Option Int) : MantleDepositTx := d

/-- Go `func (t *MantleInternalTx) gasPrice() *big.Int` -/
def MantleInternalTx.gasPrice (_ : MantleInternalTx) : Option Int := bigZero

/-- Go `func (t *MantleInternalTx) gasTipCap() *big.Int` -/
def MantleInternalTx.gasTipCap (_ : MantleInternalTx) : Option Int := bigZero

/-- Go `func (t *MantleInternalTx) gasFeeCap() *big.Int` -/
def MantleInternalTx.gasFeeCap (_ : MantleInternalTx) : Option Int := bigZero

/-- Go `func (t *MantleInternalTx) rawSignatureValues() (v, r, s *big.Int)` -/
def MantleInternalTx.rawSignatureValues (_ : MantleInternalTx) : Option Int × Option Int × Option Int :=
  (bigZero, bigZero, bigZero)

/-- Go `func (t *MantleInternalTx) setSignatureValues(chainID, v, r, s *big.Int)`, whose body is
empty: the transaction afterwards. -/
def MantleInternalTx.setSignatureValues (t : MantleInternalTx) (_chainID _v _r _s : Option Int) : MantleInternalTx := t

/-! ## Chain configuration -/

/-- Go `type MantleChainParams struct` -/
structure MantleChainParams where
  EnableMtOS : Bool
  AllowDebugPrecompiles : Bool
  DataAvailabilityCommittee : Bool
  InitialMtOSVersion : Nat
  InitialChainOwner : List Nat
  GenesisBlockNum : Nat
deriving DecidableEq, Repr

/-- Modelled from the spec: the base chain's `params.ChainConfig`, declared outside
these sources, reduced to the chain id and the embedded `MantleChainParams`, the
part that `checkMantleCompatible` reads. -/
structure ChainConfig where
  ChainID : Option Int
  MantleChainParams : MantleChainParams
deriving DecidableEq, Repr

/-- Go `func (c *ChainConfig) IsMantle() bool` -/
def ChainConfig.IsMantle (c : ChainConfig) : Bool := c.MantleChainParams.EnableMtOS

/-- Go `func (c *ChainConfig) DebugMode() bool` -/
def ChainConfig.DebugMode (c : ChainConfig) : Bool := c.MantleChainParams.AllowDebugPrecompiles

/-- Go `func (c *ChainConfig) checkMantleCompatible(newcfg *ChainConfig, head *big.Int)
*ConfigCompatError`; `none` is the nil error. The constructor `newCompatError` of
the base chain is a parameter: it builds the (non-nil) error from the name of the
setting and the two block numbers. -/
def ChainConfig.checkMantleCompatible {ε : Type} (newCompatError : String → Int → Int → ε)
    (c newcfg : ChainConfig) (_head : Option Int) : Option ε :=
  if c.IsMantle ≠ newcfg.IsMantle then
    some (newCompatError "isMantle" 0 0)
  else if ¬ c.IsMantle then
    none
  else
    let cMt := c.MantleChainParams
    let newMt := newcfg.MantleChainParams
    if cMt.GenesisBlockNum ≠ newMt.GenesisBlockNum then
      some (newCompatError "genesisblocknum" (Int.ofNat cMt.GenesisBlockNum)
        (Int.ofNat newMt.GenesisBlockNum))
    else
      none

/-- Go `func MantleOneParams() MantleChainParams` -/
def MantleOneParams : MantleChainParams :=
  { EnableMtOS := true
    AllowDebugPrecompiles := false
    DataAvailabilityCommittee := false
    InitialMtOSVersion := 6
    InitialChainOwner := HexToAddress "0xd345e41ae2cb00311956aa7109fc801ae8c81a52"
    GenesisBlockNum := 0 }

/-- Go `func DisableMantleParams() MantleChainParams` -/
def DisableMantleParams : MantleChainParams :=
  { EnableMtOS := false
    AllowDebugPrecompiles := false
    DataAvailabilityCommittee := false
    InitialMtOSVersion := 0
    InitialChainOwner := zeroAddress
    GenesisBlockNum := 0 }

/-! ## Ranges of the payload fields -/

/-- A `*big.Int` is non-nil and lies in `[0, 2^256)`. -/
def isU256 (x : Option Int) : Bool :=
  match x with
  | some v => decide (0 ≤ v) && decide (v < 2 ^ 256)
  | none => false

/-- The big-integer fields that `data()` encodes are non-nil and lie in `[0, 2^256)`
(`ChainId` is not encoded). -/
def MantleSubmitRetryableTx.payloadFieldsInRange (tx : MantleSubmitRetryableTx) : Bool :=
  isU256 tx.L1BaseFee && isU256 tx.DepositValue && isU256 tx.RetryValue &&
    isU256 tx.GasFeeCap && isU256 tx.MaxSubmissionFee

/-! ## The effect of `data()` on its receiver -/

/-- Modelled from the spec: the number that the argument of `math.U256Bytes` holds
after the call. `math.U256Bytes` is outside these sources; it takes a pointer and turns
the big integer behind it into the 256-bit number whose bytes it returns, in place: the
argument holds afterwards its low 256 bits, two's complement for a negative number. -/
def math.U256BytesLeaves (x : Int) : Int := x % 2 ^ 256

/-- Go `func (tx *MantleSubmitRetryableTx) data() []byte` together with its effect on
the receiver: the payload and the transaction afterwards. `data()` assigns no field;
it hands the five big integers `L1BaseFee`, `DepositValue`, `RetryValue`, `GasFeeCap`
and `MaxSubmissionFee` by pointer to `math.U256Bytes`, after which each holds what
`math.U256BytesLeaves` says. The other words are made from fresh big integers. -/
def MantleSubmitRetryableTx.dataEffect (tx : MantleSubmitRetryableTx) :
    Option (List Nat × MantleSubmitRetryableTx) := do
  let retryTo := match tx.RetryTo with
    | some a => a
    | none => zeroAddress
  let data : List Nat := []
  let data := data ++ tx.RequestId
  let data := data ++ (← math.U256Bytes tx.L1BaseFee)
  let tx := { tx with L1BaseFee := tx.L1BaseFee.map math.U256BytesLeaves }
  let data := data ++ (← math.U256Bytes tx.DepositValue)
  let tx := { tx with DepositValue := tx.DepositValue.map math.U256BytesLeaves }
  let data := data ++ (← math.U256Bytes tx.RetryValue)
  let tx := { tx with RetryValue := tx.RetryValue.map math.U256BytesLeaves }
  let data := data ++ (← math.U256Bytes tx.GasFeeCap)
  let tx := { tx with GasFeeCap := tx.GasFeeCap.map math.U256BytesLeaves }
  let data := data ++ (← math.U256Bytes (some (Int.ofNat tx.Gas)))
  let data := data ++ (← math.U256Bytes tx.MaxSubmissionFee)
  let tx := { tx with MaxSubmissionFee := tx.MaxSubmissionFee.map math.U256BytesLeaves }
  let data := data ++ List.replicate 12 0
  let data := data ++ tx.FeeRefundAddr
  let data := data ++ List.replicate 12 0
  let data := data ++ tx.Beneficiary
  let data := data ++ List.replicate 12 0
  let data := data ++ retryTo
  let offset := data.length + 32
  let data := data ++ (← math.U256Bytes (some (Int.ofNat offset)))
  let data := data ++ (← math.U256Bytes (some (Int.ofNat tx.RetryData.length)))
  let data := data ++ tx.RetryData
  let extra := tx.RetryData.length % 32
  let data := if extra > 0 then data ++ List.replicate (32 - extra) 0 else data
  let data := (← hexutil.MustDecode "0xc9f95d32") ++ data
  return (data, tx)

/-! ## Deep copies on a heap

The payloads hold pointers (`*big.Int`, `*common.Address`) and slices. To speak of
storage shared between a payload and its copy, the copies are modelled a second time
on an explicit heap: a pointer is a location, `none` the nil pointer. -/

/-- The part of the Go heap the payloads point into: big integers, backing arrays of
byte slices and addresses, each object at a location below `next`. -/
structure Heap where
  next : Nat
  ints : Nat → Int
  bytes : Nat → List Nat
  addrs : Nat → List Nat

/-- Go `new(big.Int)`: the heap with a fresh zero, and its location. -/
def Heap.newInt (h : Heap) : Heap × Nat :=
  ({ h with next := h.next + 1, ints := Function.update h.ints h.next 0 }, h.next)

/-- In-place mutation of the big integer at location `z`. -/
def Heap.setInt (h : Heap) (z : Nat) (v : Int) : Heap :=
  { h with ints := Function.update h.ints z v }

/-- In-place mutation of the backing array at location `p`. -/
def Heap.setBytes (h : Heap) (p : Nat) (bs : List Nat) : Heap :=
  { h with bytes := Function.update h.bytes p bs }

/-- In-place mutation of the address at location `p`. -/
def Heap.setAddr (h : Heap) (p : Nat) (a : List Nat) : Heap :=
  { h with addrs := Function.update h.addrs p a }

/-- The idiom `if x != nil { z.Set(x) }` of the copy methods. -/
def Heap.copyIntInto (h : Heap) (z : Nat) (x : Option Nat) : Heap :=
  match x with
  | some x => h.setInt z (h.ints x)
  | none => h

/-- Modelled from the spec: `common.CopyBytes` of the package `common`, outside these
sources; "copying must deep-clone every numeric and byte-slice field": nil for a nil
slice, otherwise a fresh backing array with the same contents. -/
def Heap.CopyBytes (h : Heap) (b : Option Nat) : Heap × Option Nat :=
  match b with
  | none => (h, none)
  | some p =>
    ({ h with next := h.next + 1, bytes := Function.update h.bytes h.next (h.bytes p) },
      some h.next)

/-- The idiom `if p != nil { tmp := *p; field = &tmp }` of the copy methods: the heap
afterwards and the pointer the field holds, `old` being what it held before. -/
def Heap.copyAddrPtr (h : Heap) (old p : Option Nat) : Heap × Option Nat :=
  match p with
  | some p =>
    ({ h with next := h.next + 1, addrs := Function.update h.addrs h.next (h.addrs p) },
      some h.next)
  | none => (h, old)

/-- Two heaps hold the same objects at every location below `n`. -/
def Heap.AgreeBelow (n : Nat) (h h2 : Heap) : Prop :=
  ∀ q < n, h2.ints q = h.ints q ∧ h2.bytes q = h.bytes q ∧ h2.addrs q = h.addrs q

/-- Go `type MantleUnsignedTx struct`, with pointers and slices as locations. -/
structure MantleUnsignedTxRef where
  ChainId : Option Nat
  From : List Nat
  Nonce : Nat
  GasFeeCap : Option Nat
  Gas : Nat
  To : Option Nat
  Value : Option Nat
  Data : Option Nat

/-- Go `type MantleContractTx struct`, with pointers and slices as locations. -/
structure MantleContractTxRef where
  ChainId : Option Nat
  RequestId : List Nat
  From : List Nat
  GasFeeCap : Option Nat
  Gas : Nat
  To : Option Nat
  Value : Option Nat
  Data : Option Nat

/-- Go `type MantleRetryTx struct`, with pointers and slices as locations. -/
structure MantleRetryTxRef where
  ChainId : Option Nat
  Nonce : Nat
  From : List Nat
  GasFeeCap : Option Nat
  Gas : Nat
  To : Option Nat
  Value : Option Nat
  Data : Option Nat
  TicketId : List Nat
  RefundTo : List Nat
  MaxRefund : Option Nat
  SubmissionFeeRefund : Option Nat

/-- Go `type MantleSubmitRetryableTx struct`, with pointers and slices as locations. -/
structure MantleSubmitRetryableTxRef where
  ChainId : Option Nat
  RequestId : List Nat
  From : List Nat
  L1BaseFee : Option Nat
  DepositValue : Option Nat
  GasFeeCap : Option Nat
  Gas : Nat
  RetryTo : Option Nat
  RetryValue : Option Nat
  Beneficiary : List Nat
  MaxSubmissionFee : Option Nat
  FeeRefundAddr : List Nat
  RetryData : Option Nat

/-- Go `type MantleDepositTx struct`, with pointers as locations. -/
structure MantleDepositTxRef where
  ChainId : Option Nat
  L1RequestId : List Nat
  From : List Nat
  To : List Nat
  Value : Option Nat

/-- Go `type MantleInternalTx struct`, with pointers and slices as locations. -/
structure MantleInternalTxRef where
  ChainId : Option Nat
  Data : Option Nat

/-- Modelled from the spec: the base chain's `LegacyTx`, declared outside these
sources, with pointers and slices as locations. -/
structure LegacyTxRef where
  Nonce : Nat
  GasPrice : Option Nat
  Gas : Nat
  To : Option Nat
  Value : Option Nat
  Data : Option Nat
  V : Option Nat
  R : Option Nat
  S : Option Nat

/-- Go `type MantleLegacyTxData struct`, with pointers and slices as locations; the
embedded `LegacyTx` is held by value. -/
structure MantleLegacyTxDataRef where
  LegacyTx : LegacyTxRef
  HashOverride : List Nat
  EffectiveGasPrice : Nat
  L1BlockNumber : Nat
  Sender : Option Nat

/-- The contents of a byte slice: empty for the nil slice. -/
def Heap.slice (h : Heap) (b : Option Nat) : List Nat := (b.map h.bytes).getD []

/-- The payload that the pointers of a `MantleUnsignedTx` denote in a heap. -/
def MantleUnsignedTxRef.read (tx : MantleUnsignedTxRef) (h : Heap) : MantleUnsignedTx :=
  { ChainId := tx.ChainId.map h.ints, From := tx.From, Nonce := tx.Nonce,
    GasFeeCap := tx.GasFeeCap.map h.ints, Gas := tx.Gas, To := tx.To.map h.addrs,
    Value := tx.Value.map h.ints, Data := h.slice tx.Data }

/-- The locations a `MantleUnsignedTx` points to. -/
def MantleUnsignedTxRef.ptrs (tx : MantleUnsignedTxRef) : List Nat :=
  tx.ChainId.toList ++ tx.GasFeeCap.toList ++ tx.To.toList ++ tx.Value.toList ++
    tx.Data.toList

/-- Go `func (tx *MantleUnsignedTx) copy() TxData` on the heap. -/
def MantleUnsignedTxRef.copy (tx : MantleUnsignedTxRef) (h : Heap) :
    Heap × MantleUnsignedTxRef :=
  let (h, chainId) := h.newInt
  let (h, gasFeeCap) := h.newInt
  let (h, value) := h.newInt
  let (h, data) := h.CopyBytes tx.Data
  let cpy : MantleUnsignedTxRef :=
    { ChainId := some chainId, Nonce := tx.Nonce, GasFeeCap := some gasFeeCap, Gas := tx.Gas,
      From := tx.From, To := none, Value := some value, Data := data }
  let h := h.copyIntInto chainId tx.ChainId
  let h := h.copyIntInto gasFeeCap tx.GasFeeCap
  let (h, dst) := h.copyAddrPtr cpy.To tx.To
  let cpy := { cpy with To := dst }
  let h := h.copyIntInto value tx.Value
  (h, cpy)

/-- The payload that the pointers of a `MantleContractTx` denote in a heap. -/
def MantleContractTxRef.read (tx : MantleContractTxRef) (h : Heap) : MantleContractTx :=
  { ChainId := tx.ChainId.map h.ints, RequestId := tx.RequestId, From := tx.From,
    GasFeeCap := tx.GasFeeCap.map h.ints, Gas := tx.Gas, To := tx.To.map h.addrs,
    Value := tx.Value.map h.ints, Data := h.slice tx.Data }

/-- The locations a `MantleContractTx` points to. -/
def MantleContractTxRef.ptrs (tx : MantleContractTxRef) : List Nat :=
  tx.ChainId.toList ++ tx.GasFeeCap.toList ++ tx.To.toList ++ tx.Value.toList ++
    tx.Data.toList

/-- Go `func (tx *MantleContractTx) copy() TxData` on the heap. -/
def MantleContractTxRef.copy (tx : MantleContractTxRef) (h : Heap) :
    Heap × MantleContractTxRef :=
  let (h, chainId) := h.newInt
  let (h, gasFeeCap) := h.newInt
  let (h, value) := h.newInt
  let (h, data) := h.CopyBytes tx.Data
  let cpy : MantleContractTxRef :=
    { ChainId := some chainId, RequestId := tx.RequestId, GasFeeCap := some gasFeeCap,
      Gas := tx.Gas, From := tx.From, To := none, Value := some value, Data := data }
  let h := h.copyIntInto chainId tx.ChainId
  let h := h.copyIntInto gasFeeCap tx.GasFeeCap
  let (h, dst) := h.copyAddrPtr cpy.To tx.To
  let cpy := { cpy with To := dst }
  let h := h.copyIntInto value tx.Value
  (h, cpy)

/-- The payload that the pointers of a `MantleRetryTx` denote in a heap. -/
def MantleRetryTxRef.read (tx : MantleRetryTxRef) (h : Heap) : MantleRetryTx :=
  { ChainId := tx.ChainId.map h.ints, Nonce := tx.Nonce, From := tx.From,
    GasFeeCap := tx.GasFeeCap.map h.ints, Gas := tx.Gas, To := tx.To.map h.addrs,
    Value := tx.Value.map h.ints, Data := h.slice tx.Data, TicketId := tx.TicketId,
    RefundTo := tx.RefundTo, MaxRefund := tx.MaxRefund.map h.ints,
    SubmissionFeeRefund := tx.SubmissionFeeRefund.map h.ints }

/-- The locations a `MantleRetryTx` points to. -/
def MantleRetryTxRef.ptrs (tx : MantleRetryTxRef) : List Nat :=
  tx.ChainId.toList ++ tx.GasFeeCap.toList ++ tx.To.toList ++ tx.Value.toList ++
    tx.Data.toList ++ tx.MaxRefund.toList ++ tx.SubmissionFeeRefund.toList

/-- Go `func (tx *MantleRetryTx) copy() TxData` on the heap. -/
def MantleRetryTxRef.copy (tx : MantleRetryTxRef) (h : Heap) : Heap × MantleRetryTxRef :=
  let (h, chainId) := h.newInt
  let (h, gasFeeCap) := h.newInt
  let (h, value) := h.newInt
  let (h, data) := h.CopyBytes tx.Data
  let (h, maxRefund) := h.newInt
  let (h, submissionFeeRefund) := h.newInt
  let cpy : MantleRetryTxRef :=
    { ChainId := some chainId, Nonce := tx.Nonce, GasFeeCap := some gasFeeCap, Gas := tx.Gas,
      From := tx.From, To := none, Value := some value, Data := data,
      TicketId := tx.TicketId, RefundTo := tx.RefundTo, MaxRefund := some maxRefund,
      SubmissionFeeRefund := some submissionFeeRefund }
  let h := h.copyIntInto chainId tx.ChainId
  let h := h.copyIntInto gasFeeCap tx.GasFeeCap
  let (h, dst) := h.copyAddrPtr cpy.To tx.To
  let cpy := { cpy with To := dst }
  let h := h.copyIntInto value tx.Value
  let h := h.copyIntInto maxRefund tx.MaxRefund
  let h := h.copyIntInto submissionFeeRefund tx.SubmissionFeeRefund
  (h, cpy)

/-- The payload that the pointers of a `MantleSubmitRetryableTx` denote in a heap. -/
def MantleSubmitRetryableTxRef.read (tx : MantleSubmitRetryableTxRef) (h : Heap) :
    MantleSubmitRetryableTx :=
  { ChainId := tx.ChainId.map h.ints, RequestId := tx.RequestId, From := tx.From,
    L1BaseFee := tx.L1BaseFee.map h.ints, DepositValue := tx.DepositValue.map h.ints,
    GasFeeCap := tx.GasFeeCap.map h.ints, Gas := tx.Gas, RetryTo := tx.RetryTo.map h.addrs,
    RetryValue := tx.RetryValue.map h.ints, Beneficiary := tx.Beneficiary,
    MaxSubmissionFee := tx.MaxSubmissionFee.map h.ints, FeeRefundAddr := tx.FeeRefundAddr,
    RetryData := h.slice tx.RetryData }

/-- The locations a `MantleSubmitRetryableTx` points to. -/
def MantleSubmitRetryableTxRef.ptrs (tx : MantleSubmitRetryableTxRef) : List Nat :=
  tx.ChainId.toList ++ tx.L1BaseFee.toList ++ tx.DepositValue.toList ++
    tx.GasFeeCap.toList ++ tx.RetryTo.toList ++ tx.RetryValue.toList ++
    tx.MaxSubmissionFee.toList ++ tx.RetryData.toList

/-- Go `func (tx *MantleSubmitRetryableTx) copy() TxData` on the heap. The literal
starts with `RetryTo: tx.RetryTo`, the pointer of the original, which is replaced
when it is non-nil. -/
def MantleSubmitRetryableTxRef.copy (tx : MantleSubmitRetryableTxRef) (h : Heap) :
    Heap × MantleSubmitRetryableTxRef :=
  let (h, chainId) := h.newInt
  let (h, depositValue) := h.newInt
  let (h, l1BaseFee) := h.newInt
  let (h, gasFeeCap) := h.newInt
  let (h, retryValue) := h.newInt
  let (h, maxSubmissionFee) := h.newInt
  let (h, retryData) := h.CopyBytes tx.RetryData
  let cpy : MantleSubmitRetryableTxRef :=
    { ChainId := some chainId, RequestId := tx.RequestId, DepositValue := some depositValue,
      L1BaseFee := some l1BaseFee, GasFeeCap := some gasFeeCap, Gas := tx.Gas,
      From := tx.From, RetryTo := tx.RetryTo, RetryValue := some retryValue,
      Beneficiary := tx.Beneficiary, MaxSubmissionFee := some maxSubmissionFee,
      FeeRefundAddr := tx.FeeRefundAddr, RetryData := retryData }
  let h := h.copyIntInto chainId tx.ChainId
  let h := h.copyIntInto depositValue tx.DepositValue
  let h := h.copyIntInto l1BaseFee tx.L1BaseFee
  let h := h.copyIntInto gasFeeCap tx.GasFeeCap
  let (h, dst) := h.copyAddrPtr cpy.RetryTo tx.RetryTo
  let cpy := { cpy with RetryTo := dst }
  let h := h.copyIntInto retryValue tx.RetryValue
  let h := h.copyIntInto maxSubmissionFee tx.MaxSubmissionFee
  (h, cpy)

/-- The payload that the pointers of a `MantleDepositTx` denote in a heap. -/
def MantleDepositTxRef.read (d : MantleDepositTxRef) (h : Heap) : MantleDepositTx :=
  { ChainId := d.ChainId.map h.ints, L1RequestId := d.L1RequestId, From := d.From,
    To := d.To, Value := d.Value.map h.ints }

/-- The locations a `MantleDepositTx` points to. -/
def MantleDepositTxRef.ptrs (d : MantleDepositTxRef) : List Nat :=
  d.ChainId.toList ++ d.Value.toList

/-- Go `func (d *MantleDepositTx) copy() TxData` on the heap. -/
def MantleDepositTxRef.copy (d : MantleDepositTxRef) (h : Heap) : Heap × MantleDepositTxRef :=
  let (h, chainId) := h.newInt
  let (h, value) := h.newInt
  let tx : MantleDepositTxRef :=
    { ChainId := some chainId, L1RequestId := d.L1RequestId, From := d.From, To := d.To,
      Value := some value }
  let h := h.copyIntInto chainId d.ChainId
  let h := h.copyIntInto value d.Value
  (h, tx)

/-- The payload that the pointers of a `MantleInternalTx` denote in a heap. -/
def MantleInternalTxRef.read (t : MantleInternalTxRef) (h : Heap) : MantleInternalTx :=
  { ChainId := t.ChainId.map h.ints, Data := h.slice t.Data }

/-- The locations a `MantleInternalTx` points to. -/
def MantleInternalTxRef.ptrs (t : MantleInternalTxRef) : List Nat :=
  t.ChainId.toList ++ t.Data.toList

/-- Go `func (t *MantleInternalTx) copy() TxData` on the heap; `Set` dereferences
`t.ChainId` without a nil check, `none` is that panic. -/
def MantleInternalTxRef.copy (t : MantleInternalTxRef) (h : Heap) :
    Option (Heap × MantleInternalTxRef) :=
  match t.ChainId with
  | none => none
  | some x =>
    let (h, chainId) := h.newInt
    let h := h.setInt chainId (h.ints x)
    let (h, data) := h.CopyBytes t.Data
    some (h, { ChainId := some chainId, Data := data })

/-- The payload that the pointers of a `LegacyTx` denote in a heap. -/
def LegacyTxRef.read (tx : LegacyTxRef) (h : Heap) : LegacyTx :=
  { Nonce := tx.Nonce, GasPrice := tx.GasPrice.map h.ints, Gas := tx.Gas,
    To := tx.To.map h.addrs, Value := tx.Value.map h.ints, Data := h.slice tx.Data,
    V := tx.V.map h.ints, R := tx.R.map h.ints, S := tx.S.map h.ints }

/-- The locations a `LegacyTx` points to. -/
def LegacyTxRef.ptrs (tx : LegacyTxRef) : List Nat :=
  tx.GasPrice.toList ++ tx.To.toList ++ tx.Value.toList ++ tx.Data.toList ++ tx.V.toList ++
    tx.R.toList ++ tx.S.toList

/-- Modelled from the spec: `LegacyTx.copy` of the base chain, outside these sources,
on the heap: "copying must deep-clone every numeric and byte-slice field", a nil big
integer becoming zero. -/
def LegacyTxRef.copy (tx : LegacyTxRef) (h : Heap) : Heap × LegacyTxRef :=
  let (h, dst) := h.copyAddrPtr none tx.To
  let (h, data) := h.CopyBytes tx.Data
  let (h, value) := h.newInt
  let (h, gasPrice) := h.newInt
  let (h, v) := h.newInt
  let (h, r) := h.newInt
  let (h, s) := h.newInt
  let cpy : LegacyTxRef :=
    { Nonce := tx.Nonce, To := dst, Data := data, Gas := tx.Gas, Value := some value,
      GasPrice := some gasPrice, V := some v, R := some r, S := some s }
  let h := h.copyIntInto value tx.Value
  let h := h.copyIntInto gasPrice tx.GasPrice
  let h := h.copyIntInto v tx.V
  let h := h.copyIntInto r tx.R
  let h := h.copyIntInto s tx.S
  (h, cpy)

/-- The payload that the pointers of a `MantleLegacyTxData` denote in a heap. -/
def MantleLegacyTxDataRef.read (tx : MantleLegacyTxDataRef) (h : Heap) : MantleLegacyTxData :=
  { LegacyTx := tx.LegacyTx.read h, HashOverride := tx.HashOverride,
    EffectiveGasPrice := tx.EffectiveGasPrice, L1BlockNumber := tx.L1BlockNumber,
    Sender := tx.Sender.map h.addrs }

/-- The locations a `MantleLegacyTxData` points to. -/
def MantleLegacyTxDataRef.ptrs (tx : MantleLegacyTxDataRef) : List Nat :=
  tx.LegacyTx.ptrs ++ tx.Sender.toList

/-- Go `func (tx *MantleLegacyTxData) copy() TxData` on the heap. -/
def MantleLegacyTxDataRef.copy (tx : MantleLegacyTxDataRef) (h : Heap) :
    Heap × MantleLegacyTxDataRef :=
  let (h, legacyCopy) := tx.LegacyTx.copy h
  let (h, sender) := h.copyAddrPtr none tx.Sender
  (h, { LegacyTx := legacyCopy, HashOverride := tx.HashOverride,
        EffectiveGasPrice := tx.EffectiveGasPrice, L1BlockNumber := tx.L1BlockNumber,
        Sender := sender })

/-- The seven variants of these sources behind the interface `TxData`, on the heap. -/
inductive TxDataRef where
  | MantleUnsignedTx (tx : MantleUnsignedTxRef)
  | MantleContractTx (tx : MantleContractTxRef)
  | MantleRetryTx (tx : MantleRetryTxRef)
  | MantleSubmitRetryableTx (tx : MantleSubmitRetryableTxRef)
  | MantleDepositTx (tx : MantleDepositTxRef)
  | MantleInternalTx (tx : MantleInternalTxRef)
  | MantleLegacyTxData (tx : MantleLegacyTxDataRef)

/-- The payload that a variant on the heap denotes. -/
def TxDataRef.read : TxDataRef → Heap → TxData
  | .MantleUnsignedTx tx, h => .MantleUnsignedTx (tx.read h)
  | .MantleContractTx tx, h => .MantleContractTx (tx.read h)
  | .MantleRetryTx tx, h => .MantleRetryTx (tx.read h)
  | .MantleSubmitRetryableTx tx, h => .MantleSubmitRetryableTx (tx.read h)
  | .MantleDepositTx tx, h => .MantleDepositTx (tx.read h)
  | .MantleInternalTx tx, h => .MantleInternalTx (tx.read h)
  | .MantleLegacyTxData tx, h => .MantleLegacyTxData (tx.read h)

/-- The locations a variant points to: its big integers, the backing arrays of its
byte slices and its optional addresses. -/
def TxDataRef.ptrs : TxDataRef → List Nat
  | .MantleUnsignedTx tx => tx.ptrs
  | .MantleContractTx tx => tx.ptrs
  | .MantleRetryTx tx => tx.ptrs
  | .MantleSubmitRetryableTx tx => tx.ptrs
  | .MantleDepositTx tx => tx.ptrs
  | .MantleInternalTx tx => tx.ptrs
  | .MantleLegacyTxData tx => tx.ptrs

/-- Dynamic dispatch of `inner.copy()` on the heap: the heap afterwards and the copy;
`none` is a panic. -/
def TxDataRef.copy : TxDataRef → Heap → Option (Heap × TxDataRef)
  | .MantleUnsignedTx tx, h => some ((tx.copy h).1, .MantleUnsignedTx (tx.copy h).2)
  | .MantleContractTx tx, h => some ((tx.copy h).1, .MantleContractTx (tx.copy h).2)
  | .MantleRetryTx tx, h => some ((tx.copy h).1, .MantleRetryTx (tx.copy h).2)
  | .MantleSubmitRetryableTx tx, h =>
    some ((tx.copy h).1, .MantleSubmitRetryableTx (tx.copy h).2)
  | .MantleDepositTx tx, h => some ((tx.copy h).1, .MantleDepositTx (tx.copy h).2)
  | .MantleInternalTx tx, h => (tx.copy h).map fun r => (r.1, .MantleInternalTx r.2)
  | .MantleLegacyTxData tx, h => some ((tx.copy h).1, .MantleLegacyTxData (tx.copy h).2)

/-- Every location the variant points to is allocated in the heap. -/
def TxDataRef.allocated (d : TxDataRef) (h : Heap) : Prop := ∀ p ∈ d.ptrs, p < h.next

instance (d : TxDataRef) (h : Heap) : Decidable (d.allocated h) :=
  inferInstanceAs (Decidable (∀ p ∈ d.ptrs, p < h.next))

/-- The receiver is one on which `copy()` returns: `MantleInternalTx.copy` dereferences
`t.ChainId` without a nil check, the other variants test their pointers for nil. -/
def TxDataRef.copyDefined : TxDataRef → Bool
  | .MantleInternalTx t => t.ChainId.isSome
  | _ => true

/-! ## Sample values -/

/-- A well-formed `HeaderInfo` with distinct bytes in every position. -/
def sampleInfo : HeaderInfo :=
  { SendRoot := List.range 32, SendCount := 0x0102030405060708,
    L1BlockNumber := 2 ^ 64 - 1, MtOSFormatVersion := 7 }

/-- A header after the base-fee fork, with a digest of `0xff` bytes and no extra data. -/
def sampleHeader : Header :=
  { MixDigest := List.replicate 32 255, Extra := [], BaseFee := some 1 }

/-- A header after the base-fee fork whose extra data is three bytes long. -/
def sampleBadHeader : Header :=
  { MixDigest := List.replicate 32 255, Extra := [1, 2, 3], BaseFee := some 1 }

/-- An imported header without base fee, carrying five bytes of extra data. -/
def sampleLegacyHeader : Header :=
  { MixDigest := List.replicate 32 255, Extra := [1, 2, 3, 4, 5], BaseFee := none }

/-- A 20-byte address pattern `a0 a1 ... b3`. -/
def sampleAddress : List Nat := (List.range 20).map fun i => 0xA0 + i

/-- A second address pattern `c0 c1 ... d3`. -/
def sampleAddress2 : List Nat := (List.range 20).map fun i => 0xC0 + i

/-- A third address pattern `e0 e1 ... f3`. -/
def sampleAddress3 : List Nat := (List.range 20).map fun i => 0xE0 + i

/-- The ticket submission of the spec's sample: request id `00..01`, deposit value
1000, retry value 0, fee cap 1, gas 21000, submission fee 5, retry data `aa bb cc`. -/
def sampleSubmit : MantleSubmitRetryableTx :=
  { ChainId := some 5000
    RequestId := List.replicate 31 0 ++ [1]
    From := sampleAddress
    L1BaseFee := some 7
    DepositValue := some 1000
    GasFeeCap := some 1
    Gas := 21000
    RetryTo := some sampleAddress3
    RetryValue := some 0
    Beneficiary := sampleAddress2
    MaxSubmissionFee := some 5
    FeeRefundAddr := sampleAddress
    RetryData := [0xAA, 0xBB, 0xCC] }

/-- The payload of `sampleSubmit`, written out: the selector, the request id, the
six numeric words (7, 1000, 0, 1, 21000 = `52 08`, 5), the three address words, the
offset 352 = `01 60`, the length 3 and the padded retry data. -/
def sampleSubmitPayload : List Nat :=
  [0xc9, 0xf9, 0x5d, 0x32] ++
  (List.replicate 31 0 ++ [1]) ++
  (List.replicate 31 0 ++ [7]) ++
  (List.replicate 30 0 ++ [0x03, 0xe8]) ++
  List.replicate 32 0 ++
  (List.replicate 31 0 ++ [1]) ++
  (List.replicate 30 0 ++ [0x52, 0x08]) ++
  (List.replicate 31 0 ++ [5]) ++
  (List.replicate 12 0 ++ sampleAddress) ++
  (List.replicate 12 0 ++ sampleAddress2) ++
  (List.replicate 12 0 ++ sampleAddress3) ++
  (List.replicate 30 0 ++ [0x01, 0x60]) ++
  (List.replicate 31 0 ++ [3]) ++
  ([0xAA, 0xBB, 0xCC] ++ List.replicate 29 0)

/-- An underlying signer whose sender recovery and signature extraction always fail. -/
def failingSigner : Signer :=
  { Sender := fun _ => (zeroAddress, some "invalid transaction v, r, s values")
    SignatureValues := fun _ _ => ((none, none, none), some "transaction type not supported")
    Hash := fun _ => zeroHash }

/-- An underlying signer that recovers `sampleAddress3` from every transaction. -/
def constantSigner : Signer :=
  { Sender := fun _ => (sampleAddress3, none)
    SignatureValues := fun _ _ => ((some 1, some 2, some 27), none)
    Hash := fun _ => List.replicate 32 0x11 }

/-- A deposit sent by `sampleAddress` to `sampleAddress2`. -/
def sampleDeposit : MantleDepositTx :=
  { ChainId := some 5000
    L1RequestId := List.replicate 31 0 ++ [9]
    From := sampleAddress
    To := sampleAddress2
    Value := some 1000 }

/-- A signed plain legacy payload: nonce 9, gas price 20 gwei, gas 21000, one ether
sent to `sampleAddress2`. -/
def sampleLegacy : LegacyTx :=
  { Nonce := 9
    GasPrice := some 20000000000
    Gas := 21000
    To := some sampleAddress2
    Value := some 1000000000000000000
    Data := []
    V := some 37
    R := some 0x1234
    S := some 0x5678 }

/-- A legacy-override payload around `sampleLegacy` without an explicit sender. -/
def sampleMantleLegacy : MantleLegacyTxData :=
  { LegacyTx := sampleLegacy
    HashOverride := List.replicate 32 0x42
    EffectiveGasPrice := 5
    L1BlockNumber := 1000
    Sender := none }

/-- The same legacy payload with other override data and an explicit sender. -/
def sampleMantleLegacySent : MantleLegacyTxData :=
  { LegacyTx := sampleLegacy
    HashOverride := List.replicate 32 0x43
    EffectiveGasPrice := 6
    L1BlockNumber := 2000
    Sender := some sampleAddress }

/-- A system-internal payload. -/
def sampleInternal : MantleInternalTx :=
  { ChainId := some 5000, Data := [0xde, 0xad] }

/-- A malformed system-internal payload: the chain id is nil. -/
def sampleInternalNilChainId : MantleInternalTx :=
  { ChainId := none, Data := [0xde, 0xad] }

/-- An unsigned call by `sampleAddress`. -/
def sampleUnsigned : MantleUnsignedTx :=
  { ChainId := some 5000, From := sampleAddress, Nonce := 3, GasFeeCap := some 1,
    Gas := 21000, To := some sampleAddress2, Value := some 10, Data := [1, 2] }

/-- A contract-originated call by `sampleAddress`, creating a contract. -/
def sampleContract : MantleContractTx :=
  { ChainId := some 5000, RequestId := List.replicate 31 0 ++ [2], From := sampleAddress,
    GasFeeCap := some 1, Gas := 21000, To := none, Value := some 10, Data := [1, 2] }

/-- A delayed retry by `sampleAddress`. -/
def sampleRetry : MantleRetryTx :=
  { ChainId := some 5000, Nonce := 1, From := sampleAddress, GasFeeCap := some 1,
    Gas := 21000, To := some sampleAddress2, Value := some 10, Data := [1, 2],
    TicketId := List.replicate 31 0 ++ [3], RefundTo := sampleAddress3,
    MaxRefund := some 100, SubmissionFeeRefund := some 5 }

/-- An underlying signer that reads the sender and the signature off a plain legacy
payload and fails on every other payload; its signing hash is the nonce byte
repeated. -/
def legacyFieldSigner : Signer :=
  { Sender := fun tx =>
      match tx.inner with
      | .LegacyTx l => (l.To.getD zeroAddress, none)
      | _ => (zeroAddress, some "transaction type not supported")
    SignatureValues := fun tx sig =>
      match tx.inner with
      | .LegacyTx l => ((l.R, l.S, some (Int.ofNat sig.length)), none)
      | _ => ((none, none, none), some "transaction type not supported")
    Hash := fun tx =>
      match tx.inner with
      | .LegacyTx l => List.replicate 32 (l.Nonce % 256)
      | _ => zeroHash }

/-- A sample `Equal` of base-chain signers: two signers of the base chain are equal
when they give the same signing hash to the plain `sampleLegacy` transaction; a
mantle signer is no base-chain signer. -/
def sampleBaseEqual (x : Signer) (v : SignerValue) : Bool :=
  match v with
  | .base y =>
    x.Hash { inner := .LegacyTx sampleLegacy } == y.Hash { inner := .LegacyTx sampleLegacy }
  | .mantleSigner _ => false

/-- Leading zero bytes removed. -/
def trimZeros : List Nat → List Nat
  | 0 :: bs => trimZeros bs
  | bs => bs

/-- RLP length header with the given base tag. -/
def rlpHeader (base len : Nat) : List Nat :=
  if len < 56 then [base + len]
  else [base + 55 + (trimZeros (bigEndianBytes 8 len)).length] ++ trimZeros (bigEndianBytes 8 len)

/-- RLP encoding of a byte string. -/
def rlpString (bs : List Nat) : List Nat :=
  match bs with
  | [b] => if b < 128 then [b] else rlpHeader 0x80 1 ++ bs
  | _ => rlpHeader 0x80 bs.length ++ bs

/-- RLP encoding of an unsigned integer below `2 ^ 256`. -/
def rlpUint (v : Nat) : List Nat := rlpString (trimZeros (bigEndianBytes 32 v))

/-- RLP encoding of a `*big.Int` below `2 ^ 256`: a nil pointer is the empty
string, a negative number an error. -/
def rlpBigInt (x : Option Int) : Option (List Nat) :=
  match x with
  | none => some [0x80]
  | some v => if v < 0 then none else some (rlpUint v.toNat)

/-- A sample serializer for `EncodeOnlyLegacyInto`: the RLP list of the nine fields
of a plain legacy payload whose integers are below `2 ^ 256`. -/
def sampleRlpEncode (l : LegacyTx) : Option (List Nat) := do
  let payload := rlpUint l.Nonce ++ (← rlpBigInt l.GasPrice) ++ rlpUint l.Gas ++
    (match l.To with
      | none => [0x80]
      | some a => rlpString a) ++
    (← rlpBigInt l.Value) ++ rlpString l.Data ++ (← rlpBigInt l.V) ++ (← rlpBigInt l.R) ++
    (← rlpBigInt l.S)
  return rlpHeader 0xc0 payload.length ++ payload

/-- A sample of the base chain's `newCompatError`: the error records the name of the
setting and the two block numbers. -/
def sampleCompatError (what : String) (storedblock newblock : Int) : String × Int × Int :=
  (what, storedblock, newblock)

/-- The chain configuration of Mantle One (chain id 42161, genesis block number 0). -/
def sampleConfig : ChainConfig :=
  { ChainID := some 42161, MantleChainParams := MantleOneParams }

/-- The same configuration with the genesis block number moved to 100. -/
def sampleConfigMoved : ChainConfig :=
  { ChainID := some 42161, MantleChainParams := { MantleOneParams with GenesisBlockNum := 100 } }

/-- A configuration with MtOS disabled and a genesis block number of 7. -/
def sampleConfigDisabled : ChainConfig :=
  { ChainID := some 1, MantleChainParams := { DisableMantleParams with GenesisBlockNum := 7 } }

/-- A second configuration with MtOS disabled, with another genesis block number. -/
def sampleConfigDisabled2 : ChainConfig :=
  { ChainID := some 1, MantleChainParams := { DisableMantleParams with GenesisBlockNum := 9 } }

/-- A ticket submission like `sampleSubmit` that creates a contract: `RetryTo` is nil. -/
def sampleSubmitCreate : MantleSubmitRetryableTx :=
  { sampleSubmit with RetryTo := none }

/-- A plain access-list payload. -/
def sampleAccessList : AccessListTx :=
  { ChainID := some 5000, Nonce := 1, GasPrice := some 2, Gas := 21000,
    To := some sampleAddress2, Value := some 3, Data := [],
    AccessList := [(sampleAddress3, [List.replicate 32 1])],
    V := some 1, R := some 0x1234, S := some 0x5678 }

/-- A plain dynamic-fee payload. -/
def sampleDynamicFee : DynamicFeeTx :=
  { ChainID := some 5000, Nonce := 1, GasTipCap := some 1, GasFeeCap := some 2, Gas := 21000,
    To := some sampleAddress2, Value := some 3, Data := [], AccessList := [],
    V := some 0, R := some 0x1234, S := some 0x5678 }

/-- A header carrying metadata: the digest bytes are `01 02 ... 20`, the last eight
of them non-zero, and the extra data is a 32-byte root. -/
def sampleFullHeader : Header :=
  { MixDigest := (List.range 32).map fun i => i + 1
    Extra := List.replicate 32 0xEE
    BaseFee := some 7 }

/-- The same header with other bytes in `MixDigest[24:32]`. -/
def sampleFullHeader2 : Header :=
  { MixDigest := ((List.range 24).map fun i => i + 1) ++ List.replicate 8 0x99
    Extra := List.replicate 32 0xEE
    BaseFee := some 7 }

/-- The ticket submission of `sampleSubmit` sent to the zero address, by another
sender and on another chain. -/
def sampleSubmitZero : MantleSubmitRetryableTx :=
  { sampleSubmit with RetryTo := some zeroAddress, ChainId := some 1, From := sampleAddress2 }

/-- A heap of eight objects of each kind. -/
def sampleHeap : Heap :=
  { next := 8, ints := fun q => 100 + q, bytes := fun q => [0xde, 0xad, q],
    addrs := fun _ => sampleAddress }

/-- A ticket submission on the heap with every pointer set. -/
def sampleSubmitRef : MantleSubmitRetryableTxRef :=
  { ChainId := some 0, RequestId := List.replicate 31 0 ++ [1], From := sampleAddress,
    L1BaseFee := some 1, DepositValue := some 2, GasFeeCap := some 3, Gas := 21000,
    RetryTo := some 4, RetryValue := some 5, Beneficiary := sampleAddress2,
    MaxSubmissionFee := some 6, FeeRefundAddr := sampleAddress, RetryData := some 7 }

/-- A ticket submission with a negative field and a field above `2^256`. -/
def sampleSubmitWide : MantleSubmitRetryableTx :=
  { sampleSubmit with L1BaseFee := some (-1), DepositValue := some (2 ^ 256 + 5) }

/-! ## Lemmas on the big-endian codec -/

theorem byte_lt (x : Nat) : byte x < 256 := Nat.mod_lt _ (by decide)

theorem or_shiftLeft_eq_add (b a k : Nat) (h : b < 2 ^ k) :
    b ||| a <<< k = b + a * 2 ^ k := by
  rw [Nat.or_comm, Nat.shiftLeft_eq, Nat.mul_comm, ← Nat.mul_add_lt_is_or h, Nat.add_comm]

theorem Uint64_cons_eq (b0 b1 b2 b3 b4 b5 b6 b7 : Nat) (tl : List Nat)
    (h1 : b1 < 256) (h2 : b2 < 256) (h3 : b3 < 256) (h4 : b4 < 256)
    (h5 : b5 < 256) (h6 : b6 < 256) (h7 : b7 < 256) :
    BigEndian.Uint64 (b0 :: b1 :: b2 :: b3 :: b4 :: b5 :: b6 :: b7 :: tl) =
      b7 + b6 * 2 ^ 8 + b5 * 2 ^ 16 + b4 * 2 ^ 24 + b3 * 2 ^ 32 + b2 * 2 ^ 40 +
        b1 * 2 ^ 48 + b0 * 2 ^ 56 := by
  simp only [BigEndian.Uint64, List.getD_cons_succ, List.getD_cons_zero]
  rw [or_shiftLeft_eq_add b7 b6 8 (by omega), or_shiftLeft_eq_add _ b5 16 (by omega),
    or_shiftLeft_eq_add _ b4 24 (by omega), or_shiftLeft_eq_add _ b3 32 (by omega),
    or_shiftLeft_eq_add _ b2 40 (by omega), or_shiftLeft_eq_add _ b1 48 (by omega),
    or_shiftLeft_eq_add _ b0 56 (by omega)]

/-- Reading back the eight bytes written by `PutUint64` gives the value written. -/
theorem Uint64_PutUint64 (v : Nat) (h : v < 2 ^ 64) :
    BigEndian.Uint64 [byte (v >>> 56), byte (v >>> 48), byte (v >>> 40), byte (v >>> 32),
      byte (v >>> 24), byte (v >>> 16), byte (v >>> 8), byte v] = v := by
  rw [Uint64_cons_eq _ _ _ _ _ _ _ _ _ (byte_lt _) (byte_lt _) (byte_lt _) (byte_lt _)
    (byte_lt _) (byte_lt _) (byte_lt _)]
  simp only [byte, Nat.shiftRight_eq_div_pow]
  omega

/-- The eight bytes written by `PutUint64` are the big-endian encoding of the value. -/
theorem PutUint64_isBigEndian (v : Nat) (h : v < 2 ^ 64) :
    IsBigEndian 8 v [byte (v >>> 56), byte (v >>> 48), byte (v >>> 40), byte (v >>> 32),
      byte (v >>> 24), byte (v >>> 16), byte (v >>> 8), byte v] := by
  refine ⟨rfl, ?_, ?_⟩
  · intro b hb
    simp only [List.mem_cons, List.mem_singleton, List.not_mem_nil, or_false] at hb
    rcases hb with h | h | h | h | h | h | h | h <;> subst h <;> exact byte_lt _
  · simp only [bigEndianValue, List.foldl_cons, List.foldl_nil, byte,
      Nat.shiftRight_eq_div_pow]
    omega

/-- The digest computed by `mixDigest`, byte by byte. -/
theorem mixDigest_eq (info : HeaderInfo) :
    info.mixDigest =
      [byte (info.SendCount >>> 56), byte (info.SendCount >>> 48),
       byte (info.SendCount >>> 40), byte (info.SendCount >>> 32),
       byte (info.SendCount >>> 24), byte (info.SendCount >>> 16),
       byte (info.SendCount >>> 8), byte info.SendCount] ++
      ([byte (info.L1BlockNumber >>> 56), byte (info.L1BlockNumber >>> 48),
       byte (info.L1BlockNumber >>> 40), byte (info.L1BlockNumber >>> 32),
       byte (info.L1BlockNumber >>> 24), byte (info.L1BlockNumber >>> 16),
       byte (info.L1BlockNumber >>> 8), byte info.L1BlockNumber] ++
      ([byte (info.MtOSFormatVersion >>> 56), byte (info.MtOSFormatVersion >>> 48),
       byte (info.MtOSFormatVersion >>> 40), byte (info.MtOSFormatVersion >>> 32),
       byte (info.MtOSFormatVersion >>> 24), byte (info.MtOSFormatVersion >>> 16),
       byte (info.MtOSFormatVersion >>> 8), byte info.MtOSFormatVersion] ++
      List.replicate 8 0)) := by
  simp [HeaderInfo.mixDigest, updateSlice, BigEndian.PutUint64, zeroHash, List.replicate]

theorem mixDigest_length (info : HeaderInfo) : info.mixDigest.length = 32 := by
  rw [mixDigest_eq]; rfl

theorem mixDigest_take8 (info : HeaderInfo) :
    info.mixDigest.take 8 =
      [byte (info.SendCount >>> 56), byte (info.SendCount >>> 48),
       byte (info.SendCount >>> 40), byte (info.SendCount >>> 32),
       byte (info.SendCount >>> 24), byte (info.SendCount >>> 16),
       byte (info.SendCount >>> 8), byte info.SendCount] := by
  rw [mixDigest_eq]; rfl

theorem mixDigest_slice8 (info : HeaderInfo) :
    (info.mixDigest.drop 8).take 8 =
      [byte (info.L1BlockNumber >>> 56), byte (info.L1BlockNumber >>> 48),
       byte (info.L1BlockNumber >>> 40), byte (info.L1BlockNumber >>> 32),
       byte (info.L1BlockNumber >>> 24), byte (info.L1BlockNumber >>> 16),
       byte (info.L1BlockNumber >>> 8), byte info.L1BlockNumber] := by
  rw [mixDigest_eq]; rfl

theorem mixDigest_slice16 (info : HeaderInfo) :
    (info.mixDigest.drop 16).take 8 =
      [byte (info.MtOSFormatVersion >>> 56), byte (info.MtOSFormatVersion >>> 48),
       byte (info.MtOSFormatVersion >>> 40), byte (info.MtOSFormatVersion >>> 32),
       byte (info.MtOSFormatVersion >>> 24), byte (info.MtOSFormatVersion >>> 16),
       byte (info.MtOSFormatVersion >>> 8), byte info.MtOSFormatVersion] := by
  rw [mixDigest_eq]; rfl

theorem mixDigest_slice24 (info : HeaderInfo) :
    (info.mixDigest.drop 24).take 8 = List.replicate 8 0 := by
  rw [mixDigest_eq]; rfl

/-- Copying a 32-byte slice into a zero hash gives that slice. -/
theorem copy_zeroHash (src : List Nat) (h : src.length = 32) : copy zeroHash src = src := by
  unfold copy zeroHash
  rw [List.take_of_length_le (by simp [h]), List.drop_eq_nil_of_le (by simp [h]),
    List.append_nil]

/-- The early return of the decoder: no base fee, a zero base fee or no extra data. -/
theorem deserialize_of_legacy (h : Header)
    (hc : h.BaseFee = none ∨ h.BaseFee = some 0 ∨ h.Extra.length = 0) :
    DeserializeHeaderExtraInformation h = (HeaderInfo.zero, none) := by
  unfold DeserializeHeaderExtraInformation
  rw [if_pos hc]

/-- The error return of the decoder. -/
theorem deserialize_of_bad_length (h : Header)
    (hc : ¬ (h.BaseFee = none ∨ h.BaseFee = some 0 ∨ h.Extra.length = 0))
    (hl : h.Extra.length ≠ 32) :
    DeserializeHeaderExtraInformation h =
      (HeaderInfo.zero,
        some ("unexpected header extra field length " ++ toString h.Extra.length)) := by
  unfold DeserializeHeaderExtraInformation
  rw [if_neg hc, if_pos hl]

/-- The decoding return of the decoder carries no error. -/
theorem deserialize_of_good_length (h : Header)
    (hc : ¬ (h.BaseFee = none ∨ h.BaseFee = some 0 ∨ h.Extra.length = 0))
    (hl : ¬ h.Extra.length ≠ 32) :
    (DeserializeHeaderExtraInformation h).2 = none := by
  unfold DeserializeHeaderExtraInformation
  rw [if_neg hc, if_neg hl]

/-- The guard of the early return, in terms of the header's fields. -/
theorem legacy_guard_iff (h : Header) :
    (h.BaseFee = none ∨ h.BaseFee = some 0 ∨ h.Extra.length = 0) ↔
      ¬ ((∃ b, h.BaseFee = some b ∧ b ≠ 0) ∧ h.Extra ≠ []) := by
  rw [List.length_eq_zero]
  constructor
  · rintro (h1 | h1 | h1) ⟨⟨b, hb, hb0⟩, he⟩
    · rw [h1] at hb; cases hb
    · rw [h1] at hb; cases hb; exact hb0 rfl
    · exact he h1
  · intro hn
    by_cases he : h.Extra = []
    · exact Or.inr (Or.inr he)
    · cases hb : h.BaseFee with
      | none => exact Or.inl rfl
      | some b =>
        by_cases hb0 : b = 0
        · exact Or.inr (Or.inl (by rw [hb0]))
        · exact absurd ⟨⟨b, hb, hb0⟩, he⟩ hn

/-! ## Header metadata codec: the claims -/

/-- C1. Header metadata round trip: for every well-formed `HeaderInfo` (a 32-byte
`SendRoot`, `uint64` counters) and every header whose `BaseFee` is present and
non-zero, decoding the header written by `UpdateHeaderWithInfo` returns exactly
the `HeaderInfo` and a nil error. -/
theorem header_roundtrip (info : HeaderInfo) (h : Header) (hinfo : info.WF)
    (hfee : ∃ b, h.BaseFee = some b ∧ b ≠ 0) :
    DeserializeHeaderExtraInformation (info.UpdateHeaderWithInfo h) = (info, none) := by
  obtain ⟨b, hb, hb0⟩ := hfee
  obtain ⟨hlen, -, hc, hl, hv⟩ := hinfo
  have hcond : ¬ ((info.UpdateHeaderWithInfo h).BaseFee = none ∨
      (info.UpdateHeaderWithInfo h).BaseFee = some 0 ∨
      (info.UpdateHeaderWithInfo h).Extra.length = 0) := by
    simp [HeaderInfo.UpdateHeaderWithInfo, HeaderInfo.extra, hb, hlen, hb0]
  have hlen2 : ¬ (info.UpdateHeaderWithInfo h).Extra.length ≠ 32 := by
    simp [HeaderInfo.UpdateHeaderWithInfo, HeaderInfo.extra, hlen]
  unfold DeserializeHeaderExtraInformation
  rw [if_neg hcond, if_neg hlen2]
  simp only [HeaderInfo.UpdateHeaderWithInfo, HeaderInfo.extra,
    mixDigest_take8, mixDigest_slice8, mixDigest_slice16, HeaderInfo.zero,
    copy_zeroHash _ hlen, Uint64_PutUint64 _ hc, Uint64_PutUint64 _ hl, Uint64_PutUint64 _ hv]

/-- Witness of C1 at `sampleInfo` and `sampleHeader`. -/
theorem header_roundtrip_witness :
    sampleInfo.WF ∧ (∃ b, sampleHeader.BaseFee = some b ∧ b ≠ 0) ∧
      DeserializeHeaderExtraInformation (sampleInfo.UpdateHeaderWithInfo sampleHeader) =
        (sampleInfo, none) :=
  ⟨by decide, ⟨1, rfl, by decide⟩,
    header_roundtrip sampleInfo sampleHeader (by decide) ⟨1, rfl, by decide⟩⟩

/-- C2. `DeserializeHeaderExtraInformation` returns an error if and only if the
header's `BaseFee` is present and non-zero and its `Extra` is non-empty with a
length different from 32; whenever it returns an error, the `HeaderInfo` it
returns is the all-zero value. -/
theorem deserialize_error_iff (h : Header) :
    ((DeserializeHeaderExtraInformation h).2 ≠ none ↔
      ((∃ b, h.BaseFee = some b ∧ b ≠ 0) ∧ h.Extra ≠ [] ∧ h.Extra.length ≠ 32)) ∧
    ((DeserializeHeaderExtraInformation h).2 ≠ none →
      (DeserializeHeaderExtraInformation h).1 =
        { SendRoot := List.replicate 32 0, SendCount := 0, L1BlockNumber := 0,
          MtOSFormatVersion := 0 }) := by
  by_cases hc : h.BaseFee = none ∨ h.BaseFee = some 0 ∨ h.Extra.length = 0
  · rw [deserialize_of_legacy h hc]
    have hn := (legacy_guard_iff h).1 hc
    refine ⟨⟨fun hf => absurd rfl hf, fun hf => absurd ⟨hf.1, hf.2.1⟩ hn⟩, fun hf => absurd rfl hf⟩
  · have hp : (∃ b, h.BaseFee = some b ∧ b ≠ 0) ∧ h.Extra ≠ [] :=
      not_not.1 (fun hn => hc ((legacy_guard_iff h).2 hn))
    by_cases hl : h.Extra.length ≠ 32
    · rw [deserialize_of_bad_length h hc hl]
      exact ⟨⟨fun _ => ⟨hp.1, hp.2, hl⟩, fun _ => by simp⟩, fun _ => rfl⟩
    · rw [deserialize_of_good_length h hc hl]
      exact ⟨⟨fun hf => absurd rfl hf, fun hf => absurd hf.2.2 hl⟩, fun hf => absurd rfl hf⟩

/-- Evaluation of C2 at `sampleBadHeader`, whose extra data is three bytes long. -/
theorem deserialize_error_iff_witness :
    DeserializeHeaderExtraInformation sampleBadHeader =
      (HeaderInfo.zero, some "unexpected header extra field length 3") ∧
    (DeserializeHeaderExtraInformation sampleBadHeader).2 ≠ none :=
  ⟨by decide, ((deserialize_error_iff sampleBadHeader).1).2
    ⟨⟨1, rfl, by decide⟩, by decide, by decide⟩⟩

/-- C3, as stated, fails: an imported header without base fee and with five bytes
of extra data is decoded to the all-zero value without an error. -/
theorem deserialize_rejects_counterexample :
    sampleLegacyHeader.Extra.length ≠ 32 ∧
      DeserializeHeaderExtraInformation sampleLegacyHeader = (HeaderInfo.zero, none) :=
  ⟨by decide, by decide⟩

/-- C3, amended. For every header whose `BaseFee` is present and non-zero and whose
`Extra` is non-empty with a length that is not exactly 32 bytes,
`DeserializeHeaderExtraInformation` returns an error. -/
theorem deserialize_rejects (h : Header) (hfee : ∃ b, h.BaseFee = some b ∧ b ≠ 0)
    (hne : h.Extra ≠ []) (hl : h.Extra.length ≠ 32) :
    (DeserializeHeaderExtraInformation h).2 ≠ none := by
  have hc : ¬ (h.BaseFee = none ∨ h.BaseFee = some 0 ∨ h.Extra.length = 0) :=
    fun hc => (legacy_guard_iff h).1 hc ⟨hfee, hne⟩
  rw [deserialize_of_bad_length h hc hl]
  simp

/-- Witness of the amended C3 at `sampleBadHeader`. -/
theorem deserialize_rejects_witness :
    (∃ b, sampleBadHeader.BaseFee = some b ∧ b ≠ 0) ∧ sampleBadHeader.Extra ≠ [] ∧
      sampleBadHeader.Extra.length ≠ 32 ∧
      (DeserializeHeaderExtraInformation sampleBadHeader).2 ≠ none :=
  ⟨⟨1, rfl, by decide⟩, by decide, by decide,
    deserialize_rejects sampleBadHeader ⟨1, rfl, by decide⟩ (by decide) (by decide)⟩

/-- C4. For every header whose `BaseFee` is nil or zero, or whose `Extra` is empty,
`DeserializeHeaderExtraInformation` returns the all-zero `HeaderInfo` and a nil
error, whatever `MixDigest` holds (and whatever `Extra` holds when the base fee
is nil or zero). -/
theorem deserialize_legacy_zero (h : Header)
    (hc : h.BaseFee = none ∨ h.BaseFee = some 0 ∨ h.Extra = []) :
    DeserializeHeaderExtraInformation h =
      ({ SendRoot := List.replicate 32 0, SendCount := 0, L1BlockNumber := 0,
         MtOSFormatVersion := 0 }, none) := by
  have hc2 : h.BaseFee = none ∨ h.BaseFee = some 0 ∨ h.Extra.length = 0 := by
    rw [List.length_eq_zero]; exact hc
  rw [deserialize_of_legacy h hc2]
  rfl

/-- Witness of C4 at `sampleLegacyHeader`: no base fee, a digest of `0xff` bytes
and five bytes of extra data. -/
theorem deserialize_legacy_zero_witness :
    sampleLegacyHeader.BaseFee = none ∧
      DeserializeHeaderExtraInformation sampleLegacyHeader =
        ({ SendRoot := List.replicate 32 0, SendCount := 0, L1BlockNumber := 0,
           MtOSFormatVersion := 0 }, none) :=
  ⟨rfl, deserialize_legacy_zero sampleLegacyHeader (Or.inl rfl)⟩

/-- C5. For every well-formed `HeaderInfo` and every header, after
`UpdateHeaderWithInfo` the header's `Extra` is exactly the 32 bytes of `SendRoot`,
`MixDigest[0:8]`, `MixDigest[8:16]` and `MixDigest[16:24]` are the big-endian
encodings of `SendCount`, `L1BlockNumber` and `MtOSFormatVersion`, and
`MixDigest[24:32]` is eight zero bytes. -/
theorem update_header_layout (info : HeaderInfo) (h : Header) (hinfo : info.WF) :
    (info.UpdateHeaderWithInfo h).Extra = info.SendRoot ∧
    (info.UpdateHeaderWithInfo h).Extra.length = 32 ∧
    (info.UpdateHeaderWithInfo h).MixDigest.length = 32 ∧
    IsBigEndian 8 info.SendCount ((info.UpdateHeaderWithInfo h).MixDigest.take 8) ∧
    IsBigEndian 8 info.L1BlockNumber
      (((info.UpdateHeaderWithInfo h).MixDigest.drop 8).take 8) ∧
    IsBigEndian 8 info.MtOSFormatVersion
      (((info.UpdateHeaderWithInfo h).MixDigest.drop 16).take 8) ∧
    ((info.UpdateHeaderWithInfo h).MixDigest.drop 24).take 8 = List.replicate 8 0 := by
  obtain ⟨hlen, -, hc, hl, hv⟩ := hinfo
  refine ⟨rfl, hlen, mixDigest_length info, ?_, ?_, ?_, mixDigest_slice24 info⟩
  · show IsBigEndian 8 info.SendCount (info.mixDigest.take 8)
    rw [mixDigest_take8]; exact PutUint64_isBigEndian _ hc
  · show IsBigEndian 8 info.L1BlockNumber ((info.mixDigest.drop 8).take 8)
    rw [mixDigest_slice8]; exact PutUint64_isBigEndian _ hl
  · show IsBigEndian 8 info.MtOSFormatVersion ((info.mixDigest.drop 16).take 8)
    rw [mixDigest_slice16]; exact PutUint64_isBigEndian _ hv

/-- Witness of C5 at `sampleInfo` and `sampleHeader`. -/
theorem update_header_layout_witness :
    sampleInfo.WF ∧
    (sampleInfo.UpdateHeaderWithInfo sampleHeader).MixDigest =
      [1, 2, 3, 4, 5, 6, 7, 8, 255, 255, 255, 255, 255, 255, 255, 255,
       0, 0, 0, 0, 0, 0, 0, 7, 0, 0, 0, 0, 0, 0, 0, 0] ∧
    IsBigEndian 8 0x0102030405060708
      ((sampleInfo.UpdateHeaderWithInfo sampleHeader).MixDigest.take 8) :=
  ⟨by decide, by decide, (update_header_layout sampleInfo sampleHeader (by decide)).2.2.2.1⟩

/-! ## Lemmas on the ticket-submission payload -/

theorem bigEndianBytes_length (n v : Nat) : (bigEndianBytes n v).length = n := by
  induction n generalizing v with
  | zero => rfl
  | succ n ih => simp [bigEndianBytes, ih]

theorem bigEndianBytes_isBytes (n v : Nat) : isBytes (bigEndianBytes n v) := by
  induction n generalizing v with
  | zero => intro b hb; cases hb
  | succ n ih =>
    intro b hb
    simp only [bigEndianBytes, List.mem_append, List.mem_singleton] at hb
    rcases hb with hb | hb
    · exact ih _ b hb
    · rw [hb]; exact Nat.mod_lt _ (by decide)

theorem bigEndianValue_append_singleton (bs : List Nat) (b : Nat) :
    bigEndianValue (bs ++ [b]) = bigEndianValue bs * 256 + b := by
  simp [bigEndianValue, List.foldl_append]

/-- The bytes produced for `v` denote `v` reduced modulo `256 ^ n`. -/
theorem bigEndianValue_bigEndianBytes (n v : Nat) :
    bigEndianValue (bigEndianBytes n v) = v % 256 ^ n := by
  induction n generalizing v with
  | zero => simp [bigEndianBytes, bigEndianValue, Nat.mod_one]
  | succ n ih =>
    rw [bigEndianBytes, bigEndianValue_append_singleton, ih, pow_succ,
      Nat.mul_comm (256 ^ n) 256, Nat.mod_mul]
    omega

theorem bigEndianBytes_isBigEndian (n v : Nat) (h : v < 256 ^ n) :
    IsBigEndian n v (bigEndianBytes n v) :=
  ⟨bigEndianBytes_length n v, bigEndianBytes_isBytes n v,
    by rw [bigEndianValue_bigEndianBytes, Nat.mod_eq_of_lt h]⟩

/-- The low 256 bits of a natural number below `2 ^ 256` are the number itself. -/
theorem u256_natCast (n : Nat) (h : n < 2 ^ 256) : ((n : Int) % 2 ^ 256).toNat = n := by
  have hc : ((n : Int) % 2 ^ 256) = ((n % 2 ^ 256 : Nat) : Int) := by push_cast; rfl
  rw [hc, Int.toNat_natCast, Nat.mod_eq_of_lt h]

/-- The word that `math.U256Bytes` produces for a natural number below `2 ^ 256`. -/
theorem u256Word_isBigEndian (n : Nat) (h : n < 2 ^ 256) :
    IsBigEndian 32 n (bigEndianBytes 32 ((n : Int) % 2 ^ 256).toNat) := by
  rw [u256_natCast n h]
  exact bigEndianBytes_isBigEndian 32 n (by norm_num at h ⊢; exact h)

theorem MustDecode_selector :
    hexutil.MustDecode "0xc9f95d32" = some [0xc9, 0xf9, 0x5d, 0x32] := rfl

/-- The payload of a transaction whose big integers are non-nil, segment by segment. -/
theorem data_eq (tx : MantleSubmitRetryableTx) (l1 dv rv gfc msf : Int)
    (h1 : tx.L1BaseFee = some l1) (h2 : tx.DepositValue = some dv)
    (h3 : tx.RetryValue = some rv) (h4 : tx.GasFeeCap = some gfc)
    (h5 : tx.MaxSubmissionFee = some msf)
    (hr : tx.RequestId.length = 32) (hf : tx.FeeRefundAddr.length = 20)
    (hb : tx.Beneficiary.length = 20) (ht : (tx.RetryTo.getD zeroAddress).length = 20) :
    tx.data = some ([0xc9, 0xf9, 0x5d, 0x32] ++ (tx.RequestId ++
      (bigEndianBytes 32 (l1 % 2 ^ 256).toNat ++
      (bigEndianBytes 32 (dv % 2 ^ 256).toNat ++
      (bigEndianBytes 32 (rv % 2 ^ 256).toNat ++
      (bigEndianBytes 32 (gfc % 2 ^ 256).toNat ++
      (bigEndianBytes 32 ((tx.Gas : Int) % 2 ^ 256).toNat ++
      (bigEndianBytes 32 (msf % 2 ^ 256).toNat ++
      (List.replicate 12 0 ++ (tx.FeeRefundAddr ++
      (List.replicate 12 0 ++ (tx.Beneficiary ++
      (List.replicate 12 0 ++ (tx.RetryTo.getD zeroAddress ++
      (bigEndianBytes 32 (((352 : Nat) : Int) % 2 ^ 256).toNat ++
      (bigEndianBytes 32 ((tx.RetryData.length : Int) % 2 ^ 256).toNat ++
      (tx.RetryData ++
        List.replicate ((32 - tx.RetryData.length % 32) % 32) 0))))))))))))))))) := by
  have hto : (match tx.RetryTo with | some a => a | none => zeroAddress) =
      tx.RetryTo.getD zeroAddress := by cases tx.RetryTo <;> rfl
  unfold MantleSubmitRetryableTx.data
  simp only [h1, h2, h3, h4, h5, math.U256Bytes, MustDecode_selector, hto, Option.bind_eq_bind,
    Option.some_bind, Option.pure_def, List.nil_append, List.length_append, hr, hf, hb, ht,
    bigEndianBytes_length, List.length_replicate, Int.ofNat_eq_coe]
  by_cases hx : tx.RetryData.length % 32 > 0
  · have hp : (32 - tx.RetryData.length % 32) % 32 = 32 - tx.RetryData.length % 32 := by omega
    rw [if_pos hx, hp]
    simp only [List.append_assoc, Nat.reduceAdd]
  · have hp : (32 - tx.RetryData.length % 32) % 32 = 0 := by omega
    rw [if_neg hx, hp]
    simp only [List.append_assoc, Nat.reduceAdd, List.replicate_zero, List.append_nil]

theorem U256Bytes_ne_none (x : Option Int) (w : List Nat) (h : math.U256Bytes x = some w) :
    x ≠ none := by
  rintro rfl
  cases h

/-- A payload is returned only when the big integers that `data()` reads are non-nil. -/
theorem payloadFieldsNonNil_of_data (tx : MantleSubmitRetryableTx) (d : List Nat)
    (hd : tx.data = some d) : tx.payloadFieldsNonNil := by
  unfold MantleSubmitRetryableTx.data at hd
  simp only [Option.bind_eq_bind, Option.bind_eq_some] at hd
  obtain ⟨w1, h1, w2, h2, w3, h3, w4, h4, -, -, w6, h6, -⟩ := hd
  exact ⟨U256Bytes_ne_none _ _ h1, U256Bytes_ne_none _ _ h2, U256Bytes_ne_none _ _ h3,
    U256Bytes_ne_none _ _ h4, U256Bytes_ne_none _ _ h6⟩

theorem drop_append_length_add (a b : List Nat) (n k : Nat) (h : a.length = n) :
    (a ++ b).drop (n + k) = b.drop k := by
  subst h; exact List.drop_append k

theorem drop_append_length (a b : List Nat) (n : Nat) (h : a.length = n) :
    (a ++ b).drop n = b := by
  subst h; exact List.drop_left a b

theorem take_append_length (a b : List Nat) (n : Nat) (h : a.length = n) :
    (a ++ b).take n = a := by
  subst h; exact List.take_left a b

/-- The payload as the selector, the seven numeric words, the three address words,
the offset word, the length word and the padded retry data. -/
theorem data_words (tx : MantleSubmitRetryableTx) (hwf : tx.WF)
    (hnn : tx.payloadFieldsNonNil) :
    ∃ nums : List Nat, nums.length = 224 ∧
      tx.data = some ([0xc9, 0xf9, 0x5d, 0x32] ++ (nums ++
        ((List.replicate 12 0 ++ tx.FeeRefundAddr) ++
        ((List.replicate 12 0 ++ tx.Beneficiary) ++
        ((List.replicate 12 0 ++ tx.RetryTo.getD zeroAddress) ++
        (bigEndianBytes 32 352 ++
        (bigEndianBytes 32 tx.RetryData.length ++
        (tx.RetryData ++
          List.replicate ((32 - tx.RetryData.length % 32) % 32) 0)))))))) := by
  obtain ⟨⟨hr, -⟩, -, -, ⟨ht, -⟩, ⟨hb, -⟩, ⟨hf, -⟩, -, hlen⟩ := hwf
  obtain ⟨n1, n2, n3, n4, n5⟩ := hnn
  obtain ⟨l1, h1⟩ := Option.ne_none_iff_exists'.1 n1
  obtain ⟨dv, h2⟩ := Option.ne_none_iff_exists'.1 n2
  obtain ⟨rv, h3⟩ := Option.ne_none_iff_exists'.1 n3
  obtain ⟨gfc, h4⟩ := Option.ne_none_iff_exists'.1 n4
  obtain ⟨msf, h5⟩ := Option.ne_none_iff_exists'.1 n5
  refine ⟨tx.RequestId ++ (bigEndianBytes 32 (l1 % 2 ^ 256).toNat ++
      (bigEndianBytes 32 (dv % 2 ^ 256).toNat ++
      (bigEndianBytes 32 (rv % 2 ^ 256).toNat ++
      (bigEndianBytes 32 (gfc % 2 ^ 256).toNat ++
      (bigEndianBytes 32 ((tx.Gas : Int) % 2 ^ 256).toNat ++
      bigEndianBytes 32 (msf % 2 ^ 256).toNat))))), ?_, ?_⟩
  · simp only [List.length_append, bigEndianBytes_length, hr]
  · rw [data_eq tx l1 dv rv gfc msf h1 h2 h3 h4 h5 hr hf hb ht,
      u256_natCast 352 (by norm_num),
      u256_natCast tx.RetryData.length (lt_trans hlen (by norm_num))]
    simp only [List.append_assoc]

/-! ## Ticket-submission payload: the claims -/

/-- C6. For every well-formed `MantleSubmitRetryableTx` whose big-integer fields read
by `data()` are non-nil and in `[0, 2^256)`, the payload starts with the four bytes
`c9 f9 5d 32`, and the seven 32-byte words that follow are `RequestId` verbatim and
the 32-byte big-endian encodings of `L1BaseFee`, `DepositValue`, `RetryValue`,
`GasFeeCap`, `Gas` and `MaxSubmissionFee`, in this order. -/
theorem data_numeric_words (tx : MantleSubmitRetryableTx) (l1 dv rv gfc msf : Nat)
    (hwf : tx.WF)
    (h1 : tx.L1BaseFee = some (l1 : Int)) (r1 : l1 < 2 ^ 256)
    (h2 : tx.DepositValue = some (dv : Int)) (r2 : dv < 2 ^ 256)
    (h3 : tx.RetryValue = some (rv : Int)) (r3 : rv < 2 ^ 256)
    (h4 : tx.GasFeeCap = some (gfc : Int)) (r4 : gfc < 2 ^ 256)
    (h5 : tx.MaxSubmissionFee = some (msf : Int)) (r5 : msf < 2 ^ 256) :
    ∃ w1 w2 w3 w4 w5 w6 rest : List Nat,
      tx.data = some ([0xc9, 0xf9, 0x5d, 0x32] ++ tx.RequestId ++ w1 ++ w2 ++ w3 ++ w4 ++
        w5 ++ w6 ++ rest) ∧
      tx.RequestId.length = 32 ∧
      IsBigEndian 32 l1 w1 ∧ IsBigEndian 32 dv w2 ∧ IsBigEndian 32 rv w3 ∧
      IsBigEndian 32 gfc w4 ∧ IsBigEndian 32 tx.Gas w5 ∧ IsBigEndian 32 msf w6 := by
  obtain ⟨⟨hr, -⟩, -, hg, ⟨ht, -⟩, ⟨hb, -⟩, ⟨hf, -⟩, -, -⟩ := hwf
  have hgas : tx.Gas < 2 ^ 256 := lt_trans hg (by norm_num)
  refine ⟨_, _, _, _, _, _,
    List.replicate 12 0 ++ (tx.FeeRefundAddr ++ (List.replicate 12 0 ++ (tx.Beneficiary ++
      (List.replicate 12 0 ++ (tx.RetryTo.getD zeroAddress ++
      (bigEndianBytes 32 (((352 : Nat) : Int) % 2 ^ 256).toNat ++
      (bigEndianBytes 32 ((tx.RetryData.length : Int) % 2 ^ 256).toNat ++
      (tx.RetryData ++ List.replicate ((32 - tx.RetryData.length % 32) % 32) 0)))))))),
    ?_, hr, u256Word_isBigEndian l1 r1, u256Word_isBigEndian dv r2,
    u256Word_isBigEndian rv r3, u256Word_isBigEndian gfc r4,
    u256Word_isBigEndian tx.Gas hgas, u256Word_isBigEndian msf r5⟩
  rw [data_eq tx l1 dv rv gfc msf h1 h2 h3 h4 h5 hr hf hb ht]
  simp only [List.append_assoc]

/-- Witness of C6 at `sampleSubmit`; its third word encodes the deposit value 1000. -/
theorem data_numeric_words_witness :
    sampleSubmit.WF ∧
    (sampleSubmit.data.map fun d => (d.drop 68).take 32) =
      some (List.replicate 30 0 ++ [0x03, 0xe8]) ∧
    ∃ w1 w2 w3 w4 w5 w6 rest : List Nat,
      sampleSubmit.data = some ([0xc9, 0xf9, 0x5d, 0x32] ++ sampleSubmit.RequestId ++ w1 ++
        w2 ++ w3 ++ w4 ++ w5 ++ w6 ++ rest) ∧
      sampleSubmit.RequestId.length = 32 ∧
      IsBigEndian 32 7 w1 ∧ IsBigEndian 32 1000 w2 ∧ IsBigEndian 32 0 w3 ∧
      IsBigEndian 32 1 w4 ∧ IsBigEndian 32 sampleSubmit.Gas w5 ∧ IsBigEndian 32 5 w6 :=
  ⟨by decide, by decide,
    data_numeric_words sampleSubmit 7 1000 0 1 5 (by decide) rfl (by norm_num) rfl
      (by norm_num) rfl (by norm_num) rfl (by norm_num) rfl (by norm_num)⟩

/-- C7. For every well-formed `MantleSubmitRetryableTx` with non-nil big-integer
fields and `RetryData` of length `n`, the payload ends with the `n` bytes of
`RetryData` followed by exactly `(32 - n mod 32) mod 32` zero bytes, after a front
part of `4 + 384` bytes; its total length is `4 + 384 + 32 * ceil(n / 32)`, so the
part after the selector is a multiple of 32 bytes; and for `RetryData = aa bb cc`
the last 32 bytes are `aa bb cc` followed by 29 zero bytes. -/
theorem data_tail_padding (tx : MantleSubmitRetryableTx) (hwf : tx.WF)
    (hnn : tx.payloadFieldsNonNil) :
    ∃ front d : List Nat, tx.data = some d ∧
      d = front ++ tx.RetryData ++
        List.replicate ((32 - tx.RetryData.length % 32) % 32) 0 ∧
      front.length = 4 + 384 ∧
      d.length = 4 + 384 + 32 * ((tx.RetryData.length + 31) / 32) ∧
      (d.length - 4) % 32 = 0 ∧
      (tx.RetryData = [0xAA, 0xBB, 0xCC] →
        d.drop (d.length - 32) = [0xAA, 0xBB, 0xCC] ++ List.replicate 29 0) := by
  obtain ⟨nums, hnums, hd⟩ := data_words tx hwf hnn
  obtain ⟨-, -, -, ⟨ht, -⟩, ⟨hb, -⟩, ⟨hf, -⟩, -, -⟩ := hwf
  have hfront : ([0xc9, 0xf9, 0x5d, 0x32] ++ (nums ++
      ((List.replicate 12 0 ++ tx.FeeRefundAddr) ++
      ((List.replicate 12 0 ++ tx.Beneficiary) ++
      ((List.replicate 12 0 ++ tx.RetryTo.getD zeroAddress) ++
      (bigEndianBytes 32 352 ++ bigEndianBytes 32 tx.RetryData.length)))))).length =
      4 + 384 := by
    simp only [List.length_append, List.length_cons, List.length_nil, List.length_replicate,
      bigEndianBytes_length, hnums, hf, hb, ht]
  obtain ⟨front, hfl, hdf⟩ : ∃ front : List Nat, front.length = 4 + 384 ∧
      tx.data = some (front ++ tx.RetryData ++
        List.replicate ((32 - tx.RetryData.length % 32) % 32) 0) :=
    ⟨_, hfront, by rw [hd]; simp only [List.append_assoc]⟩
  have hlen : (front ++ tx.RetryData ++
      List.replicate ((32 - tx.RetryData.length % 32) % 32) 0).length =
      4 + 384 + 32 * ((tx.RetryData.length + 31) / 32) := by
    rw [List.length_append, List.length_append, hfl, List.length_replicate]
    omega
  refine ⟨front, _, hdf, rfl, hfl, hlen, ?_, ?_⟩
  · rw [hlen]; omega
  · intro hrd
    have h3 : tx.RetryData.length = 3 := by rw [hrd]; rfl
    rw [hlen, List.append_assoc, h3,
      show 4 + 384 + 32 * ((3 + 31) / 32) - 32 = 4 + 384 from rfl,
      drop_append_length _ _ _ hfl, hrd]

/-- Witness of C7 at `sampleSubmit`, whose retry data is `aa bb cc`: the payload is
420 bytes long and ends with `aa bb cc` and 29 zero bytes. -/
theorem data_tail_padding_witness :
    sampleSubmit.WF ∧ sampleSubmit.payloadFieldsNonNil ∧
    sampleSubmit.data.map List.length = some 420 ∧
    (sampleSubmit.data.map fun d => d.drop 388) =
      some ([0xAA, 0xBB, 0xCC] ++ List.replicate 29 0) ∧
    ∃ front d : List Nat, sampleSubmit.data = some d ∧
      d = front ++ sampleSubmit.RetryData ++
        List.replicate ((32 - sampleSubmit.RetryData.length % 32) % 32) 0 ∧
      front.length = 4 + 384 ∧
      d.length = 4 + 384 + 32 * ((sampleSubmit.RetryData.length + 31) / 32) ∧
      (d.length - 4) % 32 = 0 ∧
      (sampleSubmit.RetryData = [0xAA, 0xBB, 0xCC] →
        d.drop (d.length - 32) = [0xAA, 0xBB, 0xCC] ++ List.replicate 29 0) :=
  ⟨by decide, by decide, by decide, by decide,
    data_tail_padding sampleSubmit (by decide) (by decide)⟩

/-- C8, as stated, fails: in the payload of `sampleSubmit` the word after the seven
numeric words is twelve zero bytes followed by the fee-refund address, so its first
twenty bytes are not the address. -/
theorem data_address_padding_counterexample :
    (sampleSubmit.data.map fun d => (d.drop (4 + 7 * 32)).take 32) =
      some (List.replicate 12 0 ++ sampleSubmit.FeeRefundAddr) ∧
    (sampleSubmit.data.map fun d => (d.drop (4 + 7 * 32)).take 20) ≠
      some sampleSubmit.FeeRefundAddr := by
  decide

/-- C8, amended. In every payload returned by `data()` on a well-formed transaction,
directly after the seven numeric words come the fee-refund address, the beneficiary
and the retry destination (the zero address when `RetryTo` is nil), in that order,
each 20-byte address being preceded by its 12 bytes of zero padding: each address
occupies the last 20 bytes of its 32-byte word. -/
theorem data_address_words (tx : MantleSubmitRetryableTx) (d : List Nat) (hwf : tx.WF)
    (hd : tx.data = some d) :
    (d.drop (4 + 7 * 32)).take 32 = List.replicate 12 0 ++ tx.FeeRefundAddr ∧
    (d.drop (4 + 8 * 32)).take 32 = List.replicate 12 0 ++ tx.Beneficiary ∧
    (d.drop (4 + 9 * 32)).take 32 = List.replicate 12 0 ++ tx.RetryTo.getD zeroAddress ∧
    tx.FeeRefundAddr.length = 20 ∧ tx.Beneficiary.length = 20 ∧
    (tx.RetryTo.getD zeroAddress).length = 20 := by
  obtain ⟨nums, hnums, hd2⟩ := data_words tx hwf (payloadFieldsNonNil_of_data tx d hd)
  obtain ⟨-, -, -, ⟨ht, -⟩, ⟨hb, -⟩, ⟨hf, -⟩, -, -⟩ := hwf
  rw [hd] at hd2
  have hd3 := Option.some.inj hd2
  have hwF : (List.replicate 12 0 ++ tx.FeeRefundAddr).length = 32 := by
    rw [List.length_append, List.length_replicate, hf]
  have hwB : (List.replicate 12 0 ++ tx.Beneficiary).length = 32 := by
    rw [List.length_append, List.length_replicate, hb]
  have hwT : (List.replicate 12 0 ++ tx.RetryTo.getD zeroAddress).length = 32 := by
    rw [List.length_append, List.length_replicate, ht]
  refine ⟨?_, ?_, ?_, hf, hb, ht⟩
  · rw [hd3, drop_append_length_add [0xc9, 0xf9, 0x5d, 0x32] _ 4 (7 * 32) rfl, drop_append_length _ _ (7 * 32) hnums,
      take_append_length _ _ 32 hwF]
  · rw [hd3, show 4 + 8 * 32 = 4 + (7 * 32 + 32) from rfl,
      drop_append_length_add [0xc9, 0xf9, 0x5d, 0x32] _ 4 (7 * 32 + 32) rfl,
      drop_append_length_add _ _ (7 * 32) 32 hnums, drop_append_length _ _ 32 hwF,
      take_append_length _ _ 32 hwB]
  · rw [hd3, show 4 + 9 * 32 = 4 + (7 * 32 + (32 + 32)) from rfl,
      drop_append_length_add [0xc9, 0xf9, 0x5d, 0x32] _ 4 (7 * 32 + (32 + 32)) rfl,
      drop_append_length_add _ _ (7 * 32) (32 + 32) hnums,
      drop_append_length_add _ _ 32 32 hwF, drop_append_length _ _ 32 hwB,
      take_append_length _ _ 32 hwT]

/-- Witness of the amended C8 at `sampleSubmit` and its payload. -/
theorem data_address_words_witness :
    sampleSubmit.WF ∧ sampleSubmit.data = some sampleSubmitPayload ∧
    (sampleSubmitPayload.drop (4 + 7 * 32)).take 32 =
      List.replicate 12 0 ++ sampleSubmit.FeeRefundAddr ∧
    (sampleSubmitPayload.drop (4 + 8 * 32)).take 32 =
      List.replicate 12 0 ++ sampleSubmit.Beneficiary ∧
    (sampleSubmitPayload.drop (4 + 9 * 32)).take 32 =
      List.replicate 12 0 ++ sampleSubmit.RetryTo.getD zeroAddress ∧
    sampleSubmit.FeeRefundAddr.length = 20 ∧ sampleSubmit.Beneficiary.length = 20 ∧
    (sampleSubmit.RetryTo.getD zeroAddress).length = 20 :=
  ⟨by decide, by decide,
    data_address_words sampleSubmit sampleSubmitPayload (by decide) (by decide)⟩

/-- C9. For every well-formed `MantleSubmitRetryableTx` with non-nil big-integer
fields, the 11th 32-byte word after the selector encodes the byte length of the ten
words that precede it plus 32, which is 352 whatever the field values, and the
32-byte word found 352 bytes after the end of the selector is the big-endian
encoding of `len(RetryData)`. -/
theorem data_offset_word (tx : MantleSubmitRetryableTx) (hwf : tx.WF)
    (hnn : tx.payloadFieldsNonNil) :
    ∃ d : List Nat, tx.data = some d ∧
      IsBigEndian 32 352 (((d.drop 4).drop (10 * 32)).take 32) ∧
      ((d.drop 4).take (10 * 32)).length + 32 = 352 ∧
      IsBigEndian 32 tx.RetryData.length (((d.drop 4).drop 352).take 32) := by
  obtain ⟨nums, hnums, hd⟩ := data_words tx hwf hnn
  obtain ⟨-, -, -, ⟨ht, -⟩, ⟨hb, -⟩, ⟨hf, -⟩, -, hlen⟩ := hwf
  have hwF : (List.replicate 12 0 ++ tx.FeeRefundAddr).length = 32 := by
    rw [List.length_append, List.length_replicate, hf]
  have hwB : (List.replicate 12 0 ++ tx.Beneficiary).length = 32 := by
    rw [List.length_append, List.length_replicate, hb]
  have hwT : (List.replicate 12 0 ++ tx.RetryTo.getD zeroAddress).length = 32 := by
    rw [List.length_append, List.length_replicate, ht]
  refine ⟨_, hd, ?_, ?_, ?_⟩
  · rw [drop_append_length [0xc9, 0xf9, 0x5d, 0x32] _ 4 rfl, show 10 * 32 = 224 + (32 + (32 + 32)) from rfl,
      drop_append_length_add _ _ 224 (32 + (32 + 32)) hnums,
      drop_append_length_add _ _ 32 (32 + 32) hwF, drop_append_length_add _ _ 32 32 hwB,
      drop_append_length _ _ 32 hwT, take_append_length _ _ 32 (bigEndianBytes_length _ _)]
    exact bigEndianBytes_isBigEndian 32 352 (by norm_num)
  · rw [drop_append_length [0xc9, 0xf9, 0x5d, 0x32] _ 4 rfl, List.length_take]
    simp only [List.length_append, List.length_replicate, bigEndianBytes_length, hnums, hf, hb,
      ht]
    omega
  · rw [drop_append_length [0xc9, 0xf9, 0x5d, 0x32] _ 4 rfl, show 352 = 224 + (32 + (32 + (32 + 32))) from rfl,
      drop_append_length_add _ _ 224 (32 + (32 + (32 + 32))) hnums,
      drop_append_length_add _ _ 32 (32 + (32 + 32)) hwF,
      drop_append_length_add _ _ 32 (32 + 32) hwB, drop_append_length_add _ _ 32 32 hwT,
      drop_append_length _ _ 32 (bigEndianBytes_length _ _),
      take_append_length _ _ 32 (bigEndianBytes_length _ _)]
    exact bigEndianBytes_isBigEndian 32 _ (lt_trans hlen (by norm_num))

/-- Witness of C9 at `sampleSubmit`: the offset word holds 352 (`01 60`) and the
word at that offset holds 3, the length of the retry data. -/
theorem data_offset_word_witness :
    sampleSubmit.WF ∧ sampleSubmit.payloadFieldsNonNil ∧
    (sampleSubmit.data.map fun d => ((d.drop 4).drop (10 * 32)).take 32) =
      some (List.replicate 30 0 ++ [0x01, 0x60]) ∧
    (sampleSubmit.data.map fun d => ((d.drop 4).drop 352).take 32) =
      some (List.replicate 31 0 ++ [3]) ∧
    ∃ d : List Nat, sampleSubmit.data = some d ∧
      IsBigEndian 32 352 (((d.drop 4).drop (10 * 32)).take 32) ∧
      ((d.drop 4).take (10 * 32)).length + 32 = 352 ∧
      IsBigEndian 32 sampleSubmit.RetryData.length (((d.drop 4).drop 352).take 32) :=
  ⟨by decide, by decide, by decide, by decide,
    data_offset_word sampleSubmit (by decide) (by decide)⟩

/-! ## Signer dispatch: the claims -/

/-- C10. For every wrapped underlying signer and every transaction whose inner data
is a `MantleUnsignedTx`, `MantleContractTx`, `MantleDepositTx`, `MantleRetryTx` or
`MantleSubmitRetryableTx`, the mantle signer's `Sender` returns exactly the inner
`From` field and a nil error. -/
theorem mantle_sender_from (signer : Signer) :
    (∀ u : MantleUnsignedTx,
      (NewMantleSigner signer).Sender { inner := .MantleUnsignedTx u } = some (u.From, none)) ∧
    (∀ c : MantleContractTx,
      (NewMantleSigner signer).Sender { inner := .MantleContractTx c } = some (c.From, none)) ∧
    (∀ d : MantleDepositTx,
      (NewMantleSigner signer).Sender { inner := .MantleDepositTx d } = some (d.From, none)) ∧
    (∀ r : MantleRetryTx,
      (NewMantleSigner signer).Sender { inner := .MantleRetryTx r } = some (r.From, none)) ∧
    (∀ t : MantleSubmitRetryableTx,
      (NewMantleSigner signer).Sender { inner := .MantleSubmitRetryableTx t } =
        some (t.From, none)) :=
  ⟨fun _ => rfl, fun _ => rfl, fun _ => rfl, fun _ => rfl, fun _ => rfl⟩

/-- Evaluation of C10 with an underlying signer that always fails and with one that
recovers another address: on the sample deposit and the sample ticket submission
the sender is the `From` field. -/
theorem mantle_sender_from_witness :
    failingSigner.Sender { inner := .MantleDepositTx sampleDeposit } =
      (zeroAddress, some "invalid transaction v, r, s values") ∧
    (NewMantleSigner failingSigner).Sender { inner := .MantleDepositTx sampleDeposit } =
      some (sampleAddress, none) ∧
    constantSigner.Sender { inner := .MantleSubmitRetryableTx sampleSubmit } =
      (sampleAddress3, none) ∧
    (NewMantleSigner constantSigner).Sender { inner := .MantleSubmitRetryableTx sampleSubmit } =
      some (sampleAddress, none) :=
  ⟨rfl, (mantle_sender_from failingSigner).2.2.1 sampleDeposit,
    rfl, (mantle_sender_from constantSigner).2.2.2.2 sampleSubmit⟩

/-- The plain legacy transaction built from a legacy payload holds its deep copy;
building it does not panic. -/
theorem NewTx_legacy (legacy : LegacyTx) :
    NewTx (.LegacyTx legacy) = some { inner := .LegacyTx legacy.copy } := rfl

/-- C11. For every wrapped underlying signer and every `MantleInternalTx` (any
`ChainId`, any `Data`), the mantle signer's `Sender` returns the fixed address
`MtosAddress`, which is `0x00000000000000000000000000000000000a4b05`, with a nil
error, and that address is the destination `to()` of the transaction. -/
theorem mantle_sender_internal (signer : Signer) (t : MantleInternalTx) :
    (NewMantleSigner signer).Sender { inner := .MantleInternalTx t } =
      some (MtosAddress, none) ∧
    MtosAddress = List.replicate 17 0 ++ [0x0a, 0x4b, 0x05] ∧
    t.to = some MtosAddress :=
  ⟨rfl, by decide, rfl⟩

/-- Evaluation of C11 with an underlying signer that always fails. -/
theorem mantle_sender_internal_witness :
    failingSigner.Sender { inner := .MantleInternalTx sampleInternal } =
      (zeroAddress, some "invalid transaction v, r, s values") ∧
    (NewMantleSigner failingSigner).Sender { inner := .MantleInternalTx sampleInternal } =
      some (List.replicate 17 0 ++ [0x0a, 0x4b, 0x05], none) :=
  ⟨rfl, (mantle_sender_internal failingSigner sampleInternal).2.1 ▸
    (mantle_sender_internal failingSigner sampleInternal).1⟩

/-- C12. For a legacy-override transaction, the mantle signer's `Sender` returns the
explicit `Sender` field with a nil error when that field is non-nil, whatever the
underlying signer does; when the field is nil it returns exactly what the
underlying signer's `Sender` returns for the plain legacy transaction built from
the embedded `LegacyTx`, so the result does not depend on `HashOverride`,
`EffectiveGasPrice` or `L1BlockNumber`. -/
theorem mantle_sender_legacy (signer : Signer) (legacy : LegacyTx) (hashOverride : List Nat)
    (effectiveGas l1Block : Nat) :
    (∀ sender : List Nat,
      (NewMantleSigner signer).Sender { inner := .MantleLegacyTxData {
          LegacyTx := legacy, HashOverride := hashOverride, EffectiveGasPrice := effectiveGas,
          L1BlockNumber := l1Block, Sender := some sender } } = some (sender, none)) ∧
    (NewMantleSigner signer).Sender { inner := .MantleLegacyTxData {
          LegacyTx := legacy, HashOverride := hashOverride, EffectiveGasPrice := effectiveGas,
          L1BlockNumber := l1Block, Sender := none } } =
      (NewTx (.LegacyTx legacy)).map signer.Sender ∧
    (NewTx (.LegacyTx legacy)).map signer.Sender =
      some (signer.Sender { inner := .LegacyTx legacy.copy }) ∧
    (∀ (hashOverride2 : List Nat) (effectiveGas2 l1Block2 : Nat),
      (NewMantleSigner signer).Sender { inner := .MantleLegacyTxData {
          LegacyTx := legacy, HashOverride := hashOverride2,
          EffectiveGasPrice := effectiveGas2, L1BlockNumber := l1Block2, Sender := none } } =
      (NewMantleSigner signer).Sender { inner := .MantleLegacyTxData {
          LegacyTx := legacy, HashOverride := hashOverride, EffectiveGasPrice := effectiveGas,
          L1BlockNumber := l1Block, Sender := none } }) :=
  ⟨fun _ => rfl, rfl, rfl, fun _ _ _ => rfl⟩

/-- Evaluation of C12: with a signer that recovers `sampleAddress2` from the embedded
legacy payload, the override sender `sampleAddress` wins when present, and the
recovered address is returned when it is absent. -/
theorem mantle_sender_legacy_witness :
    (NewMantleSigner legacyFieldSigner).Sender
        { inner := .MantleLegacyTxData sampleMantleLegacySent } = some (sampleAddress, none) ∧
    (NewMantleSigner legacyFieldSigner).Sender
        { inner := .MantleLegacyTxData sampleMantleLegacy } = some (sampleAddress2, none) ∧
    (NewMantleSigner failingSigner).Sender
        { inner := .MantleLegacyTxData sampleMantleLegacySent } = some (sampleAddress, none) :=
  ⟨(mantle_sender_legacy legacyFieldSigner sampleLegacy (List.replicate 32 0x43) 6 2000).1
      sampleAddress,
    (mantle_sender_legacy legacyFieldSigner sampleLegacy (List.replicate 32 0x42) 5 1000).2.1,
    rfl⟩

/-- C13. For every wrapped underlying signer, every signature byte string and every
transaction of one of the six non-legacy Mantle variants, the mantle signer's
`SignatureValues` returns `R = S = V = 0` and a nil error. -/
theorem mantle_signature_values_zero (signer : Signer) (sig : List Nat) :
    (∀ u : MantleUnsignedTx,
      (NewMantleSigner signer).SignatureValues { inner := .MantleUnsignedTx u } sig =
        some ((some 0, some 0, some 0), none)) ∧
    (∀ c : MantleContractTx,
      (NewMantleSigner signer).SignatureValues { inner := .MantleContractTx c } sig =
        some ((some 0, some 0, some 0), none)) ∧
    (∀ d : MantleDepositTx,
      (NewMantleSigner signer).SignatureValues { inner := .MantleDepositTx d } sig =
        some ((some 0, some 0, some 0), none)) ∧
    (∀ t : MantleInternalTx,
      (NewMantleSigner signer).SignatureValues { inner := .MantleInternalTx t } sig =
        some ((some 0, some 0, some 0), none)) ∧
    (∀ r : MantleRetryTx,
      (NewMantleSigner signer).SignatureValues { inner := .MantleRetryTx r } sig =
        some ((some 0, some 0, some 0), none)) ∧
    (∀ t : MantleSubmitRetryableTx,
      (NewMantleSigner signer).SignatureValues { inner := .MantleSubmitRetryableTx t } sig =
        some ((some 0, some 0, some 0), none)) :=
  ⟨fun _ => rfl, fun _ => rfl, fun _ => rfl, fun _ => rfl, fun _ => rfl, fun _ => rfl⟩

/-- Evaluation of C13 with an underlying signer that fails and an empty signature,
and with one that returns non-zero values and a one-byte signature. -/
theorem mantle_signature_values_zero_witness :
    failingSigner.SignatureValues { inner := .MantleDepositTx sampleDeposit } [] =
      ((none, none, none), some "transaction type not supported") ∧
    (NewMantleSigner failingSigner).SignatureValues { inner := .MantleDepositTx sampleDeposit }
      [] = some ((some 0, some 0, some 0), none) ∧
    (NewMantleSigner constantSigner).SignatureValues { inner := .MantleInternalTx sampleInternal }
      [0xff] = some ((some 0, some 0, some 0), none) :=
  ⟨rfl, (mantle_signature_values_zero failingSigner []).2.2.1 sampleDeposit,
    (mantle_signature_values_zero constantSigner [0xff]).2.2.2.1 sampleInternal⟩

/-- C14, as stated, fails: wrapped around a signer whose `Hash` is `11 11 ... 11`,
the mantle signer gives that hash, not the zero hash, to the sample deposit. -/
theorem mantle_hash_zero_counterexample :
    (NewMantleSigner constantSigner).Hash { inner := .MantleDepositTx sampleDeposit } =
      some (List.replicate 32 0x11) ∧
    (NewMantleSigner constantSigner).Hash { inner := .MantleDepositTx sampleDeposit } ≠
      some zeroHash := by
  decide

/-- C14, amended. For every wrapped underlying signer and every transaction of one of
the six non-legacy Mantle variants, the mantle signer's `Hash(tx)` is the value the
wrapped signer's `Hash` gives to the same transaction, whatever its content; it is
the all-zero hash exactly when the wrapped signer returns the all-zero hash. -/
theorem mantle_hash_delegates (signer : Signer) :
    (∀ u : MantleUnsignedTx, (NewMantleSigner signer).Hash { inner := .MantleUnsignedTx u } =
      some (signer.Hash { inner := .MantleUnsignedTx u })) ∧
    (∀ c : MantleContractTx, (NewMantleSigner signer).Hash { inner := .MantleContractTx c } =
      some (signer.Hash { inner := .MantleContractTx c })) ∧
    (∀ d : MantleDepositTx, (NewMantleSigner signer).Hash { inner := .MantleDepositTx d } =
      some (signer.Hash { inner := .MantleDepositTx d })) ∧
    (∀ t : MantleInternalTx, (NewMantleSigner signer).Hash { inner := .MantleInternalTx t } =
      some (signer.Hash { inner := .MantleInternalTx t })) ∧
    (∀ r : MantleRetryTx, (NewMantleSigner signer).Hash { inner := .MantleRetryTx r } =
      some (signer.Hash { inner := .MantleRetryTx r })) ∧
    (∀ t : MantleSubmitRetryableTx,
      (NewMantleSigner signer).Hash { inner := .MantleSubmitRetryableTx t } =
        some (signer.Hash { inner := .MantleSubmitRetryableTx t })) :=
  ⟨fun _ => rfl, fun _ => rfl, fun _ => rfl, fun _ => rfl, fun _ => rfl, fun _ => rfl⟩

/-- Evaluation of the amended C14: a wrapped signer that gives the zero hash to
payloads it does not know makes the mantle signer give the zero hash to the sample
deposit. -/
theorem mantle_hash_delegates_witness :
    legacyFieldSigner.Hash { inner := .MantleDepositTx sampleDeposit } = zeroHash ∧
    (NewMantleSigner legacyFieldSigner).Hash { inner := .MantleDepositTx sampleDeposit } =
      some zeroHash :=
  ⟨rfl, (mantle_hash_delegates legacyFieldSigner).2.2.1 sampleDeposit⟩

/-- C15. For a legacy-override transaction, the mantle signer's `Hash(tx)` and
`SignatureValues(tx, sig)` are the underlying signer's `Hash` and `SignatureValues`
applied to the plain legacy transaction built from the embedded `LegacyTx` (with the
same `sig`); two legacy-override transactions with equal embedded legacy fields but
different `HashOverride`, `EffectiveGasPrice`, `L1BlockNumber` or `Sender` get the
same signing hash and the same signature values. -/
theorem mantle_legacy_hash_and_values (signer : Signer) (legacy : LegacyTx) (sig : List Nat)
    (hashOverride : List Nat) (effectiveGas l1Block : Nat) (sender : Option (List Nat)) :
    (NewMantleSigner signer).Hash { inner := .MantleLegacyTxData {
          LegacyTx := legacy, HashOverride := hashOverride, EffectiveGasPrice := effectiveGas,
          L1BlockNumber := l1Block, Sender := sender } } =
      (NewTx (.LegacyTx legacy)).map signer.Hash ∧
    (NewMantleSigner signer).SignatureValues { inner := .MantleLegacyTxData {
          LegacyTx := legacy, HashOverride := hashOverride, EffectiveGasPrice := effectiveGas,
          L1BlockNumber := l1Block, Sender := sender } } sig =
      (NewTx (.LegacyTx legacy)).map (fun fakeTx => signer.SignatureValues fakeTx sig) ∧
    (NewTx (.LegacyTx legacy)).map signer.Hash =
      some (signer.Hash { inner := .LegacyTx legacy.copy }) ∧
    (NewTx (.LegacyTx legacy)).map (fun fakeTx => signer.SignatureValues fakeTx sig) =
      some (signer.SignatureValues { inner := .LegacyTx legacy.copy } sig) ∧
    (∀ (hashOverride2 : List Nat) (effectiveGas2 l1Block2 : Nat) (sender2 : Option (List Nat)),
      (NewMantleSigner signer).Hash { inner := .MantleLegacyTxData {
            LegacyTx := legacy, HashOverride := hashOverride2,
            EffectiveGasPrice := effectiveGas2, L1BlockNumber := l1Block2,
            Sender := sender2 } } =
        (NewMantleSigner signer).Hash { inner := .MantleLegacyTxData {
            LegacyTx := legacy, HashOverride := hashOverride,
            EffectiveGasPrice := effectiveGas, L1BlockNumber := l1Block, Sender := sender } } ∧
      (NewMantleSigner signer).SignatureValues { inner := .MantleLegacyTxData {
            LegacyTx := legacy, HashOverride := hashOverride2,
            EffectiveGasPrice := effectiveGas2, L1BlockNumber := l1Block2,
            Sender := sender2 } } sig =
        (NewMantleSigner signer).SignatureValues { inner := .MantleLegacyTxData {
            LegacyTx := legacy, HashOverride := hashOverride,
            EffectiveGasPrice := effectiveGas, L1BlockNumber := l1Block,
            Sender := sender } } sig) :=
  ⟨rfl, rfl, rfl, rfl, fun _ _ _ _ => ⟨rfl, rfl⟩⟩

/-- Evaluation of C15 with a signer that reads the signature off the legacy payload:
the two sample legacy-override transactions, which differ in all override data, get
the signing hash `09 09 ... 09` and the values `(0x1234, 0x5678, 2)`. -/
theorem mantle_legacy_hash_and_values_witness :
    (NewMantleSigner legacyFieldSigner).Hash
        { inner := .MantleLegacyTxData sampleMantleLegacy } = some (List.replicate 32 9) ∧
    (NewMantleSigner legacyFieldSigner).Hash
        { inner := .MantleLegacyTxData sampleMantleLegacySent } = some (List.replicate 32 9) ∧
    (NewMantleSigner legacyFieldSigner).SignatureValues
        { inner := .MantleLegacyTxData sampleMantleLegacy } [1, 2] =
      some ((some 0x1234, some 0x5678, some 2), none) ∧
    (NewMantleSigner legacyFieldSigner).SignatureValues
        { inner := .MantleLegacyTxData sampleMantleLegacySent } [1, 2] =
      some ((some 0x1234, some 0x5678, some 2), none) :=
  ⟨(mantle_legacy_hash_and_values legacyFieldSigner sampleLegacy [1, 2]
      (List.replicate 32 0x42) 5 1000 none).1,
    rfl,
    (mantle_legacy_hash_and_values legacyFieldSigner sampleLegacy [1, 2]
      (List.replicate 32 0x42) 5 1000 none).2.1,
    rfl⟩

/-- C16. For all underlying signers `a` and `b`, `NewMantleSigner(a).Equal` of
`NewMantleSigner(b)` is `b.Equal(a)`, so it holds if and only if the wrapped signers
are equal; and `NewMantleSigner(a).Equal(s2)` is false for every `s2` that is not
itself a mantle signer, including `s2 = a`. -/
theorem mantle_signer_equal (baseEqual : Signer → SignerValue → Bool) (a b : Signer) :
    mantleSigner.Equal baseEqual (NewMantleSigner a) (.mantleSigner (NewMantleSigner b)) =
      baseEqual b (.base a) ∧
    (mantleSigner.Equal baseEqual (NewMantleSigner a) (.mantleSigner (NewMantleSigner b)) =
      true ↔ baseEqual b (.base a) = true) ∧
    (∀ s2 : Signer, mantleSigner.Equal baseEqual (NewMantleSigner a) (.base s2) = false) ∧
    mantleSigner.Equal baseEqual (NewMantleSigner a) (.base a) = false :=
  ⟨rfl, Iff.rfl, fun _ => rfl, rfl⟩

/-- Evaluation of C16 with `sampleBaseEqual`: two mantle signers around the same
signer are equal, two around signers with different hashes are not, and a mantle
signer is not equal to the signer it wraps. -/
theorem mantle_signer_equal_witness :
    mantleSigner.Equal sampleBaseEqual (NewMantleSigner constantSigner)
      (.mantleSigner (NewMantleSigner constantSigner)) = true ∧
    mantleSigner.Equal sampleBaseEqual (NewMantleSigner constantSigner)
      (.mantleSigner (NewMantleSigner legacyFieldSigner)) = false ∧
    sampleBaseEqual constantSigner (.base constantSigner) = true ∧
    mantleSigner.Equal sampleBaseEqual (NewMantleSigner constantSigner)
      (.base constantSigner) = false :=
  ⟨((mantle_signer_equal sampleBaseEqual constantSigner constantSigner).2.1).2 (by decide),
    by decide, by decide,
    (mantle_signer_equal sampleBaseEqual constantSigner constantSigner).2.2.2⟩

/-- A deep copy of a plain legacy payload with non-nil big integers is the payload. -/
theorem LegacyTx_copy_of_nonNil (l : LegacyTx) (h : l.bigIntsNonNil = true) : l.copy = l := by
  obtain ⟨n, gp, g, dst, v, d, sv, sr, ss⟩ := l
  simp only [LegacyTx.bigIntsNonNil, Bool.and_eq_true, Option.isSome_iff_exists] at h
  obtain ⟨⟨⟨⟨⟨gp, rfl⟩, ⟨v, rfl⟩⟩, ⟨sv, rfl⟩⟩, ⟨sr, rfl⟩⟩, ⟨ss, rfl⟩⟩ := h
  rfl

/-- Copying a plain legacy payload twice is copying it once. -/
theorem LegacyTx_copy_copy (l : LegacyTx) : l.copy.copy = l.copy := by
  obtain ⟨n, gp, g, dst, v, d, sv, sr, ss⟩ := l
  cases gp <;> cases v <;> cases sv <;> cases sr <;> cases ss <;> rfl

/-- The call on a plain legacy transaction: no panic, no error, and a legacy-override
transaction around the copied payload. -/
theorem NewMantleLegacyTx_legacy (legacy : LegacyTx) (hashOverride : List Nat)
    (effectiveGas l1Block : Nat) (senderOverride : Option (List Nat)) :
    NewMantleLegacyTx { inner := .LegacyTx legacy } hashOverride effectiveGas l1Block
        senderOverride =
      some (some { inner := .MantleLegacyTxData {
          LegacyTx := legacy.copy, HashOverride := hashOverride,
          EffectiveGasPrice := effectiveGas, L1BlockNumber := l1Block,
          Sender := senderOverride } }, none) := by
  simp only [NewMantleLegacyTx, Transaction.txType, TxData.txType, ne_eq, not_true_eq_false,
    if_false, Transaction.GetInner, TxData.copy, NewTx, Option.map_some',
    MantleLegacyTxData.copy, LegacyTx_copy_copy]
  cases senderOverride <;> rfl

/-- The call on a transaction of another type: no panic, an error and no transaction. -/
theorem NewMantleLegacyTx_other (origTx : Transaction) (hashOverride : List Nat)
    (effectiveGas l1Block : Nat) (senderOverride : Option (List Nat))
    (h : origTx.txType ≠ TxType.LegacyTxType) :
    NewMantleLegacyTx origTx hashOverride effectiveGas l1Block senderOverride =
      some (none, some "attempt to mantle-wrap non-legacy transaction") := by
  unfold NewMantleLegacyTx
  rw [if_pos h]

/-- A transaction has the plain legacy type exactly when its payload is a `LegacyTx`. -/
theorem txType_legacy_iff (origTx : Transaction) :
    origTx.txType = TxType.LegacyTxType ↔ ∃ legacy, origTx = { inner := .LegacyTx legacy } := by
  obtain ⟨inner⟩ := origTx
  cases inner <;>
    simp [Transaction.txType, TxData.txType, MantleUnsignedTx.txType, MantleContractTx.txType,
      MantleRetryTx.txType, MantleSubmitRetryableTx.txType, MantleDepositTx.txType,
      MantleInternalTx.txType, MantleLegacyTxData.txType]

/-- C17. `NewMantleLegacyTx(origTx, hashOverride, effectiveGas, l1Block,
senderOverride)` returns an error, and a nil transaction with it, if and only if
the type of `origTx` is not the plain legacy type; otherwise (the payload of
`origTx` being a `LegacyTx` with non-nil big integers, as in every transaction built
by `NewTx`) it returns a transaction of the legacy-override type whose embedded
`LegacyTx` is that of `origTx` and whose `HashOverride`, `EffectiveGasPrice`,
`L1BlockNumber` and `Sender` are the supplied arguments. -/
theorem new_mantle_legacy_tx (origTx : Transaction) (hashOverride : List Nat)
    (effectiveGas l1Block : Nat) (senderOverride : Option (List Nat)) :
    (∃ r, NewMantleLegacyTx origTx hashOverride effectiveGas l1Block senderOverride = some r ∧
      (r.2 ≠ none ↔ origTx.txType ≠ TxType.LegacyTxType) ∧ (r.2 ≠ none → r.1 = none)) ∧
    (∀ legacy : LegacyTx, origTx.inner = .LegacyTx legacy → legacy.bigIntsNonNil = true →
      ∃ tx, NewMantleLegacyTx origTx hashOverride effectiveGas l1Block senderOverride =
          some (some tx, none) ∧
        tx.txType = TxType.MantleLegacyTxType ∧
        tx.inner = .MantleLegacyTxData {
          LegacyTx := legacy, HashOverride := hashOverride,
          EffectiveGasPrice := effectiveGas, L1BlockNumber := l1Block,
          Sender := senderOverride }) := by
  constructor
  · by_cases h : origTx.txType = TxType.LegacyTxType
    · obtain ⟨legacy, rfl⟩ := (txType_legacy_iff origTx).1 h
      refine ⟨_, NewMantleLegacyTx_legacy legacy _ _ _ _, ?_, fun hf => absurd rfl hf⟩
      exact ⟨fun hf => absurd rfl hf, fun hf => absurd h hf⟩
    · exact ⟨_, NewMantleLegacyTx_other origTx _ _ _ _ h, ⟨fun _ => h, fun _ => by simp⟩,
        fun _ => rfl⟩
  · intro legacy hi hn
    obtain ⟨inner⟩ := origTx
    cases hi
    refine ⟨_, NewMantleLegacyTx_legacy legacy _ _ _ _, rfl, ?_⟩
    rw [LegacyTx_copy_of_nonNil legacy hn]

/-- Evaluation of C17: wrapping the plain `sampleLegacy` transaction gives the
legacy-override transaction with the supplied data, and wrapping the sample deposit
gives the error and no transaction. -/
theorem new_mantle_legacy_tx_witness :
    NewMantleLegacyTx { inner := .LegacyTx sampleLegacy } (List.replicate 32 0x43) 6 2000
        (some sampleAddress) =
      some (some { inner := .MantleLegacyTxData sampleMantleLegacySent }, none) ∧
    NewMantleLegacyTx { inner := .MantleDepositTx sampleDeposit } (List.replicate 32 0x43) 6
        2000 (some sampleAddress) =
      some (none, some "attempt to mantle-wrap non-legacy transaction") ∧
    ∃ tx, NewMantleLegacyTx { inner := .LegacyTx sampleLegacy } (List.replicate 32 0x43) 6 2000
          (some sampleAddress) = some (some tx, none) ∧
        tx.txType = TxType.MantleLegacyTxType ∧
        tx.inner = .MantleLegacyTxData {
          LegacyTx := sampleLegacy, HashOverride := List.replicate 32 0x43,
          EffectiveGasPrice := 6, L1BlockNumber := 2000, Sender := some sampleAddress } :=
  ⟨by decide, by decide,
    (new_mantle_legacy_tx { inner := .LegacyTx sampleLegacy } (List.replicate 32 0x43) 6 2000
      (some sampleAddress)).2 sampleLegacy rfl (by decide)⟩

/-! ## Legacy serialization and deep copies: the claims -/

/-- C18. For every `MantleLegacyTxData` (and every serializer), `EncodeOnlyLegacyInto`
leaves in the buffer exactly what serializing a standalone plain `LegacyTx` with the
same embedded fields leaves: the bytes of that encoding appended; the bytes written
do not depend on `HashOverride`, `EffectiveGasPrice`, `L1BlockNumber` or `Sender`. -/
theorem encode_only_legacy (rlpEncode : LegacyTx → Option (List Nat))
    (tx : MantleLegacyTxData) (w : List Nat) :
    tx.EncodeOnlyLegacyInto rlpEncode w = serializeStandaloneLegacy rlpEncode tx.LegacyTx w ∧
    (∀ bs, rlpEncode tx.LegacyTx = some bs → tx.EncodeOnlyLegacyInto rlpEncode w = w ++ bs) ∧
    (∀ (hashOverride : List Nat) (effectiveGas l1Block : Nat) (sender : Option (List Nat)),
      MantleLegacyTxData.EncodeOnlyLegacyInto rlpEncode {
          LegacyTx := tx.LegacyTx, HashOverride := hashOverride,
          EffectiveGasPrice := effectiveGas, L1BlockNumber := l1Block, Sender := sender } w =
        tx.EncodeOnlyLegacyInto rlpEncode w) := by
  refine ⟨rfl, fun bs hbs => ?_, fun _ _ _ _ => rfl⟩
  unfold MantleLegacyTxData.EncodeOnlyLegacyInto
  rw [hbs]

/-- Evaluation of C18 with the sample RLP serializer: the two sample legacy-override
payloads, which differ in all override data, append the same 49 bytes `f0 09 85 ...`,
the encoding of the plain `sampleLegacy`. -/
theorem encode_only_legacy_witness :
    sampleRlpEncode sampleLegacy =
      some ([0xf0, 0x09, 0x85, 0x04, 0xa8, 0x17, 0xc8, 0x00, 0x82, 0x52, 0x08, 0x94] ++
        sampleAddress2 ++
        [0x88, 0x0d, 0xe0, 0xb6, 0xb3, 0xa7, 0x64, 0x00, 0x00, 0x80, 0x25, 0x82, 0x12, 0x34,
         0x82, 0x56, 0x78]) ∧
    sampleMantleLegacy.EncodeOnlyLegacyInto sampleRlpEncode [1, 2, 3] =
      serializeStandaloneLegacy sampleRlpEncode sampleLegacy [1, 2, 3] ∧
    sampleMantleLegacySent.EncodeOnlyLegacyInto sampleRlpEncode [1, 2, 3] =
      sampleMantleLegacy.EncodeOnlyLegacyInto sampleRlpEncode [1, 2, 3] :=
  ⟨by decide, (encode_only_legacy sampleRlpEncode sampleMantleLegacy [1, 2, 3]).1,
    (encode_only_legacy sampleRlpEncode sampleMantleLegacy [1, 2, 3]).2.2
      (List.replicate 32 0x43) 6 2000 (some sampleAddress)⟩

/-- The copy idiom on a non-nil big integer gives the same number. -/
theorem copyBigInt_some (v : Int) : copyBigInt (some v) = some v := rfl

/-- The copy idiom on a nil big integer gives zero. -/
theorem copyBigInt_none : copyBigInt none = some 0 := rfl

/-- C19. For every variant (`MantleUnsignedTx`, `MantleContractTx`, `MantleRetryTx`,
`MantleSubmitRetryableTx`, `MantleDepositTx`, `MantleInternalTx`,
`MantleLegacyTxData`) and every instance whose big-integer fields are all non-nil,
`copy()` returns an instance of the same variant in which every field has the same
value as in the original, optional addresses included. -/
theorem copy_preserves_fields (d : TxData) (hv : d.isMantleVariant = true)
    (hn : d.bigIntsNonNil = true) : d.copy = some d := by
  cases d with
  | LegacyTx tx => cases hv
  | AccessListTx tx => cases hv
  | DynamicFeeTx tx => cases hv
  | MantleUnsignedTx tx =>
    obtain ⟨c, f, n, g, gas, dst, v, data⟩ := tx
    simp only [TxData.bigIntsNonNil, Bool.and_eq_true, Option.isSome_iff_exists] at hn
    obtain ⟨⟨⟨c, rfl⟩, ⟨g, rfl⟩⟩, ⟨v, rfl⟩⟩ := hn
    cases dst <;> rfl
  | MantleContractTx tx =>
    obtain ⟨c, r, f, g, gas, dst, v, data⟩ := tx
    simp only [TxData.bigIntsNonNil, Bool.and_eq_true, Option.isSome_iff_exists] at hn
    obtain ⟨⟨⟨c, rfl⟩, ⟨g, rfl⟩⟩, ⟨v, rfl⟩⟩ := hn
    cases dst <;> rfl
  | MantleRetryTx tx =>
    obtain ⟨c, n, f, g, gas, dst, v, data, t, r, m, sf⟩ := tx
    simp only [TxData.bigIntsNonNil, Bool.and_eq_true, Option.isSome_iff_exists] at hn
    obtain ⟨⟨⟨⟨⟨c, rfl⟩, ⟨g, rfl⟩⟩, ⟨v, rfl⟩⟩, ⟨m, rfl⟩⟩, ⟨sf, rfl⟩⟩ := hn
    cases dst <;> rfl
  | MantleSubmitRetryableTx tx =>
    obtain ⟨c, r, f, l1, dv, g, gas, dst, rv, b, msf, fr, rd⟩ := tx
    simp only [TxData.bigIntsNonNil, Bool.and_eq_true, Option.isSome_iff_exists] at hn
    obtain ⟨⟨⟨⟨⟨⟨c, rfl⟩, ⟨l1, rfl⟩⟩, ⟨dv, rfl⟩⟩, ⟨g, rfl⟩⟩, ⟨rv, rfl⟩⟩, ⟨msf, rfl⟩⟩ := hn
    cases dst <;> rfl
  | MantleDepositTx tx =>
    obtain ⟨c, r, f, dst, v⟩ := tx
    simp only [TxData.bigIntsNonNil, Bool.and_eq_true, Option.isSome_iff_exists] at hn
    obtain ⟨⟨c, rfl⟩, ⟨v, rfl⟩⟩ := hn
    rfl
  | MantleInternalTx tx =>
    obtain ⟨c, data⟩ := tx
    simp only [TxData.bigIntsNonNil, Option.isSome_iff_exists] at hn
    obtain ⟨c, rfl⟩ := hn
    rfl
  | MantleLegacyTxData tx =>
    obtain ⟨l, h, e, b, sender⟩ := tx
    have hl : l.copy = l := LegacyTx_copy_of_nonNil l hn
    show some (TxData.MantleLegacyTxData (MantleLegacyTxData.copy ⟨l, h, e, b, sender⟩)) = _
    unfold MantleLegacyTxData.copy
    simp only [hl]
    cases sender <;> rfl

/-- Witness of C19 at the sample payloads of the seven variants. -/
theorem copy_preserves_fields_witness :
    TxData.copy (.MantleUnsignedTx sampleUnsigned) = some (.MantleUnsignedTx sampleUnsigned) ∧
    TxData.copy (.MantleContractTx sampleContract) = some (.MantleContractTx sampleContract) ∧
    TxData.copy (.MantleRetryTx sampleRetry) = some (.MantleRetryTx sampleRetry) ∧
    TxData.copy (.MantleSubmitRetryableTx sampleSubmit) =
      some (.MantleSubmitRetryableTx sampleSubmit) ∧
    TxData.copy (.MantleDepositTx sampleDeposit) = some (.MantleDepositTx sampleDeposit) ∧
    TxData.copy (.MantleInternalTx sampleInternal) = some (.MantleInternalTx sampleInternal) ∧
    TxData.copy (.MantleLegacyTxData sampleMantleLegacySent) =
      some (.MantleLegacyTxData sampleMantleLegacySent) :=
  ⟨copy_preserves_fields _ rfl rfl, copy_preserves_fields _ rfl rfl,
    copy_preserves_fields _ rfl rfl, copy_preserves_fields _ rfl rfl,
    copy_preserves_fields _ rfl rfl, copy_preserves_fields _ rfl rfl,
    copy_preserves_fields _ rfl rfl⟩

/-- The five copies that check for nil: every nil big integer of the original is
zero in the copy, and every other field is kept. -/
theorem copy_normalizes_nil :
    (∀ tx : MantleUnsignedTx, tx.copy =
      { tx with ChainId := some (tx.ChainId.getD 0), GasFeeCap := some (tx.GasFeeCap.getD 0),
                Value := some (tx.Value.getD 0) }) ∧
    (∀ tx : MantleContractTx, tx.copy =
      { tx with ChainId := some (tx.ChainId.getD 0), GasFeeCap := some (tx.GasFeeCap.getD 0),
                Value := some (tx.Value.getD 0) }) ∧
    (∀ tx : MantleRetryTx, tx.copy =
      { tx with ChainId := some (tx.ChainId.getD 0), GasFeeCap := some (tx.GasFeeCap.getD 0),
                Value := some (tx.Value.getD 0), MaxRefund := some (tx.MaxRefund.getD 0),
                SubmissionFeeRefund := some (tx.SubmissionFeeRefund.getD 0) }) ∧
    (∀ tx : MantleSubmitRetryableTx, tx.copy =
      { tx with ChainId := some (tx.ChainId.getD 0), L1BaseFee := some (tx.L1BaseFee.getD 0),
                DepositValue := some (tx.DepositValue.getD 0),
                GasFeeCap := some (tx.GasFeeCap.getD 0),
                RetryValue := some (tx.RetryValue.getD 0),
                MaxSubmissionFee := some (tx.MaxSubmissionFee.getD 0) }) ∧
    (∀ tx : MantleDepositTx, tx.copy =
      { tx with ChainId := some (tx.ChainId.getD 0), Value := some (tx.Value.getD 0) }) := by
  refine ⟨?_, ?_, ?_, ?_, ?_⟩
  · rintro ⟨c, f, n, g, gas, dst, v, data⟩
    cases c <;> cases g <;> cases v <;> cases dst <;> rfl
  · rintro ⟨c, r, f, g, gas, dst, v, data⟩
    cases c <;> cases g <;> cases v <;> cases dst <;> rfl
  · rintro ⟨c, n, f, g, gas, dst, v, data, t, r, m, sf⟩
    cases c <;> cases g <;> cases v <;> cases m <;> cases sf <;> cases dst <;> rfl
  · rintro ⟨c, r, f, l1, dv, g, gas, dst, rv, b, msf, fr, rd⟩
    cases c <;> cases l1 <;> cases dv <;> cases g <;> cases rv <;> cases msf <;> cases dst <;>
      rfl
  · rintro ⟨c, r, f, dst, v⟩
    cases c <;> cases v <;> rfl

/-- C20 fails on the code for `MantleInternalTx`: copying the sample payload whose
`ChainId` is nil does not yield a copy with a zero chain id, it panics (`none`),
also when the copy is made through the interface `TxData` or by `NewTx`; so does
the copy of every `MantleInternalTx` with a nil `ChainId`. -/
theorem internal_copy_nil_chainId_panics :
    sampleInternalNilChainId.copy = none ∧
    TxData.copy (.MantleInternalTx sampleInternalNilChainId) = none ∧
    NewTx (.MantleInternalTx sampleInternalNilChainId) = none ∧
    (∀ data : List Nat, MantleInternalTx.copy { ChainId := none, Data := data } = none) :=
  ⟨rfl, rfl, rfl, fun _ => rfl⟩

/-! ## Accessors, transparency and configuration: the claims -/

/-- C22. For each of the six non-legacy variants, `rawSignatureValues()` returns
`(0, 0, 0)`, and `setSignatureValues(chainID, v, r, s)` with arbitrary arguments
leaves every field of the transaction unchanged, so `rawSignatureValues()` still
returns `(0, 0, 0)` afterwards. -/
theorem signature_values_fixed (chainID v r s : Option Int) :
    (∀ tx : MantleUnsignedTx, tx.rawSignatureValues = (some 0, some 0, some 0) ∧
      tx.setSignatureValues chainID v r s = tx ∧
      (tx.setSignatureValues chainID v r s).rawSignatureValues = (some 0, some 0, some 0)) ∧
    (∀ tx : MantleContractTx, tx.rawSignatureValues = (some 0, some 0, some 0) ∧
      tx.setSignatureValues chainID v r s = tx ∧
      (tx.setSignatureValues chainID v r s).rawSignatureValues = (some 0, some 0, some 0)) ∧
    (∀ tx : MantleRetryTx, tx.rawSignatureValues = (some 0, some 0, some 0) ∧
      tx.setSignatureValues chainID v r s = tx ∧
      (tx.setSignatureValues chainID v r s).rawSignatureValues = (some 0, some 0, some 0)) ∧
    (∀ tx : MantleSubmitRetryableTx, tx.rawSignatureValues = (some 0, some 0, some 0) ∧
      tx.setSignatureValues chainID v r s = tx ∧
      (tx.setSignatureValues chainID v r s).rawSignatureValues = (some 0, some 0, some 0)) ∧
    (∀ tx : MantleDepositTx, tx.rawSignatureValues = (some 0, some 0, some 0) ∧
      tx.setSignatureValues chainID v r s = tx ∧
      (tx.setSignatureValues chainID v r s).rawSignatureValues = (some 0, some 0, some 0)) ∧
    (∀ tx : MantleInternalTx, tx.rawSignatureValues = (some 0, some 0, some 0) ∧
      tx.setSignatureValues chainID v r s = tx ∧
      (tx.setSignatureValues chainID v r s).rawSignatureValues = (some 0, some 0, some 0)) :=
  ⟨fun _ => ⟨rfl, rfl, rfl⟩, fun _ => ⟨rfl, rfl, rfl⟩, fun _ => ⟨rfl, rfl, rfl⟩,
    fun _ => ⟨rfl, rfl, rfl⟩, fun _ => ⟨rfl, rfl, rfl⟩, fun _ => ⟨rfl, rfl, rfl⟩⟩

/-- Evaluation of C22: setting the signature `(27, 1, 2)` for chain 5000 on the sample
deposit and on the sample ticket submission changes nothing. -/
theorem signature_values_fixed_witness :
    sampleDeposit.setSignatureValues (some 5000) (some 27) (some 1) (some 2) = sampleDeposit ∧
    (sampleSubmit.setSignatureValues (some 5000) (some 27) (some 1) (some 2)).rawSignatureValues =
      (some 0, some 0, some 0) :=
  ⟨((signature_values_fixed (some 5000) (some 27) (some 1) (some 2)).2.2.2.2.1
      sampleDeposit).2.1,
    ((signature_values_fixed (some 5000) (some 27) (some 1) (some 2)).2.2.2.1
      sampleSubmit).2.2⟩

/-- C23. For each of the six non-legacy variants, `gasTipCap()` is zero and
`gasPrice()` equals `gasFeeCap()`; that common value is the `GasFeeCap` field for the
unsigned, contract, retry and submit-retryable variants and zero for the deposit and
internal variants. -/
theorem gas_accessors :
    (∀ tx : MantleUnsignedTx, tx.gasTipCap = some 0 ∧ tx.gasPrice = tx.gasFeeCap ∧
      tx.gasFeeCap = tx.GasFeeCap) ∧
    (∀ tx : MantleContractTx, tx.gasTipCap = some 0 ∧ tx.gasPrice = tx.gasFeeCap ∧
      tx.gasFeeCap = tx.GasFeeCap) ∧
    (∀ tx : MantleRetryTx, tx.gasTipCap = some 0 ∧ tx.gasPrice = tx.gasFeeCap ∧
      tx.gasFeeCap = tx.GasFeeCap) ∧
    (∀ tx : MantleSubmitRetryableTx, tx.gasTipCap = some 0 ∧ tx.gasPrice = tx.gasFeeCap ∧
      tx.gasFeeCap = tx.GasFeeCap) ∧
    (∀ tx : MantleDepositTx, tx.gasTipCap = some 0 ∧ tx.gasPrice = tx.gasFeeCap ∧
      tx.gasFeeCap = some 0) ∧
    (∀ tx : MantleInternalTx, tx.gasTipCap = some 0 ∧ tx.gasPrice = tx.gasFeeCap ∧
      tx.gasFeeCap = some 0) :=
  ⟨fun _ => ⟨rfl, rfl, rfl⟩, fun _ => ⟨rfl, rfl, rfl⟩, fun _ => ⟨rfl, rfl, rfl⟩,
    fun _ => ⟨rfl, rfl, rfl⟩, fun _ => ⟨rfl, rfl, rfl⟩, fun _ => ⟨rfl, rfl, rfl⟩⟩

/-- Evaluation of C23 on the sample ticket submission (fee cap 1) and the sample
deposit. -/
theorem gas_accessors_witness :
    sampleSubmit.gasPrice = some 1 ∧ sampleSubmit.gasFeeCap = some 1 ∧
    sampleSubmit.gasTipCap = some 0 ∧ sampleDeposit.gasPrice = some 0 ∧
    sampleDeposit.gasPrice = sampleDeposit.gasFeeCap :=
  ⟨rfl, rfl, (gas_accessors.2.2.2.1 sampleSubmit).1, rfl, (gas_accessors.2.2.2.2.1 sampleDeposit).2.1⟩

/-- C25. For every `MantleSubmitRetryableTx`, the payload produced when `RetryTo` is
absent (contract creation) is byte for byte the payload produced when `RetryTo` is
present and equal to the zero address, all other fields being equal. -/
theorem data_retryTo_nil_eq_zero (tx : MantleSubmitRetryableTx) :
    MantleSubmitRetryableTx.data { tx with RetryTo := none } =
      MantleSubmitRetryableTx.data { tx with RetryTo := some zeroAddress } :=
  rfl

/-- Evaluation of C25: the contract-creating sample has a payload, its retry
destination word is 32 zero bytes, and the payload is that of the sample sent to the
zero address. -/
theorem data_retryTo_nil_eq_zero_witness :
    (sampleSubmitCreate.data.map fun d => (d.drop (4 + 9 * 32)).take 32) =
      some (List.replicate 32 0) ∧
    sampleSubmitCreate.data =
      MantleSubmitRetryableTx.data { sampleSubmit with RetryTo := some zeroAddress } :=
  ⟨by decide, data_retryTo_nil_eq_zero sampleSubmit⟩

/-- C27. On every transaction whose inner data is a plain legacy, access-list or
dynamic-fee payload, the mantle signer is transparent: `Sender`, `SignatureValues`
and `Hash` return exactly what the wrapped signer returns for the same transaction
and arguments, its errors included. -/
theorem mantle_signer_transparent (signer : Signer) (sig : List Nat) :
    (∀ l : LegacyTx,
      (NewMantleSigner signer).Sender { inner := .LegacyTx l } =
        some (signer.Sender { inner := .LegacyTx l }) ∧
      (NewMantleSigner signer).SignatureValues { inner := .LegacyTx l } sig =
        some (signer.SignatureValues { inner := .LegacyTx l } sig) ∧
      (NewMantleSigner signer).Hash { inner := .LegacyTx l } =
        some (signer.Hash { inner := .LegacyTx l })) ∧
    (∀ a : AccessListTx,
      (NewMantleSigner signer).Sender { inner := .AccessListTx a } =
        some (signer.Sender { inner := .AccessListTx a }) ∧
      (NewMantleSigner signer).SignatureValues { inner := .AccessListTx a } sig =
        some (signer.SignatureValues { inner := .AccessListTx a } sig) ∧
      (NewMantleSigner signer).Hash { inner := .AccessListTx a } =
        some (signer.Hash { inner := .AccessListTx a })) ∧
    (∀ d : DynamicFeeTx,
      (NewMantleSigner signer).Sender { inner := .DynamicFeeTx d } =
        some (signer.Sender { inner := .DynamicFeeTx d }) ∧
      (NewMantleSigner signer).SignatureValues { inner := .DynamicFeeTx d } sig =
        some (signer.SignatureValues { inner := .DynamicFeeTx d } sig) ∧
      (NewMantleSigner signer).Hash { inner := .DynamicFeeTx d } =
        some (signer.Hash { inner := .DynamicFeeTx d })) :=
  ⟨fun _ => ⟨rfl, rfl, rfl⟩, fun _ => ⟨rfl, rfl, rfl⟩, fun _ => ⟨rfl, rfl, rfl⟩⟩

/-- Evaluation of C27: a wrapped signer that fails on access-list payloads makes the
mantle signer fail with the same error, and one that reads a plain legacy payload
gives its result through the mantle signer. -/
theorem mantle_signer_transparent_witness :
    (NewMantleSigner legacyFieldSigner).Sender { inner := .AccessListTx sampleAccessList } =
      some (zeroAddress, some "transaction type not supported") ∧
    (NewMantleSigner legacyFieldSigner).SignatureValues { inner := .LegacyTx sampleLegacy }
      [1, 2, 3] = some ((some 0x1234, some 0x5678, some 3), none) ∧
    (NewMantleSigner constantSigner).Hash { inner := .DynamicFeeTx sampleDynamicFee } =
      some (List.replicate 32 0x11) :=
  ⟨((mantle_signer_transparent legacyFieldSigner []).2.1 sampleAccessList).1,
    ((mantle_signer_transparent legacyFieldSigner [1, 2, 3]).1 sampleLegacy).2.1,
    ((mantle_signer_transparent constantSigner []).2.2 sampleDynamicFee).2.2⟩

/-- C28. For all chain configs `c` and `newcfg` and every head,
`c.checkMantleCompatible(newcfg, head)` returns no error if and only if both configs
have the same `EnableMtOS` flag and, when that flag is set, the same
`GenesisBlockNum`; the outcome does not depend on `head`, whether an error is
returned is symmetric in `c` and `newcfg`, and `c.checkMantleCompatible(c, head)`
never returns an error. -/
theorem check_mantle_compatible {ε : Type} (newCompatError : String → Int → Int → ε)
    (c newcfg : ChainConfig) (head head2 : Option Int) :
    (c.checkMantleCompatible newCompatError newcfg head = none ↔
      c.MantleChainParams.EnableMtOS = newcfg.MantleChainParams.EnableMtOS ∧
      (c.MantleChainParams.EnableMtOS = true →
        c.MantleChainParams.GenesisBlockNum = newcfg.MantleChainParams.GenesisBlockNum)) ∧
    c.checkMantleCompatible newCompatError newcfg head2 =
      c.checkMantleCompatible newCompatError newcfg head ∧
    (c.checkMantleCompatible newCompatError newcfg head = none ↔
      newcfg.checkMantleCompatible newCompatError c head = none) ∧
    c.checkMantleCompatible newCompatError c head = none := by
  have key : ∀ (a b : ChainConfig) (hd : Option Int),
      a.checkMantleCompatible newCompatError b hd = none ↔
        a.MantleChainParams.EnableMtOS = b.MantleChainParams.EnableMtOS ∧
        (a.MantleChainParams.EnableMtOS = true →
          a.MantleChainParams.GenesisBlockNum = b.MantleChainParams.GenesisBlockNum) := by
    intro a b hd
    unfold ChainConfig.checkMantleCompatible ChainConfig.IsMantle
    cases ha : a.MantleChainParams.EnableMtOS <;> cases hb : b.MantleChainParams.EnableMtOS
    · simp
    · simp
    · simp
    · by_cases h3 : a.MantleChainParams.GenesisBlockNum = b.MantleChainParams.GenesisBlockNum
      · simp [h3]
      · simp [h3]
  refine ⟨key c newcfg head, rfl, ?_, (key c c head).2 ⟨rfl, fun _ => rfl⟩⟩
  rw [key c newcfg head, key newcfg c head]
  constructor
  · rintro ⟨h1, h2⟩
    exact ⟨h1.symm, fun h => (h2 (h1.trans h)).symm⟩
  · rintro ⟨h1, h2⟩
    exact ⟨h1.symm, fun h => (h2 (h1.trans h)).symm⟩

/-- Evaluation of C28: moving the genesis block number of an enabled configuration is
reported, both ways, at any head; disabled configurations with different genesis
block numbers are compatible; an enabled and a disabled one are not. -/
theorem check_mantle_compatible_witness :
    sampleConfig.checkMantleCompatible sampleCompatError sampleConfigMoved (some 50) =
      some ("genesisblocknum", 0, 100) ∧
    sampleConfigMoved.checkMantleCompatible sampleCompatError sampleConfig none =
      some ("genesisblocknum", 100, 0) ∧
    sampleConfigDisabled.checkMantleCompatible sampleCompatError sampleConfigDisabled2
      (some 50) = none ∧
    sampleConfig.checkMantleCompatible sampleCompatError sampleConfigDisabled (some 50) =
      some ("isMantle", 0, 0) ∧
    sampleConfig.checkMantleCompatible sampleCompatError sampleConfig (some 50) = none :=
  ⟨rfl, rfl, rfl, rfl,
    (check_mantle_compatible sampleCompatError sampleConfig sampleConfig (some 50) none).2.2.2⟩

/-! ## Decode then encode -/

/-- Writing back the number read from eight bytes gives the eight bytes. -/
theorem PutUint64_Uint64 (b : List Nat) (hl : b.length = 8) (hb : isBytes b) :
    [byte (BigEndian.Uint64 b >>> 56), byte (BigEndian.Uint64 b >>> 48),
     byte (BigEndian.Uint64 b >>> 40), byte (BigEndian.Uint64 b >>> 32),
     byte (BigEndian.Uint64 b >>> 24), byte (BigEndian.Uint64 b >>> 16),
     byte (BigEndian.Uint64 b >>> 8), byte (BigEndian.Uint64 b)] = b := by
  match b, hl, hb with
  | [b0, b1, b2, b3, b4, b5, b6, b7], _, hb =>
    have h0 : b0 < 256 := hb b0 (by simp)
    have h1 : b1 < 256 := hb b1 (by simp)
    have h2 : b2 < 256 := hb b2 (by simp)
    have h3 : b3 < 256 := hb b3 (by simp)
    have h4 : b4 < 256 := hb b4 (by simp)
    have h5 : b5 < 256 := hb b5 (by simp)
    have h6 : b6 < 256 := hb b6 (by simp)
    have h7 : b7 < 256 := hb b7 (by simp)
    rw [Uint64_cons_eq b0 b1 b2 b3 b4 b5 b6 b7 [] h1 h2 h3 h4 h5 h6 h7]
    simp only [byte, Nat.shiftRight_eq_div_pow, List.cons.injEq, and_true]
    refine ⟨?_, ?_, ?_, ?_, ?_, ?_, ?_, ?_⟩ <;> omega

theorem isBytes_take (l : List Nat) (n : Nat) (h : isBytes l) : isBytes (l.take n) :=
  fun b hb => h b (List.mem_of_mem_take hb)

theorem isBytes_drop (l : List Nat) (n : Nat) (h : isBytes l) : isBytes (l.drop n) :=
  fun b hb => h b (List.mem_of_mem_drop hb)

/-- The three slices that the decoder reads make up the first 24 bytes. -/
theorem take24_eq (l : List Nat) :
    l.take 24 = l.take 8 ++ ((l.drop 8).take 8 ++ (l.drop 16).take 8) := by
  rw [show 24 = 8 + 16 from rfl, List.take_add, show 16 = 8 + 8 from rfl, List.take_add,
    List.drop_drop]

/-- The slices that the decoder reads depend on the first 24 bytes only. -/
theorem slices_of_take24 (l m : List Nat) (h : l.take 24 = m.take 24) :
    l.take 8 = m.take 8 ∧ (l.drop 8).take 8 = (m.drop 8).take 8 ∧
      (l.drop 16).take 8 = (m.drop 16).take 8 := by
  have h1 : ∀ x : List Nat, x.take 8 = (x.take 24).take 8 := fun x => by
    rw [List.take_take]; rfl
  have h2 : ∀ x : List Nat, (x.drop 8).take 8 = ((x.take 24).drop 8).take 8 := fun x => by
    rw [List.drop_take, List.take_take]; rfl
  have h3 : ∀ x : List Nat, (x.drop 16).take 8 = ((x.take 24).drop 16).take 8 := fun x => by
    rw [List.drop_take, List.take_take]; rfl
  exact ⟨by rw [h1 l, h1 m, h], by rw [h2 l, h2 m, h], by rw [h3 l, h3 m, h]⟩

/-- The decoder reads the base fee, the extra data and the first 24 digest bytes. -/
theorem deserialize_congr (h h2 : Header) (hb : h2.BaseFee = h.BaseFee)
    (he : h2.Extra = h.Extra) (hm : h2.MixDigest.take 24 = h.MixDigest.take 24) :
    DeserializeHeaderExtraInformation h2 = DeserializeHeaderExtraInformation h := by
  obtain ⟨s1, s2, s3⟩ := slices_of_take24 _ _ hm
  unfold DeserializeHeaderExtraInformation
  rw [hb, he, s1, s2, s3]

/-- The decoding return of the decoder, field by field. -/
theorem deserialize_of_metadata (h : Header)
    (hc : ¬ (h.BaseFee = none ∨ h.BaseFee = some 0 ∨ h.Extra.length = 0))
    (hl : h.Extra.length = 32) :
    DeserializeHeaderExtraInformation h =
      ({ SendRoot := h.Extra
         SendCount := BigEndian.Uint64 (h.MixDigest.take 8)
         L1BlockNumber := BigEndian.Uint64 ((h.MixDigest.drop 8).take 8)
         MtOSFormatVersion := BigEndian.Uint64 ((h.MixDigest.drop 16).take 8) }, none) := by
  unfold DeserializeHeaderExtraInformation
  rw [if_neg hc, if_neg (not_not.2 hl)]
  simp only [HeaderInfo.zero, copy_zeroHash _ hl]

/-- C29. Decode then encode normalises a header: for every well-formed header with a
non-zero `BaseFee` and a 32-byte `Extra`, decoding succeeds, and writing the decoded
`HeaderInfo` back with `UpdateHeaderWithInfo` leaves `Extra` and the first 24 bytes
of `MixDigest` as they were and sets the last 8 bytes of `MixDigest` to zero; a
header that differs only in `MixDigest[24:32]` decodes to the same `HeaderInfo`. -/
theorem decode_encode_normalises (h : Header) (hwf : h.WF)
    (hfee : ∃ b, h.BaseFee = some b ∧ b ≠ 0) (hlen : h.Extra.length = 32) :
    (DeserializeHeaderExtraInformation h).2 = none ∧
    ((DeserializeHeaderExtraInformation h).1.UpdateHeaderWithInfo h).Extra = h.Extra ∧
    ((DeserializeHeaderExtraInformation h).1.UpdateHeaderWithInfo h).MixDigest.take 24 =
      h.MixDigest.take 24 ∧
    ((DeserializeHeaderExtraInformation h).1.UpdateHeaderWithInfo h).MixDigest.drop 24 =
      List.replicate 8 0 ∧
    ((DeserializeHeaderExtraInformation h).1.UpdateHeaderWithInfo h).MixDigest.length = 32 ∧
    (∀ h2 : Header, h2.BaseFee = h.BaseFee → h2.Extra = h.Extra →
      h2.MixDigest.take 24 = h.MixDigest.take 24 →
      DeserializeHeaderExtraInformation h2 = DeserializeHeaderExtraInformation h) := by
  obtain ⟨hml, hmb, -⟩ := hwf
  have hc : ¬ (h.BaseFee = none ∨ h.BaseFee = some 0 ∨ h.Extra.length = 0) := by
    rw [legacy_guard_iff]
    exact not_not.2 ⟨hfee, fun he => by rw [he] at hlen; cases hlen⟩
  rw [deserialize_of_metadata h hc hlen]
  refine ⟨rfl, rfl, ?_, ?_, mixDigest_length _, fun h2 hb he hm => ?_⟩
  · show (HeaderInfo.mixDigest _).take 24 = _
    have e1 := PutUint64_Uint64 (h.MixDigest.take 8)
      (by rw [List.length_take, hml]; rfl) (isBytes_take _ _ hmb)
    have e2 := PutUint64_Uint64 ((h.MixDigest.drop 8).take 8)
      (by rw [List.length_take, List.length_drop, hml]; rfl)
      (isBytes_take _ _ (isBytes_drop _ _ hmb))
    have e3 := PutUint64_Uint64 ((h.MixDigest.drop 16).take 8)
      (by rw [List.length_take, List.length_drop, hml]; rfl)
      (isBytes_take _ _ (isBytes_drop _ _ hmb))
    rw [take24_eq (HeaderInfo.mixDigest _), mixDigest_take8, mixDigest_slice8,
      mixDigest_slice16, take24_eq h.MixDigest]
    simp only [e1, e2, e3]
  · show (HeaderInfo.mixDigest _).drop 24 = _
    rw [mixDigest_eq]; rfl
  · rw [deserialize_congr h h2 hb he hm, deserialize_of_metadata h hc hlen]

/-- Witness of C29 at `sampleFullHeader`: its decoded metadata written back gives
the digest `01 ... 18` followed by eight zero bytes, and `sampleFullHeader2`, which
differs in the last eight digest bytes, decodes to the same metadata. -/
theorem decode_encode_normalises_witness :
    sampleFullHeader.WF ∧
    ((DeserializeHeaderExtraInformation sampleFullHeader).1.UpdateHeaderWithInfo
        sampleFullHeader).MixDigest =
      ((List.range 24).map fun i => i + 1) ++ List.replicate 8 0 ∧
    DeserializeHeaderExtraInformation sampleFullHeader2 =
      DeserializeHeaderExtraInformation sampleFullHeader :=
  ⟨by decide, by decide,
    (decode_encode_normalises sampleFullHeader (by decide) ⟨7, rfl, by decide⟩ rfl).2.2.2.2.2
      sampleFullHeader2 rfl rfl (by decide)⟩

/-! ## Injectivity of the ticket-submission payload -/

/-- The range test, as a statement about a natural number. -/
theorem isU256_iff (x : Option Int) :
    isU256 x = true ↔ ∃ n : Nat, x = some (n : Int) ∧ n < 2 ^ 256 := by
  cases x with
  | none => simp [isU256]
  | some v =>
    simp only [isU256, Bool.and_eq_true, decide_eq_true_eq, Option.some.injEq]
    constructor
    · rintro ⟨h0, h1⟩
      refine ⟨v.toNat, (Int.toNat_of_nonneg h0).symm, ?_⟩
      have : ((v.toNat : Nat) : Int) < ((2 ^ 256 : Nat) : Int) := by
        rw [Int.toNat_of_nonneg h0]; exact_mod_cast h1
      exact_mod_cast this
    · rintro ⟨n, rfl, hn⟩
      exact ⟨Int.natCast_nonneg n, by exact_mod_cast hn⟩

/-- Two numbers below `2 ^ 256` with the same 32-byte encoding are equal. -/
theorem bigEndianBytes32_inj (a b : Nat) (ha : a < 2 ^ 256) (hb : b < 2 ^ 256)
    (h : bigEndianBytes 32 a = bigEndianBytes 32 b) : a = b := by
  have hv := congrArg bigEndianValue h
  rw [bigEndianValue_bigEndianBytes, bigEndianValue_bigEndianBytes,
    Nat.mod_eq_of_lt (by norm_num at ha ⊢; exact ha),
    Nat.mod_eq_of_lt (by norm_num at hb ⊢; exact hb)] at hv
  exact hv


/-- The payload of a transaction whose encoded big integers are natural numbers below
`2 ^ 256`, segment by segment. -/
theorem data_eq_of_range (tx : MantleSubmitRetryableTx) (hwf : tx.WF)
    (hr : tx.payloadFieldsInRange = true) :
    ∃ l1 dv rv gfc msf : Nat,
      (l1 < 2 ^ 256 ∧ dv < 2 ^ 256 ∧ rv < 2 ^ 256 ∧ gfc < 2 ^ 256 ∧ msf < 2 ^ 256) ∧
      (tx.L1BaseFee = some (l1 : Int) ∧ tx.DepositValue = some (dv : Int) ∧
        tx.RetryValue = some (rv : Int) ∧ tx.GasFeeCap = some (gfc : Int) ∧
        tx.MaxSubmissionFee = some (msf : Int)) ∧
      tx.data = some ([0xc9, 0xf9, 0x5d, 0x32] ++ (tx.RequestId ++
        (bigEndianBytes 32 l1 ++ (bigEndianBytes 32 dv ++ (bigEndianBytes 32 rv ++
        (bigEndianBytes 32 gfc ++ (bigEndianBytes 32 tx.Gas ++ (bigEndianBytes 32 msf ++
        (List.replicate 12 0 ++ (tx.FeeRefundAddr ++
        (List.replicate 12 0 ++ (tx.Beneficiary ++
        (List.replicate 12 0 ++ (tx.RetryTo.getD zeroAddress ++
        (bigEndianBytes 32 352 ++ (bigEndianBytes 32 tx.RetryData.length ++
        (tx.RetryData ++
          List.replicate ((32 - tx.RetryData.length % 32) % 32) 0))))))))))))))))) := by
  obtain ⟨⟨hrl, -⟩, -, hg, ⟨ht, -⟩, ⟨hb, -⟩, ⟨hf, -⟩, -, hlen⟩ := hwf
  simp only [MantleSubmitRetryableTx.payloadFieldsInRange, Bool.and_eq_true, isU256_iff] at hr
  obtain ⟨⟨⟨⟨⟨l1, h1, r1⟩, ⟨dv, h2, r2⟩⟩, ⟨rv, h3, r3⟩⟩, ⟨gfc, h4, r4⟩⟩, ⟨msf, h5, r5⟩⟩ := hr
  refine ⟨l1, dv, rv, gfc, msf, ⟨r1, r2, r3, r4, r5⟩, ⟨h1, h2, h3, h4, h5⟩, ?_⟩
  rw [data_eq tx l1 dv rv gfc msf h1 h2 h3 h4 h5 hrl hf hb ht, u256_natCast l1 r1,
    u256_natCast dv r2, u256_natCast rv r3, u256_natCast gfc r4, u256_natCast msf r5,
    u256_natCast tx.Gas (lt_trans hg (by norm_num)), u256_natCast 352 (by norm_num),
    u256_natCast tx.RetryData.length (lt_trans hlen (by norm_num))]

/-- C26. The ticket-submission payload is injective on the fields it encodes: if two
well-formed `MantleSubmitRetryableTx` values whose encoded big-integer fields lie in
`[0, 2^256)` have equal `data()`, then they agree on `RequestId`, `L1BaseFee`,
`DepositValue`, `RetryValue`, `GasFeeCap`, `Gas`, `MaxSubmissionFee`,
`FeeRefundAddr`, `Beneficiary`, `RetryData`, and on the retry destination, an absent
`RetryTo` being identified with the zero address (`ChainId` and `From` are not
encoded and may differ). -/
theorem data_injective (tx1 tx2 : MantleSubmitRetryableTx) (hw1 : tx1.WF) (hw2 : tx2.WF)
    (hr1 : tx1.payloadFieldsInRange = true) (hr2 : tx2.payloadFieldsInRange = true)
    (heq : tx1.data = tx2.data) :
    tx1.RequestId = tx2.RequestId ∧ tx1.L1BaseFee = tx2.L1BaseFee ∧
    tx1.DepositValue = tx2.DepositValue ∧ tx1.RetryValue = tx2.RetryValue ∧
    tx1.GasFeeCap = tx2.GasFeeCap ∧ tx1.Gas = tx2.Gas ∧
    tx1.MaxSubmissionFee = tx2.MaxSubmissionFee ∧ tx1.FeeRefundAddr = tx2.FeeRefundAddr ∧
    tx1.Beneficiary = tx2.Beneficiary ∧ tx1.RetryData = tx2.RetryData ∧
    tx1.RetryTo.getD zeroAddress = tx2.RetryTo.getD zeroAddress := by
  obtain ⟨a1, a2, a3, a4, a5, ⟨ra1, ra2, ra3, ra4, ra5⟩, ⟨ha1, ha2, ha3, ha4, ha5⟩, d1⟩ :=
    data_eq_of_range tx1 hw1 hr1
  obtain ⟨b1, b2, b3, b4, b5, ⟨rb1, rb2, rb3, rb4, rb5⟩, ⟨hb1, hb2, hb3, hb4, hb5⟩, d2⟩ :=
    data_eq_of_range tx2 hw2 hr2
  obtain ⟨⟨hq1, -⟩, -, hg1, ⟨ht1, -⟩, ⟨hn1, -⟩, ⟨hf1, -⟩, -, hl1⟩ := hw1
  obtain ⟨⟨hq2, -⟩, -, hg2, ⟨ht2, -⟩, ⟨hn2, -⟩, ⟨hf2, -⟩, -, hl2⟩ := hw2
  rw [d1, d2] at heq
  have e0 := List.append_cancel_left (Option.some.inj heq)
  obtain ⟨eR, e1⟩ := List.append_inj e0 (hq1.trans hq2.symm)
  obtain ⟨eL1, e2⟩ := List.append_inj e1 (by simp only [bigEndianBytes_length])
  obtain ⟨eDV, e3⟩ := List.append_inj e2 (by simp only [bigEndianBytes_length])
  obtain ⟨eRV, e4⟩ := List.append_inj e3 (by simp only [bigEndianBytes_length])
  obtain ⟨eGF, e5⟩ := List.append_inj e4 (by simp only [bigEndianBytes_length])
  obtain ⟨eG, e6⟩ := List.append_inj e5 (by simp only [bigEndianBytes_length])
  obtain ⟨eMS, e7⟩ := List.append_inj e6 (by simp only [bigEndianBytes_length])
  obtain ⟨-, e8⟩ := List.append_inj e7 rfl
  obtain ⟨eF, e9⟩ := List.append_inj e8 (hf1.trans hf2.symm)
  obtain ⟨-, e10⟩ := List.append_inj e9 rfl
  obtain ⟨eB, e11⟩ := List.append_inj e10 (hn1.trans hn2.symm)
  obtain ⟨-, e12⟩ := List.append_inj e11 rfl
  obtain ⟨eT, e13⟩ := List.append_inj e12 (ht1.trans ht2.symm)
  obtain ⟨-, e14⟩ := List.append_inj e13 rfl
  obtain ⟨eLen, e15⟩ := List.append_inj e14 (by simp only [bigEndianBytes_length])
  have hlen : tx1.RetryData.length = tx2.RetryData.length :=
    bigEndianBytes32_inj _ _ (lt_trans hl1 (by norm_num)) (lt_trans hl2 (by norm_num)) eLen
  obtain ⟨eD, -⟩ := List.append_inj e15 hlen
  have n1 := bigEndianBytes32_inj _ _ ra1 rb1 eL1
  have n2 := bigEndianBytes32_inj _ _ ra2 rb2 eDV
  have n3 := bigEndianBytes32_inj _ _ ra3 rb3 eRV
  have n4 := bigEndianBytes32_inj _ _ ra4 rb4 eGF
  have n5 := bigEndianBytes32_inj _ _ ra5 rb5 eMS
  have nG := bigEndianBytes32_inj _ _ (lt_trans hg1 (by norm_num)) (lt_trans hg2 (by norm_num)) eG
  refine ⟨eR, ?_, ?_, ?_, ?_, nG, ?_, eF, eB, eD, eT⟩
  · rw [ha1, hb1, n1]
  · rw [ha2, hb2, n2]
  · rw [ha3, hb3, n3]
  · rw [ha4, hb4, n4]
  · rw [ha5, hb5, n5]

/-- Witness of C26: the contract-creating sample and `sampleSubmitZero`, which is sent
to the zero address by another sender on another chain, have the same payload and
agree on every encoded field. -/
theorem data_injective_witness :
    sampleSubmitCreate.data = sampleSubmitZero.data ∧
    sampleSubmitCreate.ChainId ≠ sampleSubmitZero.ChainId ∧
    sampleSubmitCreate.From ≠ sampleSubmitZero.From ∧
    sampleSubmitCreate.RetryTo ≠ sampleSubmitZero.RetryTo ∧
    sampleSubmitCreate.RequestId = sampleSubmitZero.RequestId ∧
    sampleSubmitCreate.RetryData = sampleSubmitZero.RetryData ∧
    sampleSubmitCreate.RetryTo.getD zeroAddress = sampleSubmitZero.RetryTo.getD zeroAddress :=
  ⟨by decide, by decide, by decide, by decide,
    (data_injective sampleSubmitCreate sampleSubmitZero (by decide) (by decide) (by decide)
      (by decide) (by decide)).1,
    (data_injective sampleSubmitCreate sampleSubmitZero (by decide) (by decide) (by decide)
      (by decide) (by decide)).2.2.2.2.2.2.2.2.2.1,
    (data_injective sampleSubmitCreate sampleSubmitZero (by decide) (by decide) (by decide)
      (by decide) (by decide)).2.2.2.2.2.2.2.2.2.2⟩

/-! ## The effect of `data()` on its receiver: the claim -/

/-- With non-nil big integers `data()` returns. -/
theorem data_isSome (tx : MantleSubmitRetryableTx) (hnn : tx.payloadFieldsNonNil) :
    ∃ d, tx.data = some d := by
  obtain ⟨h1, h2, h3, h4, h5⟩ := hnn
  obtain ⟨l1, h1⟩ := Option.ne_none_iff_exists'.mp h1
  obtain ⟨dv, h2⟩ := Option.ne_none_iff_exists'.mp h2
  obtain ⟨rv, h3⟩ := Option.ne_none_iff_exists'.mp h3
  obtain ⟨gfc, h4⟩ := Option.ne_none_iff_exists'.mp h4
  obtain ⟨msf, h5⟩ := Option.ne_none_iff_exists'.mp h5
  unfold MantleSubmitRetryableTx.data
  simp only [h1, h2, h3, h4, h5, math.U256Bytes, MustDecode_selector, Option.bind_eq_bind,
    Option.some_bind, Option.pure_def]
  exact ⟨_, rfl⟩

/-- The payload that `dataEffect` returns is the payload of `data()`, and the receiver
afterwards differs from the receiver before in the five big integers handed to
`math.U256Bytes` only, each of which holds its low 256 bits. -/
theorem dataEffect_eq (tx : MantleSubmitRetryableTx) :
    tx.dataEffect = tx.data.map fun d =>
      (d, { tx with
        L1BaseFee := tx.L1BaseFee.map math.U256BytesLeaves
        DepositValue := tx.DepositValue.map math.U256BytesLeaves
        RetryValue := tx.RetryValue.map math.U256BytesLeaves
        GasFeeCap := tx.GasFeeCap.map math.U256BytesLeaves
        MaxSubmissionFee := tx.MaxSubmissionFee.map math.U256BytesLeaves }) := by
  obtain ⟨a, b, c, l1, dv, gfc, g, rt, rv, be, msf, fr, rd⟩ := tx
  cases l1 with
  | none => rfl
  | some l1 =>
  cases dv with
  | none => rfl
  | some dv =>
  cases rv with
  | none => rfl
  | some rv =>
  cases gfc with
  | none => rfl
  | some gfc =>
  cases msf with
  | none => rfl
  | some msf => rfl

/-- The low 256 bits of a non-nil big integer are the integer exactly when it lies in
`[0, 2^256)`. -/
theorem map_U256BytesLeaves_iff (x : Option Int) (hx : x ≠ none) :
    x.map math.U256BytesLeaves = x ↔ isU256 x = true := by
  cases x with
  | none => exact absurd rfl hx
  | some v =>
    simp only [Option.map_some', Option.some.injEq, math.U256BytesLeaves, isU256,
      Bool.and_eq_true, decide_eq_true_eq]
    constructor
    · intro h
      rw [← h]
      exact ⟨Int.emod_nonneg _ (by norm_num), Int.emod_lt_of_pos _ (by norm_num)⟩
    · rintro ⟨h0, h1⟩
      exact Int.emod_eq_of_lt h0 h1

/-- With non-nil big integers, the receiver after `data()` is the receiver before it
exactly when the five big integers that `data()` encodes lie in `[0, 2^256)`. -/
theorem dataEffect_eq_self_iff (tx : MantleSubmitRetryableTx)
    (hnn : tx.payloadFieldsNonNil) :
    (∃ d, tx.dataEffect = some (d, tx)) ↔ tx.payloadFieldsInRange = true := by
  obtain ⟨d, hd⟩ := data_isSome tx hnn
  obtain ⟨n1, n2, n3, n4, n5⟩ := hnn
  rw [dataEffect_eq, hd]
  simp only [MantleSubmitRetryableTx.payloadFieldsInRange, Bool.and_eq_true,
    ← map_U256BytesLeaves_iff _ n1, ← map_U256BytesLeaves_iff _ n2,
    ← map_U256BytesLeaves_iff _ n3, ← map_U256BytesLeaves_iff _ n4,
    ← map_U256BytesLeaves_iff _ n5]
  obtain ⟨a, b, c, l1, dv, gfc, g, rt, rv, be, msf, fr, rd⟩ := tx
  simp only [Option.map_some', Option.some.injEq, Prod.mk.injEq,
    MantleSubmitRetryableTx.mk.injEq, true_and, and_true, exists_eq_left']
  tauto

/-- Fields in `[0, 2^256)` are non-nil. -/
theorem payloadFieldsNonNil_of_inRange (tx : MantleSubmitRetryableTx)
    (hr : tx.payloadFieldsInRange = true) : tx.payloadFieldsNonNil := by
  simp only [MantleSubmitRetryableTx.payloadFieldsInRange, Bool.and_eq_true] at hr
  obtain ⟨⟨⟨⟨h1, h2⟩, h3⟩, h4⟩, h5⟩ := hr
  have key : ∀ x : Option Int, isU256 x = true → x ≠ none := by
    intro x hx hn
    subst hn
    simp [isU256] at hx
  exact ⟨key _ h1, key _ h2, key _ h3, key _ h4, key _ h5⟩

/-- C24 as stated fails: on a transaction with `L1BaseFee = -1` and
`DepositValue = 2^256 + 5`, all big integers non-nil, `data()` returns and leaves
`L1BaseFee = 2^256 - 1` and `DepositValue = 5` behind, so the transaction afterwards is
not the transaction before. -/
theorem data_leaves_fields_counterexample :
    sampleSubmitWide.payloadFieldsNonNil ∧
    (∃ d tx2, sampleSubmitWide.data = some d ∧ sampleSubmitWide.dataEffect = some (d, tx2) ∧
      sampleSubmitWide.L1BaseFee = some (-1) ∧ tx2.L1BaseFee = some (2 ^ 256 - 1) ∧
      sampleSubmitWide.DepositValue = some (2 ^ 256 + 5) ∧ tx2.DepositValue = some 5) ∧
    ¬ ∃ d, sampleSubmitWide.dataEffect = some (d, sampleSubmitWide) := by
  have hnn : sampleSubmitWide.payloadFieldsNonNil := by decide
  obtain ⟨d, hd⟩ := data_isSome sampleSubmitWide hnn
  refine ⟨hnn, ⟨d, _, hd, by rw [dataEffect_eq, hd]; rfl, rfl, by decide, rfl, by decide⟩, ?_⟩
  rw [dataEffect_eq_self_iff sampleSubmitWide hnn]
  decide

/-- C24, amended: for every `MantleSubmitRetryableTx` whose big integers `L1BaseFee`,
`DepositValue`, `RetryValue`, `GasFeeCap` and `MaxSubmissionFee` are non-nil and lie in
`[0, 2^256)`, `data()` returns and every field of the transaction holds afterwards the
value it held before. -/
theorem data_leaves_fields (tx : MantleSubmitRetryableTx)
    (hr : tx.payloadFieldsInRange = true) :
    ∃ d, tx.data = some d ∧ tx.dataEffect = some (d, tx) := by
  have hnn := payloadFieldsNonNil_of_inRange tx hr
  obtain ⟨d, hd⟩ := data_isSome tx hnn
  obtain ⟨d2, h2⟩ := (dataEffect_eq_self_iff tx hnn).mpr hr
  refine ⟨d, hd, ?_⟩
  have h3 := h2
  rw [dataEffect_eq, hd] at h3
  have hdd : d = d2 := (Prod.mk.inj (Option.some.inj h3)).1
  rw [hdd]
  exact h2

theorem data_leaves_fields_witness :
    sampleSubmit.payloadFieldsInRange = true ∧
    ∃ d, sampleSubmit.data = some d ∧ sampleSubmit.dataEffect = some (d, sampleSubmit) :=
  ⟨by decide, data_leaves_fields sampleSubmit (by decide)⟩

/-! ## Lemmas on the heap model -/

theorem copyIntInto_next (h : Heap) (z : Nat) (x : Option Nat) :
    (h.copyIntInto z x).next = h.next := by
  cases x <;> rfl

theorem copyIntInto_bytes (h : Heap) (z : Nat) (x : Option Nat) :
    (h.copyIntInto z x).bytes = h.bytes := by
  cases x <;> rfl

theorem copyIntInto_addrs (h : Heap) (z : Nat) (x : Option Nat) :
    (h.copyIntInto z x).addrs = h.addrs := by
  cases x <;> rfl

theorem copyIntInto_ints_of_ne (h : Heap) (z : Nat) (x : Option Nat) (q : Nat) (hq : q ≠ z) :
    (h.copyIntInto z x).ints q = h.ints q := by
  cases x
  · rfl
  · exact Function.update_noteq hq _ _

theorem copyIntInto_ints_self_getD (h : Heap) (z : Nat) (x : Option Nat) :
    (h.copyIntInto z x).ints z = (x.map h.ints).getD (h.ints z) := by
  cases x
  · rfl
  · simp [Heap.copyIntInto, Heap.setInt]

theorem copyBigInt_eq_getD (o : Option Int) : copyBigInt o = some (o.getD 0) := by
  cases o <;> rfl

theorem getD_map_ints_eq (f g : Nat → Int) (x : Option Nat) (n : Nat)
    (hx : ∀ p, x = some p → p < n) (hfg : ∀ q < n, f q = g q) :
    (x.map f).getD 0 = (x.map g).getD 0 := by
  cases x with
  | none => rfl
  | some p => simp [hfg p (hx p rfl)]

theorem AgreeBelow_refl (n : Nat) (h : Heap) : Heap.AgreeBelow n h h :=
  fun _ _ => ⟨rfl, rfl, rfl⟩

theorem AgreeBelow_trans (n : Nat) (h h2 h3 : Heap) (a : Heap.AgreeBelow n h h2)
    (b : Heap.AgreeBelow n h2 h3) : Heap.AgreeBelow n h h3 :=
  fun q hq => ⟨(b q hq).1.trans (a q hq).1, (b q hq).2.1.trans (a q hq).2.1,
    (b q hq).2.2.trans (a q hq).2.2⟩

theorem AgreeBelow_mono (n m : Nat) (h h2 : Heap) (hnm : n ≤ m) (a : Heap.AgreeBelow m h h2) :
    Heap.AgreeBelow n h h2 :=
  fun q hq => a q (Nat.lt_of_lt_of_le hq hnm)

/-- Mutating a big integer at or above `n` changes nothing below `n`. -/
theorem AgreeBelow_setInt (n : Nat) (h : Heap) (p : Nat) (v : Int) (hp : n ≤ p) :
    Heap.AgreeBelow n h (h.setInt p v) :=
  fun q hq => ⟨Function.update_noteq (by omega) _ _, rfl, rfl⟩

/-- Mutating a backing array at or above `n` changes nothing below `n`. -/
theorem AgreeBelow_setBytes (n : Nat) (h : Heap) (p : Nat) (bs : List Nat) (hp : n ≤ p) :
    Heap.AgreeBelow n h (h.setBytes p bs) :=
  fun q hq => ⟨rfl, Function.update_noteq (by omega) _ _, rfl⟩

/-- Mutating an address at or above `n` changes nothing below `n`. -/
theorem AgreeBelow_setAddr (n : Nat) (h : Heap) (p : Nat) (a : List Nat) (hp : n ≤ p) :
    Heap.AgreeBelow n h (h.setAddr p a) :=
  fun q hq => ⟨rfl, rfl, Function.update_noteq (by omega) _ _⟩

theorem map_ints_agree (n : Nat) (h h2 : Heap) (a : Heap.AgreeBelow n h h2) (x : Option Nat)
    (hx : ∀ p, x = some p → p < n) : x.map h2.ints = x.map h.ints := by
  cases x with
  | none => rfl
  | some p => simp [(a p (hx p rfl)).1]

theorem map_addrs_agree (n : Nat) (h h2 : Heap) (a : Heap.AgreeBelow n h h2) (x : Option Nat)
    (hx : ∀ p, x = some p → p < n) : x.map h2.addrs = x.map h.addrs := by
  cases x with
  | none => rfl
  | some p => simp [(a p (hx p rfl)).2.2]

theorem slice_agree (n : Nat) (h h2 : Heap) (a : Heap.AgreeBelow n h h2) (x : Option Nat)
    (hx : ∀ p, x = some p → p < n) : h2.slice x = h.slice x := by
  cases x with
  | none => rfl
  | some p => simp [Heap.slice, (a p (hx p rfl)).2.1]


/-- The copy of a `MantleUnsignedTx` leaves every object of the heap before it in place. -/
theorem MantleUnsignedTx_copy_agree (tx : MantleUnsignedTxRef) (h : Heap) :
    Heap.AgreeBelow h.next h (tx.copy h).1 := by
  intro q hq
  unfold MantleUnsignedTxRef.copy
  cases hTo : tx.To <;> cases hData : tx.Data <;>
    simp (disch := omega) [Heap.newInt, Heap.CopyBytes, Heap.copyAddrPtr, copyIntInto_next,
      copyIntInto_bytes, copyIntInto_addrs, copyIntInto_ints_of_ne, Function.update_noteq,
      hTo, hData]

/-- Every location the copy of a `MantleUnsignedTx` points to is freshly allocated. -/
theorem MantleUnsignedTx_copy_fresh (tx : MantleUnsignedTxRef) (h : Heap) :
    ∀ p ∈ (tx.copy h).2.ptrs, h.next ≤ p := by
  intro p hp
  unfold MantleUnsignedTxRef.copy at hp
  cases hTo : tx.To <;> cases hData : tx.Data <;>
    simp [MantleUnsignedTxRef.ptrs, Heap.newInt, Heap.CopyBytes, Heap.copyAddrPtr, copyIntInto_next,
      hTo, hData] at hp <;>
    omega

/-- The payload a `MantleUnsignedTx` denotes depends only on the objects it points to. -/
theorem MantleUnsignedTx_read_agree (tx : MantleUnsignedTxRef) (n : Nat) (h h2 : Heap)
    (a : Heap.AgreeBelow n h h2) (hv : ∀ p ∈ tx.ptrs, p < n) : tx.read h2 = tx.read h := by
  unfold MantleUnsignedTxRef.read
  rw [map_ints_agree n h h2 a tx.ChainId (fun p hp => hv p (by simp [MantleUnsignedTxRef.ptrs, hp])),
    map_ints_agree n h h2 a tx.GasFeeCap (fun p hp => hv p (by simp [MantleUnsignedTxRef.ptrs, hp])),
    map_ints_agree n h h2 a tx.Value (fun p hp => hv p (by simp [MantleUnsignedTxRef.ptrs, hp])),
    map_addrs_agree n h h2 a tx.To (fun p hp => hv p (by simp [MantleUnsignedTxRef.ptrs, hp])),
    slice_agree n h h2 a tx.Data (fun p hp => hv p (by simp [MantleUnsignedTxRef.ptrs, hp]))]

/-- The copy of a `MantleUnsignedTx` on the heap denotes the copy of the payload it denotes. -/
theorem MantleUnsignedTx_copy_read (tx : MantleUnsignedTxRef) (h : Heap) (hv : ∀ p ∈ tx.ptrs, p < h.next) :
    (tx.copy h).2.read (tx.copy h).1 = (tx.read h).copy := by
  have lChainId : ∀ p, tx.ChainId = some p → p < h.next :=
    fun p hp => hv p (by simp [MantleUnsignedTxRef.ptrs, hp])
  have lGasFeeCap : ∀ p, tx.GasFeeCap = some p → p < h.next :=
    fun p hp => hv p (by simp [MantleUnsignedTxRef.ptrs, hp])
  have lValue : ∀ p, tx.Value = some p → p < h.next :=
    fun p hp => hv p (by simp [MantleUnsignedTxRef.ptrs, hp])
  unfold MantleUnsignedTxRef.copy MantleUnsignedTxRef.read MantleUnsignedTx.copy
  cases hTo : tx.To <;> cases hData : tx.Data <;>
    simp (disch := omega) [Heap.newInt, Heap.CopyBytes, Heap.copyAddrPtr, Heap.slice,
      copyIntInto_next, copyIntInto_bytes, copyIntInto_addrs, copyIntInto_ints_of_ne,
      copyIntInto_ints_self_getD, Function.update_noteq, copyBigInt_eq_getD] <;>
    (repeat' constructor) <;>
    (apply getD_map_ints_eq _ _ _ h.next (by assumption); intro q hq;
     simp (disch := omega) [copyIntInto_ints_of_ne, Function.update_noteq])

/-- The copy of a `MantleContractTx` leaves every object of the heap before it in place. -/
theorem MantleContractTx_copy_agree (tx : MantleContractTxRef) (h : Heap) :
    Heap.AgreeBelow h.next h (tx.copy h).1 := by
  intro q hq
  unfold MantleContractTxRef.copy
  cases hTo : tx.To <;> cases hData : tx.Data <;>
    simp (disch := omega) [Heap.newInt, Heap.CopyBytes, Heap.copyAddrPtr, copyIntInto_next,
      copyIntInto_bytes, copyIntInto_addrs, copyIntInto_ints_of_ne, Function.update_noteq,
      hTo, hData]

/-- Every location the copy of a `MantleContractTx` points to is freshly allocated. -/
theorem MantleContractTx_copy_fresh (tx : MantleContractTxRef) (h : Heap) :
    ∀ p ∈ (tx.copy h).2.ptrs, h.next ≤ p := by
  intro p hp
  unfold MantleContractTxRef.copy at hp
  cases hTo : tx.To <;> cases hData : tx.Data <;>
    simp [MantleContractTxRef.ptrs, Heap.newInt, Heap.CopyBytes, Heap.copyAddrPtr, copyIntInto_next,
      hTo, hData] at hp <;>
    omega

/-- The payload a `MantleContractTx` denotes depends only on the objects it points to. -/
theorem MantleContractTx_read_agree (tx : MantleContractTxRef) (n : Nat) (h h2 : Heap)
    (a : Heap.AgreeBelow n h h2) (hv : ∀ p ∈ tx.ptrs, p < n) : tx.read h2 = tx.read h := by
  unfold MantleContractTxRef.read
  rw [map_ints_agree n h h2 a tx.ChainId (fun p hp => hv p (by simp [MantleContractTxRef.ptrs, hp])),
    map_ints_agree n h h2 a tx.GasFeeCap (fun p hp => hv p (by simp [MantleContractTxRef.ptrs, hp])),
    map_ints_agree n h h2 a tx.Value (fun p hp => hv p (by simp [MantleContractTxRef.ptrs, hp])),
    map_addrs_agree n h h2 a tx.To (fun p hp => hv p (by simp [MantleContractTxRef.ptrs, hp])),
    slice_agree n h h2 a tx.Data (fun p hp => hv p (by simp [MantleContractTxRef.ptrs, hp]))]

/-- The copy of a `MantleContractTx` on the heap denotes the copy of the payload it denotes. -/
theorem MantleContractTx_copy_read (tx : MantleContractTxRef) (h : Heap) (hv : ∀ p ∈ tx.ptrs, p < h.next) :
    (tx.copy h).2.read (tx.copy h).1 = (tx.read h).copy := by
  have lChainId : ∀ p, tx.ChainId = some p → p < h.next :=
    fun p hp => hv p (by simp [MantleContractTxRef.ptrs, hp])
  have lGasFeeCap : ∀ p, tx.GasFeeCap = some p → p < h.next :=
    fun p hp => hv p (by simp [MantleContractTxRef.ptrs, hp])
  have lValue : ∀ p, tx.Value = some p → p < h.next :=
    fun p hp => hv p (by simp [MantleContractTxRef.ptrs, hp])
  unfold MantleContractTxRef.copy MantleContractTxRef.read MantleContractTx.copy
  cases hTo : tx.To <;> cases hData : tx.Data <;>
    simp (disch := omega) [Heap.newInt, Heap.CopyBytes, Heap.copyAddrPtr, Heap.slice,
      copyIntInto_next, copyIntInto_bytes, copyIntInto_addrs, copyIntInto_ints_of_ne,
      copyIntInto_ints_self_getD, Function.update_noteq, copyBigInt_eq_getD] <;>
    (repeat' constructor) <;>
    (apply getD_map_ints_eq _ _ _ h.next (by assumption); intro q hq;
     simp (disch := omega) [copyIntInto_ints_of_ne, Function.update_noteq])

/-- The copy of a `MantleRetryTx` leaves every object of the heap before it in place. -/
theorem MantleRetryTx_copy_agree (tx : MantleRetryTxRef) (h : Heap) :
    Heap.AgreeBelow h.next h (tx.copy h).1 := by
  intro q hq
  unfold MantleRetryTxRef.copy
  cases hTo : tx.To <;> cases hData : tx.Data <;>
    simp (disch := omega) [Heap.newInt, Heap.CopyBytes, Heap.copyAddrPtr, copyIntInto_next,
      copyIntInto_bytes, copyIntInto_addrs, copyIntInto_ints_of_ne, Function.update_noteq,
      hTo, hData]

/-- Every location the copy of a `MantleRetryTx` points to is freshly allocated. -/
theorem MantleRetryTx_copy_fresh (tx : MantleRetryTxRef) (h : Heap) :
    ∀ p ∈ (tx.copy h).2.ptrs, h.next ≤ p := by
  intro p hp
  unfold MantleRetryTxRef.copy at hp
  cases hTo : tx.To <;> cases hData : tx.Data <;>
    simp [MantleRetryTxRef.ptrs, Heap.newInt, Heap.CopyBytes, Heap.copyAddrPtr, copyIntInto_next,
      hTo, hData] at hp <;>
    omega

/-- The payload a `MantleRetryTx` denotes depends only on the objects it points to. -/
theorem MantleRetryTx_read_agree (tx : MantleRetryTxRef) (n : Nat) (h h2 : Heap)
    (a : Heap.AgreeBelow n h h2) (hv : ∀ p ∈ tx.ptrs, p < n) : tx.read h2 = tx.read h := by
  unfold MantleRetryTxRef.read
  rw [map_ints_agree n h h2 a tx.ChainId (fun p hp => hv p (by simp [MantleRetryTxRef.ptrs, hp])),
    map_ints_agree n h h2 a tx.GasFeeCap (fun p hp => hv p (by simp [MantleRetryTxRef.ptrs, hp])),
    map_ints_agree n h h2 a tx.Value (fun p hp => hv p (by simp [MantleRetryTxRef.ptrs, hp])),
    map_ints_agree n h h2 a tx.MaxRefund (fun p hp => hv p (by simp [MantleRetryTxRef.ptrs, hp])),
    map_ints_agree n h h2 a tx.SubmissionFeeRefund (fun p hp => hv p (by simp [MantleRetryTxRef.ptrs, hp])),
    map_addrs_agree n h h2 a tx.To (fun p hp => hv p (by simp [MantleRetryTxRef.ptrs, hp])),
    slice_agree n h h2 a tx.Data (fun p hp => hv p (by simp [MantleRetryTxRef.ptrs, hp]))]

/-- The copy of a `MantleRetryTx` on the heap denotes the copy of the payload it denotes. -/
theorem MantleRetryTx_copy_read (tx : MantleRetryTxRef) (h : Heap) (hv : ∀ p ∈ tx.ptrs, p < h.next) :
    (tx.copy h).2.read (tx.copy h).1 = (tx.read h).copy := by
  have lChainId : ∀ p, tx.ChainId = some p → p < h.next :=
    fun p hp => hv p (by simp [MantleRetryTxRef.ptrs, hp])
  have lGasFeeCap : ∀ p, tx.GasFeeCap = some p → p < h.next :=
    fun p hp => hv p (by simp [MantleRetryTxRef.ptrs, hp])
  have lValue : ∀ p, tx.Value = some p → p < h.next :=
    fun p hp => hv p (by simp [MantleRetryTxRef.ptrs, hp])
  have lMaxRefund : ∀ p, tx.MaxRefund = some p → p < h.next :=
    fun p hp => hv p (by simp [MantleRetryTxRef.ptrs, hp])
  have lSubmissionFeeRefund : ∀ p, tx.SubmissionFeeRefund = some p → p < h.next :=
    fun p hp => hv p (by simp [MantleRetryTxRef.ptrs, hp])
  unfold MantleRetryTxRef.copy MantleRetryTxRef.read MantleRetryTx.copy
  cases hTo : tx.To <;> cases hData : tx.Data <;>
    simp (disch := omega) [Heap.newInt, Heap.CopyBytes, Heap.copyAddrPtr, Heap.slice,
      copyIntInto_next, copyIntInto_bytes, copyIntInto_addrs, copyIntInto_ints_of_ne,
      copyIntInto_ints_self_getD, Function.update_noteq, copyBigInt_eq_getD] <;>
    (repeat' constructor) <;>
    (apply getD_map_ints_eq _ _ _ h.next (by assumption); intro q hq;
     simp (disch := omega) [copyIntInto_ints_of_ne, Function.update_noteq])

/-- The copy of a `MantleSubmitRetryableTx` leaves every object of the heap before it in place. -/
theorem MantleSubmitRetryableTx_copy_agree (tx : MantleSubmitRetryableTxRef) (h : Heap) :
    Heap.AgreeBelow h.next h (tx.copy h).1 := by
  intro q hq
  unfold MantleSubmitRetryableTxRef.copy
  cases hRetryTo : tx.RetryTo <;> cases hRetryData : tx.RetryData <;>
    simp (disch := omega) [Heap.newInt, Heap.CopyBytes, Heap.copyAddrPtr, copyIntInto_next,
      copyIntInto_bytes, copyIntInto_addrs, copyIntInto_ints_of_ne, Function.update_noteq,
      hRetryTo, hRetryData]

/-- Every location the copy of a `MantleSubmitRetryableTx` points to is freshly allocated. -/
theorem MantleSubmitRetryableTx_copy_fresh (tx : MantleSubmitRetryableTxRef) (h : Heap) :
    ∀ p ∈ (tx.copy h).2.ptrs, h.next ≤ p := by
  intro p hp
  unfold MantleSubmitRetryableTxRef.copy at hp
  cases hRetryTo : tx.RetryTo <;> cases hRetryData : tx.RetryData <;>
    simp [MantleSubmitRetryableTxRef.ptrs, Heap.newInt, Heap.CopyBytes, Heap.copyAddrPtr, copyIntInto_next,
      hRetryTo, hRetryData] at hp <;>
    omega

/-- The payload a `MantleSubmitRetryableTx` denotes depends only on the objects it points to. -/
theorem MantleSubmitRetryableTx_read_agree (tx : MantleSubmitRetryableTxRef) (n : Nat) (h h2 : Heap)
    (a : Heap.AgreeBelow n h h2) (hv : ∀ p ∈ tx.ptrs, p < n) : tx.read h2 = tx.read h := by
  unfold MantleSubmitRetryableTxRef.read
  rw [map_ints_agree n h h2 a tx.ChainId (fun p hp => hv p (by simp [MantleSubmitRetryableTxRef.ptrs, hp])),
    map_ints_agree n h h2 a tx.L1BaseFee (fun p hp => hv p (by simp [MantleSubmitRetryableTxRef.ptrs, hp])),
    map_ints_agree n h h2 a tx.DepositValue (fun p hp => hv p (by simp [MantleSubmitRetryableTxRef.ptrs, hp])),
    map_ints_agree n h h2 a tx.GasFeeCap (fun p hp => hv p (by simp [MantleSubmitRetryableTxRef.ptrs, hp])),
    map_ints_agree n h h2 a tx.RetryValue (fun p hp => hv p (by simp [MantleSubmitRetryableTxRef.ptrs, hp])),
    map_ints_agree n h h2 a tx.MaxSubmissionFee (fun p hp => hv p (by simp [MantleSubmitRetryableTxRef.ptrs, hp])),
    map_addrs_agree n h h2 a tx.RetryTo (fun p hp => hv p (by simp [MantleSubmitRetryableTxRef.ptrs, hp])),
    slice_agree n h h2 a tx.RetryData (fun p hp => hv p (by simp [MantleSubmitRetryableTxRef.ptrs, hp]))]

/-- The copy of a `MantleSubmitRetryableTx` on the heap denotes the copy of the payload it denotes. -/
theorem MantleSubmitRetryableTx_copy_read (tx : MantleSubmitRetryableTxRef) (h : Heap) (hv : ∀ p ∈ tx.ptrs, p < h.next) :
    (tx.copy h).2.read (tx.copy h).1 = (tx.read h).copy := by
  have lChainId : ∀ p, tx.ChainId = some p → p < h.next :=
    fun p hp => hv p (by simp [MantleSubmitRetryableTxRef.ptrs, hp])
  have lL1BaseFee : ∀ p, tx.L1BaseFee = some p → p < h.next :=
    fun p hp => hv p (by simp [MantleSubmitRetryableTxRef.ptrs, hp])
  have lDepositValue : ∀ p, tx.DepositValue = some p → p < h.next :=
    fun p hp => hv p (by simp [MantleSubmitRetryableTxRef.ptrs, hp])
  have lGasFeeCap : ∀ p, tx.GasFeeCap = some p → p < h.next :=
    fun p hp => hv p (by simp [MantleSubmitRetryableTxRef.ptrs, hp])
  have lRetryValue : ∀ p, tx.RetryValue = some p → p < h.next :=
    fun p hp => hv p (by simp [MantleSubmitRetryableTxRef.ptrs, hp])
  have lMaxSubmissionFee : ∀ p, tx.MaxSubmissionFee = some p → p < h.next :=
    fun p hp => hv p (by simp [MantleSubmitRetryableTxRef.ptrs, hp])
  unfold MantleSubmitRetryableTxRef.copy MantleSubmitRetryableTxRef.read MantleSubmitRetryableTx.copy
  cases hRetryTo : tx.RetryTo <;> cases hRetryData : tx.RetryData <;>
    simp (disch := omega) [Heap.newInt, Heap.CopyBytes, Heap.copyAddrPtr, Heap.slice,
      copyIntInto_next, copyIntInto_bytes, copyIntInto_addrs, copyIntInto_ints_of_ne,
      copyIntInto_ints_self_getD, Function.update_noteq, copyBigInt_eq_getD] <;>
    (repeat' constructor) <;>
    (apply getD_map_ints_eq _ _ _ h.next (by assumption); intro q hq;
     simp (disch := omega) [copyIntInto_ints_of_ne, Function.update_noteq])

/-- The copy of a `MantleDepositTx` leaves every object of the heap before it in place. -/
theorem MantleDepositTx_copy_agree (tx : MantleDepositTxRef) (h : Heap) :
    Heap.AgreeBelow h.next h (tx.copy h).1 := by
  intro q hq
  unfold MantleDepositTxRef.copy
  simp (disch := omega) [Heap.newInt, copyIntInto_next, copyIntInto_bytes, copyIntInto_addrs,
    copyIntInto_ints_of_ne, Function.update_noteq]

/-- Every location the copy of a `MantleDepositTx` points to is freshly allocated. -/
theorem MantleDepositTx_copy_fresh (tx : MantleDepositTxRef) (h : Heap) :
    ∀ p ∈ (tx.copy h).2.ptrs, h.next ≤ p := by
  intro p hp
  unfold MantleDepositTxRef.copy at hp
  simp [MantleDepositTxRef.ptrs, Heap.newInt, copyIntInto_next] at hp
  omega

/-- The payload a `MantleDepositTx` denotes depends only on the objects it points to. -/
theorem MantleDepositTx_read_agree (tx : MantleDepositTxRef) (n : Nat) (h h2 : Heap)
    (a : Heap.AgreeBelow n h h2) (hv : ∀ p ∈ tx.ptrs, p < n) : tx.read h2 = tx.read h := by
  unfold MantleDepositTxRef.read
  rw [map_ints_agree n h h2 a tx.ChainId (fun p hp => hv p (by simp [MantleDepositTxRef.ptrs, hp])),
    map_ints_agree n h h2 a tx.Value (fun p hp => hv p (by simp [MantleDepositTxRef.ptrs, hp]))]

/-- The copy of a `MantleDepositTx` on the heap denotes the copy of the payload it denotes. -/
theorem MantleDepositTx_copy_read (tx : MantleDepositTxRef) (h : Heap) (hv : ∀ p ∈ tx.ptrs, p < h.next) :
    (tx.copy h).2.read (tx.copy h).1 = (tx.read h).copy := by
  have lChainId : ∀ p, tx.ChainId = some p → p < h.next :=
    fun p hp => hv p (by simp [MantleDepositTxRef.ptrs, hp])
  have lValue : ∀ p, tx.Value = some p → p < h.next :=
    fun p hp => hv p (by simp [MantleDepositTxRef.ptrs, hp])
  unfold MantleDepositTxRef.copy MantleDepositTxRef.read MantleDepositTx.copy
  simp (disch := omega) [Heap.newInt, copyIntInto_next, copyIntInto_bytes, copyIntInto_addrs,
    copyIntInto_ints_of_ne, copyIntInto_ints_self_getD, Function.update_noteq,
    copyBigInt_eq_getD]
  (repeat' constructor) <;>
    (apply getD_map_ints_eq _ _ _ h.next (by assumption); intro q hq;
     simp (disch := omega) [copyIntInto_ints_of_ne, Function.update_noteq])

/-- The copy of a `LegacyTx` leaves every object of the heap before it in place. -/
theorem LegacyTx_copy_agree (tx : LegacyTxRef) (h : Heap) :
    Heap.AgreeBelow h.next h (tx.copy h).1 := by
  intro q hq
  unfold LegacyTxRef.copy
  cases hTo : tx.To <;> cases hData : tx.Data <;>
    simp (disch := omega) [Heap.newInt, Heap.CopyBytes, Heap.copyAddrPtr, copyIntInto_next,
      copyIntInto_bytes, copyIntInto_addrs, copyIntInto_ints_of_ne, Function.update_noteq,
      hTo, hData]

/-- Every location the copy of a `LegacyTx` points to is freshly allocated. -/
theorem LegacyTx_copy_fresh (tx : LegacyTxRef) (h : Heap) :
    ∀ p ∈ (tx.copy h).2.ptrs, h.next ≤ p := by
  intro p hp
  unfold LegacyTxRef.copy at hp
  cases hTo : tx.To <;> cases hData : tx.Data <;>
    simp [LegacyTxRef.ptrs, Heap.newInt, Heap.CopyBytes, Heap.copyAddrPtr, copyIntInto_next,
      hTo, hData] at hp <;>
    omega

/-- The payload a `LegacyTx` denotes depends only on the objects it points to. -/
theorem LegacyTx_read_agree (tx : LegacyTxRef) (n : Nat) (h h2 : Heap)
    (a : Heap.AgreeBelow n h h2) (hv : ∀ p ∈ tx.ptrs, p < n) : tx.read h2 = tx.read h := by
  unfold LegacyTxRef.read
  rw [map_ints_agree n h h2 a tx.GasPrice (fun p hp => hv p (by simp [LegacyTxRef.ptrs, hp])),
    map_ints_agree n h h2 a tx.Value (fun p hp => hv p (by simp [LegacyTxRef.ptrs, hp])),
    map_ints_agree n h h2 a tx.V (fun p hp => hv p (by simp [LegacyTxRef.ptrs, hp])),
    map_ints_agree n h h2 a tx.R (fun p hp => hv p (by simp [LegacyTxRef.ptrs, hp])),
    map_ints_agree n h h2 a tx.S (fun p hp => hv p (by simp [LegacyTxRef.ptrs, hp])),
    map_addrs_agree n h h2 a tx.To (fun p hp => hv p (by simp [LegacyTxRef.ptrs, hp])),
    slice_agree n h h2 a tx.Data (fun p hp => hv p (by simp [LegacyTxRef.ptrs, hp]))]

/-- The copy of a `LegacyTx` on the heap denotes the copy of the payload it denotes. -/
theorem LegacyTx_copy_read (tx : LegacyTxRef) (h : Heap) (hv : ∀ p ∈ tx.ptrs, p < h.next) :
    (tx.copy h).2.read (tx.copy h).1 = (tx.read h).copy := by
  have lGasPrice : ∀ p, tx.GasPrice = some p → p < h.next :=
    fun p hp => hv p (by simp [LegacyTxRef.ptrs, hp])
  have lValue : ∀ p, tx.Value = some p → p < h.next :=
    fun p hp => hv p (by simp [LegacyTxRef.ptrs, hp])
  have lV : ∀ p, tx.V = some p → p < h.next :=
    fun p hp => hv p (by simp [LegacyTxRef.ptrs, hp])
  have lR : ∀ p, tx.R = some p → p < h.next :=
    fun p hp => hv p (by simp [LegacyTxRef.ptrs, hp])
  have lS : ∀ p, tx.S = some p → p < h.next :=
    fun p hp => hv p (by simp [LegacyTxRef.ptrs, hp])
  unfold LegacyTxRef.copy LegacyTxRef.read LegacyTx.copy
  cases hTo : tx.To <;> cases hData : tx.Data <;>
    simp (disch := omega) [Heap.newInt, Heap.CopyBytes, Heap.copyAddrPtr, Heap.slice,
      copyIntInto_next, copyIntInto_bytes, copyIntInto_addrs, copyIntInto_ints_of_ne,
      copyIntInto_ints_self_getD, Function.update_noteq, copyBigInt_eq_getD] <;>
    (repeat' constructor) <;>
    (apply getD_map_ints_eq _ _ _ h.next (by assumption); intro q hq;
     simp (disch := omega) [copyIntInto_ints_of_ne, Function.update_noteq])

/-- The copy of a `MantleLegacyTxData` leaves every object of the heap before it in place. -/
theorem MantleLegacyTxData_copy_agree (tx : MantleLegacyTxDataRef) (h : Heap) :
    Heap.AgreeBelow h.next h (tx.copy h).1 := by
  intro q hq
  unfold MantleLegacyTxDataRef.copy LegacyTxRef.copy
  cases hLegacyTxTo : tx.LegacyTx.To <;> cases hSender : tx.Sender <;> cases hLegacyTxData : tx.LegacyTx.Data <;>
    simp (disch := omega) [Heap.newInt, Heap.CopyBytes, Heap.copyAddrPtr, copyIntInto_next,
      copyIntInto_bytes, copyIntInto_addrs, copyIntInto_ints_of_ne, Function.update_noteq,
      hLegacyTxTo, hSender, hLegacyTxData]

/-- Every location the copy of a `MantleLegacyTxData` points to is freshly allocated. -/
theorem MantleLegacyTxData_copy_fresh (tx : MantleLegacyTxDataRef) (h : Heap) :
    ∀ p ∈ (tx.copy h).2.ptrs, h.next ≤ p := by
  intro p hp
  unfold MantleLegacyTxDataRef.copy LegacyTxRef.copy at hp
  cases hLegacyTxTo : tx.LegacyTx.To <;> cases hSender : tx.Sender <;> cases hLegacyTxData : tx.LegacyTx.Data <;>
    simp [MantleLegacyTxDataRef.ptrs, LegacyTxRef.ptrs, Heap.newInt, Heap.CopyBytes, Heap.copyAddrPtr, copyIntInto_next,
      hLegacyTxTo, hSender, hLegacyTxData] at hp <;>
    omega

/-- The payload a `MantleLegacyTxData` denotes depends only on the objects it points to. -/
theorem MantleLegacyTxData_read_agree (tx : MantleLegacyTxDataRef) (n : Nat) (h h2 : Heap)
    (a : Heap.AgreeBelow n h h2) (hv : ∀ p ∈ tx.ptrs, p < n) : tx.read h2 = tx.read h := by
  unfold MantleLegacyTxDataRef.read LegacyTxRef.read
  rw [map_ints_agree n h h2 a tx.LegacyTx.GasPrice (fun p hp => hv p (by simp [MantleLegacyTxDataRef.ptrs, LegacyTxRef.ptrs, hp])),
    map_ints_agree n h h2 a tx.LegacyTx.Value (fun p hp => hv p (by simp [MantleLegacyTxDataRef.ptrs, LegacyTxRef.ptrs, hp])),
    map_ints_agree n h h2 a tx.LegacyTx.V (fun p hp => hv p (by simp [MantleLegacyTxDataRef.ptrs, LegacyTxRef.ptrs, hp])),
    map_ints_agree n h h2 a tx.LegacyTx.R (fun p hp => hv p (by simp [MantleLegacyTxDataRef.ptrs, LegacyTxRef.ptrs, hp])),
    map_ints_agree n h h2 a tx.LegacyTx.S (fun p hp => hv p (by simp [MantleLegacyTxDataRef.ptrs, LegacyTxRef.ptrs, hp])),
    map_addrs_agree n h h2 a tx.LegacyTx.To (fun p hp => hv p (by simp [MantleLegacyTxDataRef.ptrs, LegacyTxRef.ptrs, hp])),
    map_addrs_agree n h h2 a tx.Sender (fun p hp => hv p (by simp [MantleLegacyTxDataRef.ptrs, LegacyTxRef.ptrs, hp])),
    slice_agree n h h2 a tx.LegacyTx.Data (fun p hp => hv p (by simp [MantleLegacyTxDataRef.ptrs, LegacyTxRef.ptrs, hp]))]

/-- The copy of a `MantleLegacyTxData` on the heap denotes the copy of the payload it denotes. -/
theorem MantleLegacyTxData_copy_read (tx : MantleLegacyTxDataRef) (h : Heap) (hv : ∀ p ∈ tx.ptrs, p < h.next) :
    (tx.copy h).2.read (tx.copy h).1 = (tx.read h).copy := by
  have lLegacyTxGasPrice : ∀ p, tx.LegacyTx.GasPrice = some p → p < h.next :=
    fun p hp => hv p (by simp [MantleLegacyTxDataRef.ptrs, LegacyTxRef.ptrs, hp])
  have lLegacyTxValue : ∀ p, tx.LegacyTx.Value = some p → p < h.next :=
    fun p hp => hv p (by simp [MantleLegacyTxDataRef.ptrs, LegacyTxRef.ptrs, hp])
  have lLegacyTxV : ∀ p, tx.LegacyTx.V = some p → p < h.next :=
    fun p hp => hv p (by simp [MantleLegacyTxDataRef.ptrs, LegacyTxRef.ptrs, hp])
  have lLegacyTxR : ∀ p, tx.LegacyTx.R = some p → p < h.next :=
    fun p hp => hv p (by simp [MantleLegacyTxDataRef.ptrs, LegacyTxRef.ptrs, hp])
  have lLegacyTxS : ∀ p, tx.LegacyTx.S = some p → p < h.next :=
    fun p hp => hv p (by simp [MantleLegacyTxDataRef.ptrs, LegacyTxRef.ptrs, hp])
  have lSender : ∀ p, tx.Sender = some p → p < h.next :=
    fun p hp => hv p (by simp [MantleLegacyTxDataRef.ptrs, LegacyTxRef.ptrs, hp])
  unfold MantleLegacyTxDataRef.copy LegacyTxRef.copy MantleLegacyTxDataRef.read LegacyTxRef.read MantleLegacyTxData.copy LegacyTx.copy
  cases hLegacyTxTo : tx.LegacyTx.To <;> cases hSender : tx.Sender <;> cases hLegacyTxData : tx.LegacyTx.Data <;>
    simp (disch := omega) [Heap.newInt, Heap.CopyBytes, Heap.copyAddrPtr, Heap.slice,
      copyIntInto_next, copyIntInto_bytes, copyIntInto_addrs, copyIntInto_ints_of_ne,
      copyIntInto_ints_self_getD, Function.update_noteq, copyBigInt_eq_getD] <;>
    (repeat' constructor) <;>
    first
    | (apply getD_map_ints_eq _ _ _ h.next (by assumption); intro q hq;
       simp (disch := omega) [copyIntInto_ints_of_ne, Function.update_noteq])
    | exact Function.update_noteq (Nat.ne_of_lt (lSender _ hSender)) _ _

/-! ## Deep copies share no storage: the claim -/

/-- The copy of a `MantleInternalTx` with a `ChainId` returns, allocates only fresh
objects and denotes the copy of the payload. -/
theorem MantleInternalTx_copy_spec (t : MantleInternalTxRef) (h : Heap)
    (hc : t.ChainId.isSome = true) (hv : ∀ p ∈ t.ptrs, p < h.next) :
    ∃ r, t.copy h = some r ∧ Heap.AgreeBelow h.next h r.1 ∧
      (∀ p ∈ r.2.ptrs, h.next ≤ p) ∧ (t.read h).copy = some (r.2.read r.1) := by
  obtain ⟨x, hx⟩ := Option.isSome_iff_exists.mp hc
  have lx : x < h.next := hv x (by simp [MantleInternalTxRef.ptrs, hx])
  unfold MantleInternalTxRef.copy
  rw [hx]
  cases hData : t.Data
  · refine ⟨_, rfl, ?_, ?_, ?_⟩
    · intro q hq
      simp (disch := omega) [Heap.newInt, Heap.setInt, Heap.CopyBytes, Function.update_noteq]
    · intro p hp
      simp [MantleInternalTxRef.ptrs, Heap.newInt, Heap.setInt, Heap.CopyBytes] at hp
      omega
    · simp (disch := omega) [MantleInternalTxRef.read, MantleInternalTx.copy, Heap.newInt,
        Heap.setInt, Heap.CopyBytes, Heap.slice, Function.update_noteq, hx, hData]
  · rename_i b
    have lb : b < h.next := hv b (by simp [MantleInternalTxRef.ptrs, hData])
    refine ⟨_, rfl, ?_, ?_, ?_⟩
    · intro q hq
      simp (disch := omega) [Heap.newInt, Heap.setInt, Heap.CopyBytes, Function.update_noteq]
    · intro p hp
      simp [MantleInternalTxRef.ptrs, Heap.newInt, Heap.setInt, Heap.CopyBytes] at hp
      omega
    · simp (disch := omega) [MantleInternalTxRef.read, MantleInternalTx.copy, Heap.newInt,
        Heap.setInt, Heap.CopyBytes, Heap.slice, Function.update_noteq, hx, hData]

/-- The payload a `MantleInternalTx` denotes depends only on the objects it points to. -/
theorem MantleInternalTx_read_agree (t : MantleInternalTxRef) (n : Nat) (h h2 : Heap)
    (a : Heap.AgreeBelow n h h2) (hv : ∀ p ∈ t.ptrs, p < n) : t.read h2 = t.read h := by
  unfold MantleInternalTxRef.read
  rw [map_ints_agree n h h2 a t.ChainId
      (fun p hp => hv p (by simp [MantleInternalTxRef.ptrs, hp])),
    slice_agree n h h2 a t.Data (fun p hp => hv p (by simp [MantleInternalTxRef.ptrs, hp]))]

/-- The payload a variant denotes depends only on the objects it points to. -/
theorem TxDataRef_read_agree (d : TxDataRef) (n : Nat) (h h2 : Heap)
    (a : Heap.AgreeBelow n h h2) (hv : ∀ p ∈ d.ptrs, p < n) : d.read h2 = d.read h := by
  cases d with
  | MantleUnsignedTx tx =>
    exact congrArg TxData.MantleUnsignedTx (MantleUnsignedTx_read_agree tx n h h2 a hv)
  | MantleContractTx tx =>
    exact congrArg TxData.MantleContractTx (MantleContractTx_read_agree tx n h h2 a hv)
  | MantleRetryTx tx =>
    exact congrArg TxData.MantleRetryTx (MantleRetryTx_read_agree tx n h h2 a hv)
  | MantleSubmitRetryableTx tx =>
    exact congrArg TxData.MantleSubmitRetryableTx
      (MantleSubmitRetryableTx_read_agree tx n h h2 a hv)
  | MantleDepositTx tx =>
    exact congrArg TxData.MantleDepositTx (MantleDepositTx_read_agree tx n h h2 a hv)
  | MantleInternalTx tx =>
    exact congrArg TxData.MantleInternalTx (MantleInternalTx_read_agree tx n h h2 a hv)
  | MantleLegacyTxData tx =>
    exact congrArg TxData.MantleLegacyTxData (MantleLegacyTxData_read_agree tx n h h2 a hv)

/-- On a receiver whose pointers are allocated, `copy()` returns, leaves every object
of the heap before it in place, points only to fresh objects and denotes the copy of
the payload. -/
theorem TxDataRef_copy_spec (d : TxDataRef) (h : Heap) (hv : d.allocated h)
    (hd : d.copyDefined = true) :
    ∃ h1 cpy, d.copy h = some (h1, cpy) ∧ Heap.AgreeBelow h.next h h1 ∧
      (∀ p ∈ cpy.ptrs, h.next ≤ p) ∧ (d.read h).copy = some (cpy.read h1) := by
  cases d with
  | MantleUnsignedTx tx =>
    exact ⟨_, _, rfl, MantleUnsignedTx_copy_agree tx h, MantleUnsignedTx_copy_fresh tx h,
      congrArg (fun x => some (TxData.MantleUnsignedTx x))
        (MantleUnsignedTx_copy_read tx h hv).symm⟩
  | MantleContractTx tx =>
    exact ⟨_, _, rfl, MantleContractTx_copy_agree tx h, MantleContractTx_copy_fresh tx h,
      congrArg (fun x => some (TxData.MantleContractTx x))
        (MantleContractTx_copy_read tx h hv).symm⟩
  | MantleRetryTx tx =>
    exact ⟨_, _, rfl, MantleRetryTx_copy_agree tx h, MantleRetryTx_copy_fresh tx h,
      congrArg (fun x => some (TxData.MantleRetryTx x))
        (MantleRetryTx_copy_read tx h hv).symm⟩
  | MantleSubmitRetryableTx tx =>
    exact ⟨_, _, rfl, MantleSubmitRetryableTx_copy_agree tx h,
      MantleSubmitRetryableTx_copy_fresh tx h,
      congrArg (fun x => some (TxData.MantleSubmitRetryableTx x))
        (MantleSubmitRetryableTx_copy_read tx h hv).symm⟩
  | MantleDepositTx tx =>
    exact ⟨_, _, rfl, MantleDepositTx_copy_agree tx h, MantleDepositTx_copy_fresh tx h,
      congrArg (fun x => some (TxData.MantleDepositTx x))
        (MantleDepositTx_copy_read tx h hv).symm⟩
  | MantleInternalTx tx =>
    obtain ⟨r, h1, h2, h3, h4⟩ := MantleInternalTx_copy_spec tx h hd hv
    refine ⟨r.1, .MantleInternalTx r.2, ?_, h2, h3, ?_⟩
    · simp [TxDataRef.copy, h1]
    · simp [TxDataRef.read, TxData.copy, h4]
  | MantleLegacyTxData tx =>
    exact ⟨_, _, rfl, MantleLegacyTxData_copy_agree tx h, MantleLegacyTxData_copy_fresh tx h,
      congrArg (fun x => some (TxData.MantleLegacyTxData x))
        (MantleLegacyTxData_copy_read tx h hv).symm⟩

/-- C21: for each of the seven variants, on a heap where the receiver's pointers are
allocated (and, for `MantleInternalTx`, `ChainId` is non-nil so that `copy()` returns),
`copy()` returns a copy denoting the copy of the payload, leaves the original as it
was, gives the copy no location of the original, and an in-place write to any big
integer, backing array or address the copy points to leaves the original unchanged. -/
theorem copy_shares_no_storage (d : TxDataRef) (h : Heap) (hv : d.allocated h)
    (hd : d.copyDefined = true) :
    ∃ h1 cpy, d.copy h = some (h1, cpy) ∧
      (d.read h).copy = some (cpy.read h1) ∧
      d.read h1 = d.read h ∧
      (∀ p ∈ cpy.ptrs, p ∉ d.ptrs) ∧
      (∀ p ∈ cpy.ptrs, ∀ (v : Int) (bs a : List Nat),
        d.read (h1.setInt p v) = d.read h ∧ d.read (h1.setBytes p bs) = d.read h ∧
        d.read (h1.setAddr p a) = d.read h) := by
  obtain ⟨h1, cpy, hc, ha, hf, hr⟩ := TxDataRef_copy_spec d h hv hd
  refine ⟨h1, cpy, hc, hr, TxDataRef_read_agree d h.next h h1 ha hv, ?_, ?_⟩
  · intro p hp hq
    exact absurd (hv p hq) (Nat.not_lt.mpr (hf p hp))
  · intro p hp v bs a
    exact ⟨TxDataRef_read_agree d h.next h _
        (AgreeBelow_trans _ _ _ _ ha (AgreeBelow_setInt _ _ _ _ (hf p hp))) hv,
      TxDataRef_read_agree d h.next h _
        (AgreeBelow_trans _ _ _ _ ha (AgreeBelow_setBytes _ _ _ _ (hf p hp))) hv,
      TxDataRef_read_agree d h.next h _
        (AgreeBelow_trans _ _ _ _ ha (AgreeBelow_setAddr _ _ _ _ (hf p hp))) hv⟩

theorem copy_shares_no_storage_witness :
    (TxDataRef.MantleSubmitRetryableTx sampleSubmitRef).allocated sampleHeap ∧
    (TxDataRef.MantleSubmitRetryableTx sampleSubmitRef).copyDefined = true ∧
    ∃ h1 cpy, (TxDataRef.MantleSubmitRetryableTx sampleSubmitRef).copy sampleHeap =
        some (h1, cpy) ∧
      ((TxDataRef.MantleSubmitRetryableTx sampleSubmitRef).read sampleHeap).copy =
        some (cpy.read h1) ∧
      (TxDataRef.MantleSubmitRetryableTx sampleSubmitRef).read h1 =
        (TxDataRef.MantleSubmitRetryableTx sampleSubmitRef).read sampleHeap ∧
      (∀ p ∈ cpy.ptrs, p ∉ (TxDataRef.MantleSubmitRetryableTx sampleSubmitRef).ptrs) ∧
      (∀ p ∈ cpy.ptrs, ∀ (v : Int) (bs a : List Nat),
        (TxDataRef.MantleSubmitRetryableTx sampleSubmitRef).read (h1.setInt p v) =
          (TxDataRef.MantleSubmitRetryableTx sampleSubmitRef).read sampleHeap ∧
        (TxDataRef.MantleSubmitRetryableTx sampleSubmitRef).read (h1.setBytes p bs) =
          (TxDataRef.MantleSubmitRetryableTx sampleSubmitRef).read sampleHeap ∧
        (TxDataRef.MantleSubmitRetryableTx sampleSubmitRef).read (h1.setAddr p a) =
          (TxDataRef.MantleSubmitRetryableTx sampleSubmitRef).read sampleHeap) :=
  ⟨by decide, rfl, copy_shares_no_storage _ _ (by decide) rfl⟩

end Mantle
